import Mathlib

/-!
# Raid roster of the Stargazer bot (`index.js`)

A shallow embedding of the raid lifecycle code of `index.js`: the event store
`raids`, `createRaid`, `signUpForRaid` and `cancelSignup`, the presentation
`createRaidEmbed`, the scheduling of reminders and of the fetch of logs, the
recurring generator, saving and loading, and the parsing of `!raid create`.

Modelling conventions.

* A JavaScript object used as a dictionary (`raids`, `raid.participants`,
  `raid.roles`) is the list of its own properties in insertion order.  The keys
  the bot makes itself (millisecond clock readings, Discord snowflakes, the role
  names of `config.roles`) are not array indices, so enumeration follows
  insertion order, and they are not names of `Object.prototype`, so a read with
  such a key is `JsObject.get`.  A read with a key that a user types, as in
  `!raid join`, `!raid delete` and `!raid schedule`, is `JsObject.read`, which
  also finds the members inherited from `Object.prototype`.
* The global `raids` is passed in and returned explicitly; a function that
  mutates `raids[raidId]` in place returns the store with that entry replaced.
  A run that can throw returns an `Outcome`; `sendRaidReminder`, whose error the
  callback only logs, returns an `Option`.
* `new Date().toISOString()` and `Date.now()` are inputs (`now`, `dateNow`),
  instants being integers of milliseconds since the epoch.
* `saveRaids()` writes the store to disk and does not change it; it is not part
  of the state transformer.
* For the scheduled jobs the bot is a `World`: raid objects live in a heap, so
  that a callback can hold the object it closed over, `raids` maps ids to
  objects, and the calls made to `cron.schedule`, `channel.send` and
  `getCharacterLogs` are recorded.  A job of `node-cron` stays registered after
  it has run; `cronMatches` tells at which instants its five-field expression
  lets it run.
* `EmbedBuilder` is the record of the values handed to it, `setTimestamp()`
  recording the time of the call, and `Embed.accepted` tells whether the setters
  of the library take the values or throw.  The renderings that go through
  floating point or the locale (`killRatio`, `bestPull`, `toLocaleDateString`)
  are outside the model.
* The getters of `Date` read the zone of the host as a `TimeZone`, the offset at
  an instant; the setters `setDate` and `setHours` of the recurring generator
  also go from local time back to an instant and read a `Zone`.
* `JSON.stringify` and `JSON.parse` work on JSON trees; the text in between is
  not modelled, and the ISO string of a date stands for its instant.
-/

namespace Stargazer

/-! ## JavaScript objects and arrays -/

/-- Own properties of a plain JavaScript object, in insertion order. -/
abbrev JsObject (α : Type) := List (String × α)

namespace JsObject

variable {α : Type}

/-- Property read `o[k]`: `none` stands for `undefined`. -/
def get : JsObject α → String → Option α
  | [], _ => none
  | (k', v) :: t, k => if k' = k then some v else get t k

/-- Property write `o[k] = v`: an existing key keeps its place, a new key goes last. -/
def set : JsObject α → String → α → JsObject α
  | [], k, v => [(k, v)]
  | (k', v') :: t, k, v => if k' = k then (k, v) :: t else (k', v') :: set t k v

/-- Property removal `delete o[k]`. -/
def delete (o : JsObject α) (k : String) : JsObject α :=
  o.filter (fun e => decide (e.1 ≠ k))

/-- The array `Object.values(o)`. -/
def values (o : JsObject α) : List α := o.map Prod.snd

/-- The array `Object.keys(o)`. -/
def keys (o : JsObject α) : List String := o.map Prod.fst

end JsObject

/-- The method `Array.prototype.findIndex`: `none` stands for `-1`. -/
def findIndex {α : Type} (p : α → Bool) : List α → Option Nat
  | [] => none
  | a :: t => if p a then some 0 else (findIndex p t).map (· + 1)

/-- The outcome of a property read `o[k]` on a plain object: the own property `k`, else
the member `k` that the object inherits from `Object.prototype`, else `undefined`.  An
inherited member is kept as the value of its property `name`. -/
inductive Property (α : Type) where
  | own (value : α)
  | inherited (name : Option String)
  | undefined
deriving DecidableEq, Repr

/-- The outcome of a run of a function: the value it returns, or the error it throws. -/
inductive Outcome (α : Type) where
  | returned (value : α)
  | thrown (error : String)
deriving DecidableEq, Repr

/-- The members a plain object inherits from `Object.prototype`, each with the value of its
property `name`: the functions are named after themselves, the constructor is `Object`, and
`__proto__` reads as `Object.prototype`, which has no `name`.  All of them are truthy, and
none has a property `participants`. -/
def objectPrototype : JsObject (Option String) :=
  [("constructor", some "Object"),
   ("__defineGetter__", some "__defineGetter__"),
   ("__defineSetter__", some "__defineSetter__"),
   ("hasOwnProperty", some "hasOwnProperty"),
   ("__lookupGetter__", some "__lookupGetter__"),
   ("__lookupSetter__", some "__lookupSetter__"),
   ("isPrototypeOf", some "isPrototypeOf"),
   ("propertyIsEnumerable", some "propertyIsEnumerable"),
   ("toString", some "toString"),
   ("valueOf", some "valueOf"),
   ("__proto__", none),
   ("toLocaleString", some "toLocaleString")]

/-- Property read `o[k]` with the prototype chain of a plain object, for a key that comes
from a user: own properties first, then `Object.prototype`. -/
def JsObject.read {α : Type} (o : JsObject α) (k : String) : Property α :=
  match o.get k with
  | some v => Property.own v
  | none =>
    match objectPrototype.get k with
    | some name => Property.inherited name
    | none => Property.undefined

/-! ## Configuration -/

namespace config

/-- The list `config.roles`. -/
def roles : List String :=
  ["Tank", "Regen Healer", "Shield Healer", "Melee DPS", "Ranged DPS", "Caster DPS", "Flex"]

/-- The object `config.defaultRaidComp`. -/
def defaultRaidComp : JsObject Int :=
  [("Tank", 2), ("Regen Healer", 1), ("Shield Healer", 1), ("Melee DPS", 2),
   ("Ranged DPS", 1), ("Caster DPS", 1), ("Flex", 0)]

/-- The number `config.maxPartySize`. -/
def maxPartySize : Nat := 8

end config

/-! ## Data model -/

/-- A value of `raid.participants`. -/
structure Participant where
  username : String
  role : String
  timestamp : Int
deriving DecidableEq, Repr

/-- An element of `raid.waitlist`. -/
structure WaitlistEntry where
  userId : String
  username : String
  role : String
  timestamp : Int
deriving DecidableEq, Repr

/-- A value of `raids`: the record built by `createRaid`, with the `messageId` and
`channelId` the command handler attaches once the announcement is posted. -/
structure Raid where
  id : String
  name : String
  description : String
  datetime : Int
  partySize : Nat
  roles : JsObject Int
  participants : JsObject Participant
  waitlist : List WaitlistEntry
  remindersSent : List String
  raidType : Option String
  guideLink : Option String
  messageId : Option String
  channelId : Option String
deriving DecidableEq, Repr

/-- The global `raids`. -/
abbrev Store := JsObject Raid

/-- The object returned by `signUpForRaid`. -/
structure SignUpResult where
  success : Bool
  message : String
deriving DecidableEq, Repr

/-! ## Operations -/

/-- The function `createRaid`; returns the new store and the raid id. -/
def createRaid (raids : Store) (name description : String) (datetime : Int)
    (raidType : Option String) (partySize : Nat) (roles : JsObject Int)
    (guideLink : Option String) (dateNow : Nat) : Store × String :=
  let raidId := toString dateNow
  let roles := if roles.keys.length = 0 then config.defaultRaidComp else roles
  (raids.set raidId
    { id := raidId
      name := name
      description := description
      datetime := datetime
      partySize := partySize
      roles := roles
      participants := []
      waitlist := []
      remindersSent := []
      raidType := raidType
      guideLink := guideLink
      messageId := none
      channelId := none },
   raidId)

/-- The count `Object.values(participants).filter(p => p.role === role).length`. -/
def countRole (participants : JsObject Participant) (role : String) : Nat :=
  (participants.values.filter (fun p => p.role == role)).length

/-- The local `roleCount` of `signUpForRaid`. -/
def roleCount (raid : Raid) (role : String) : Nat :=
  countRole raid.participants role

/-- The local `roleLimit` of `signUpForRaid`: `raid.roles[role] || 0`. -/
def roleLimit (raid : Raid) (role : String) : Int :=
  (raid.roles.get role).getD 0

/-- The function `signUpForRaid`; returns the new store and the result object. -/
def signUpForRaid (raids : Store) (raidId userId username role : String) (now : Int) :
    Store × SignUpResult :=
  match raids.get raidId with
  | none => (raids, ⟨false, "Raid not found!"⟩)
  | some raid =>
    if ¬ config.roles.contains role then
      (raids, ⟨false, "Invalid role. Please choose from: " ++ ", ".intercalate config.roles⟩)
    else
      match raid.participants.get userId with
      | some p => (raids, ⟨false, "You\x27re already signed up as " ++ p.role⟩)
      | none =>
        if roleLimit raid role > 0 ∧ (roleCount raid role : Int) ≥ roleLimit raid role then
          (raids.set raidId
            { raid with waitlist := raid.waitlist ++ [⟨userId, username, role, now⟩] },
           ⟨false, "Role " ++ role ++ " is full. You\x27ve been added to the waitlist."⟩)
        else
          (raids.set raidId
            { raid with participants := raid.participants.set userId ⟨username, role, now⟩ },
           ⟨true, "You\x27ve signed up for " ++ raid.name ++ " as " ++ role⟩)

/-- The function `cancelSignup`; returns the new store and the boolean result. -/
def cancelSignup (raids : Store) (raidId userId : String) (now : Int) : Store × Bool :=
  match raids.get raidId with
  | none => (raids, false)
  | some raid =>
    match raid.participants.get userId with
    | none => (raids, false)
    | some p =>
      let role := p.role
      let participants := raid.participants.delete userId
      match findIndex (fun w => w.role == role) raid.waitlist with
      | none => (raids.set raidId { raid with participants := participants }, true)
      | some waitlistIndex =>
        match raid.waitlist[waitlistIndex]? with
        | none => (raids.set raidId { raid with participants := participants }, true)
        | some nextPerson =>
          (raids.set raidId
            { raid with
              participants :=
                participants.set nextPerson.userId ⟨nextPerson.username, nextPerson.role, now⟩
              waitlist := raid.waitlist.eraseIdx waitlistIndex },
           true)

/-- The function `signUpForRaid` for any raid id, a name of `Object.prototype` included:
a run returns, or throws.  For such a name that is not a key of `raids`, `raids[raidId]` is
the inherited member, `!raid` is false, and with a recognized role the run goes on to
`raid.participants[userId]`, where `raid.participants` is `undefined`: a `TypeError`.  For
a key of `raids` the run is that of `signUpForRaid` above. -/
def signUpForRaidRun (raids : Store) (raidId userId username role : String) (now : Int) :
    Outcome (Store × SignUpResult) :=
  match raids.read raidId with
  | Property.undefined => Outcome.returned (raids, ⟨false, "Raid not found!"⟩)
  | Property.inherited _ =>
    if ¬ config.roles.contains role then
      Outcome.returned
        (raids, ⟨false, "Invalid role. Please choose from: " ++ ", ".intercalate config.roles⟩)
    else
      Outcome.thrown
        ("TypeError: Cannot read properties of undefined (reading \x27" ++ userId ++ "\x27)")
  | Property.own _ => Outcome.returned (signUpForRaid raids raidId userId username role now)

/-! ## Reachable stores -/

/-- Stores reached from the initial `raids = {}` by calls of `createRaid`, `signUpForRaid`
and `cancelSignup` with arbitrary arguments. -/
inductive Reachable : Store → Prop
  | init : Reachable []
  | create {raids : Store} (name description : String) (datetime : Int)
      (raidType : Option String) (partySize : Nat) (roles : JsObject Int)
      (guideLink : Option String) (dateNow : Nat) :
      Reachable raids →
      Reachable (createRaid raids name description datetime raidType partySize roles
        guideLink dateNow).1
  | signUp {raids : Store} (raidId userId username role : String) (now : Int) :
      Reachable raids → Reachable (signUpForRaid raids raidId userId username role now).1
  | cancel {raids : Store} (raidId userId : String) (now : Int) :
      Reachable raids → Reachable (cancelSignup raids raidId userId now).1

/-- Stores reached as in `Reachable`, where `signUpForRaid` is only called for a user who is
not on the waitlist of the raid at the time of the call. -/
inductive ReachableOffWaitlist : Store → Prop
  | init : ReachableOffWaitlist []
  | create {raids : Store} (name description : String) (datetime : Int)
      (raidType : Option String) (partySize : Nat) (roles : JsObject Int)
      (guideLink : Option String) (dateNow : Nat) :
      ReachableOffWaitlist raids →
      ReachableOffWaitlist (createRaid raids name description datetime raidType partySize roles
        guideLink dateNow).1
  | signUp {raids : Store} (raidId userId username role : String) (now : Int) :
      (∀ raid, raids.get raidId = some raid → ∀ w ∈ raid.waitlist, w.userId ≠ userId) →
      ReachableOffWaitlist raids →
      ReachableOffWaitlist (signUpForRaid raids raidId userId username role now).1
  | cancel {raids : Store} (raidId userId : String) (now : Int) :
      ReachableOffWaitlist raids →
      ReachableOffWaitlist (cancelSignup raids raidId userId now).1

/-- Every role count of the raid is within the role limit, for the limits above zero. -/
def CapacityOk (raid : Raid) : Prop :=
  ∀ r l, raid.roles.get r = some l → 0 < l → (roleCount raid r : Int) ≤ l

/-- No user on the waitlist of the raid is a participant, and no user is on it twice. -/
def WaitlistOk (raid : Raid) : Prop :=
  (∀ w ∈ raid.waitlist, raid.participants.get w.userId = none) ∧
    (raid.waitlist.map (fun w => w.userId)).Nodup

/-- Successive `signUpForRaid` calls for one raid and role, one per `(userId, username)`;
returns the final store and the results in call order. -/
def signUpEach (raids : Store) (raidId role : String) (now : Int) :
    List (String × String) → Store × List SignUpResult
  | [] => (raids, [])
  | (userId, username) :: rest =>
    let out := signUpForRaid raids raidId userId username role now
    let outs := signUpEach out.1 raidId role now rest
    (outs.1, out.2 :: outs.2)

/-! ## Sample runs -/

/-- A store with one raid `"1700000000042"` whose only limit is `Tank: 1`. -/
def tankStore : Store :=
  (createRaid [] "Eden" "Prog" 1000 none 8 [("Tank", 1)] none 1700000000042).1

/-- In `tankStore`, user `A` has signed up as Tank and is accepted. -/
def tankStoreA : Store :=
  (signUpForRaid tankStore "1700000000042" "A" "alice" "Tank" 1).1

/-- In `tankStoreA`, user `B` has signed up as Tank and is waitlisted. -/
def tankStoreAB : Store :=
  (signUpForRaid tankStoreA "1700000000042" "B" "bob" "Tank" 2).1

/-- In `tankStoreAB`, user `B` has signed up again, as Flex, and is accepted. -/
def tankStoreABB : Store :=
  (signUpForRaid tankStoreAB "1700000000042" "B" "bob" "Flex" 3).1

/-- The raid of `tankStore`. -/
def tankRaid : Raid :=
  { id := "1700000000042"
    name := "Eden"
    description := "Prog"
    datetime := 1000
    partySize := 8
    roles := [("Tank", 1)]
    participants := []
    waitlist := []
    remindersSent := []
    raidType := none
    guideLink := none
    messageId := none
    channelId := none }

/-- The raid of `tankStoreAB`: `A` is the Tank, `B` waits for Tank. -/
def tankRaidAB : Raid :=
  { tankRaid with
    participants := [("A", ⟨"alice", "Tank", 1⟩)]
    waitlist := [⟨"B", "bob", "Tank", 2⟩] }

/-- The raid of `tankStoreABB`: `B` is a Flex participant and still waits for Tank. -/
def tankRaidABB : Raid :=
  { tankRaid with
    participants := [("A", ⟨"alice", "Tank", 1⟩), ("B", ⟨"bob", "Flex", 3⟩)]
    waitlist := [⟨"B", "bob", "Tank", 2⟩] }

/-! ## Dates

Instants are integers of milliseconds since the epoch; the getters of `Date` read local
time, which depends on the time zone of the host. -/

/-- Time zone of the host: the minutes local time is ahead of UTC at an instant (the
negated `getTimezoneOffset()`). -/
abbrev TimeZone := Int → Int

/-- Time zone UTC. -/
def utc : TimeZone := fun _ => 0

/-- Whole minutes of local time elapsed since the epoch at instant `t`. -/
def localMinute (tz : TimeZone) (t : Int) : Int := t / 60000 + tz t

/-- Year, month (1 to 12) and day of the month of the day that lies `z` days after
1970-01-01, in the proleptic Gregorian calendar of `Date`. -/
def civilFromDays (z : Int) : Int × Int × Int :=
  let z := z + 719468
  let era := z / 146097
  let doe := z - era * 146097
  let yoe := (doe - doe / 1460 + doe / 36524 - doe / 146096) / 365
  let doy := doe - (365 * yoe + yoe / 4 - yoe / 100)
  let mp := (5 * doy + 2) / 153
  let d := doy - (153 * mp + 2) / 5 + 1
  let m := if mp < 10 then mp + 3 else mp - 9
  let y := yoe + era * 400 + (if m ≤ 2 then 1 else 0)
  (y, m, d)

/-- The method `Date.prototype.getMinutes`. -/
def getMinutes (tz : TimeZone) (t : Int) : Int := localMinute tz t % 60

/-- The method `Date.prototype.getHours`. -/
def getHours (tz : TimeZone) (t : Int) : Int := localMinute tz t / 60 % 24

/-- The method `Date.prototype.getDate`. -/
def getDate (tz : TimeZone) (t : Int) : Int := (civilFromDays (localMinute tz t / 1440)).2.2

/-- The method `Date.prototype.getMonth`, counting from 0. -/
def getMonth (tz : TimeZone) (t : Int) : Int :=
  (civilFromDays (localMinute tz t / 1440)).2.1 - 1

/-- The method `Date.prototype.getDay`: 0 is Sunday; 1970-01-01 was a Thursday. -/
def getDay (tz : TimeZone) (t : Int) : Int := (localMinute tz t / 1440 + 4) % 7

/-- The local `cronExpression` of `scheduleReminders` and `scheduleLogsFetch`, for the
`Date` with time value `t`: minute, hour, day of the month, month, any day of the week. -/
def cronExpression (tz : TimeZone) (t : Int) : String :=
  toString (getMinutes tz t) ++ " " ++ toString (getHours tz t) ++ " " ++
    toString (getDate tz t) ++ " " ++ toString (getMonth tz t + 1) ++ " *"

/-! ## Cron expressions

The reading `node-cron` gives to the expressions the bot builds: five fields, for the
minute, the hour, the day of the month, the month and the day of the week, each `*` or a
number.  A job runs at the start of every minute whose local time all five fields admit;
an expression has no field for the year. -/

/-- The number a text of decimal digits stands for: `none` for the empty text and for a
text with another character. -/
def decimal? (s : List Char) : Option Nat :=
  if s = [] ∨ s.any (fun c => ¬ c.isDigit) then none
  else some (s.foldl (fun n c => n * 10 + (c.toNat - 48)) 0)

/-- The pieces of a text between its spaces. -/
def splitSpaces : List Char → List (List Char)
  | [] => [[]]
  | c :: rest =>
    if c = ' ' then [] :: splitSpaces rest
    else
      match splitSpaces rest with
      | [] => [[c]]
      | piece :: pieces => (c :: piece) :: pieces

/-- Whether a field of a cron expression admits `value`: `*` admits every value and a
number admits itself.  Lists, ranges and steps are not in the expressions of the bot and
admit nothing here. -/
def cronField (field : List Char) (value : Int) : Bool :=
  field == ['*'] || (decimal? field).map Int.ofNat == some value

/-- Whether `node-cron` runs a job with the five-field `expression` at instant `t`, on a
host with time zone `tz`. -/
def cronMatches (tz : TimeZone) (expression : String) (t : Int) : Bool :=
  match splitSpaces expression.data with
  | [minute, hour, dayOfMonth, month, dayOfWeek] =>
    decide (t % 60000 = 0) && cronField minute (getMinutes tz t) &&
      cronField hour (getHours tz t) && cronField dayOfMonth (getDate tz t) &&
      cronField month (getMonth tz t + 1) && cronField dayOfWeek (getDay tz t)
  | _ => false

/-! ## Presentation -/

/-- A field object passed to `EmbedBuilder.addFields`. -/
structure EmbedField where
  name : String
  value : String
  inline : Bool
deriving DecidableEq, Repr

/-- The data of an `EmbedBuilder`; `timestamp` is the instant `setTimestamp()` records,
the time of the call. -/
structure Embed where
  title : String
  description : String
  fields : List EmbedField
  color : String
  footer : String
  timestamp : Int
deriving DecidableEq, Repr

/-- Truthiness of a value that is `null`, `undefined` or a string. -/
def truthy : Option String → Bool
  | none => false
  | some s => s != ""

/-- The local `roleBreakdown` of `createRaidEmbed`. -/
def roleBreakdown (raid : Raid) : List EmbedField :=
  (raid.roles.filter (fun e => decide (e.2 > 0))).map (fun e =>
    let signedUp :=
      (raid.participants.values.filter (fun p => p.role == e.1)).map (fun p => p.username)
    let count := signedUp.length
    { name := e.1 ++ " (" ++ toString count ++ "/" ++ toString e.2 ++ ")"
      value := if signedUp.length > 0 then "\n".intercalate signedUp else "None"
      inline := true })

/-- The function `createRaidEmbed`, called at instant `now`. -/
def createRaidEmbed (raid : Raid) (now : Int) : Embed :=
  let discordTimestamp := "<t:" ++ toString (raid.datetime / 1000) ++ ":F>"
  let relativeTime := "<t:" ++ toString (raid.datetime / 1000) ++ ":R>"
  let fields :=
    if raid.waitlist.length > 0 then
      roleBreakdown raid ++
        [{ name := "Waitlist"
           value := "\n".intercalate
             (raid.waitlist.map (fun w => w.username ++ " (" ++ w.role ++ ")"))
           inline := false }]
    else roleBreakdown raid
  let description :=
    if truthy raid.guideLink then
      raid.description ++ "\n\n**Guide:** " ++ raid.guideLink.getD ""
    else raid.description
  let footer :=
    if truthy raid.raidType then
      "Raid ID: " ++ raid.id ++ " | Type: " ++ raid.raidType.getD ""
    else "Raid ID: " ++ raid.id
  { title := raid.name
    description := description
    fields :=
      { name := "Date & Time", value := discordTimestamp ++ "\n" ++ relativeTime,
        inline := false } :: fields
    color := "#FF5252"
    footer := footer
    timestamp := now }

/-- The property `length` of a JavaScript string: its UTF-16 code units. -/
def jsLength (s : String) : Nat :=
  (s.data.map (fun c => if c.val < 0x10000 then 1 else 2)).sum

/-- Whether `EmbedBuilder` takes the values `createRaidEmbed` hands to it.  The setters of
the library check their arguments and throw when a check fails: `setTitle` wants 1 to 256
characters, `setDescription` 1 to 4096, `addFields` at most 25 fields with a name of 1 to
256 and a value of 1 to 1024 characters each, `setFooter` a text of 1 to 2048 characters.
The colour `#FF5252` and the timestamp pass. -/
def Embed.accepted (e : Embed) : Bool :=
  decide (1 ≤ jsLength e.title ∧ jsLength e.title ≤ 256) &&
  decide (1 ≤ jsLength e.description ∧ jsLength e.description ≤ 4096) &&
  decide (e.fields.length ≤ 25) &&
  e.fields.all (fun f =>
    decide (1 ≤ jsLength f.name ∧ jsLength f.name ≤ 256) &&
    decide (1 ≤ jsLength f.value ∧ jsLength f.value ≤ 1024)) &&
  decide (1 ≤ jsLength e.footer ∧ jsLength e.footer ≤ 2048)

/-! ## Scheduled jobs and the running bot -/

namespace config

/-- An element of `config.reminderTimes`. -/
structure ReminderTime where
  name : String
  minutes : Int
deriving DecidableEq, Repr

/-- The list `config.reminderTimes`. -/
def reminderTimes : List ReminderTime :=
  [⟨"24 hours", 24 * 60⟩, ⟨"3 hours", 3 * 60⟩, ⟨"1 hour", 60⟩]

namespace fflogs

/-- The number `config.fflogs.updateInterval`, in minutes. -/
def updateInterval : Int := 30

end fflogs

end config

/-- The callback of a `cron.schedule` call with the variables it closes over: the reminder
callback of `scheduleReminders` holds `raidId`, the raid object `raid` (a reference) and
`reminder.name`; the callback of `scheduleLogsFetch` holds `raidId`. -/
inductive Job where
  | reminder (raidId : String) (raid : Nat) (name : String)
  | logsFetch (raidId : String)
deriving DecidableEq, Repr

/-- A job registered by `cron.schedule(cronExpression, callback)`. -/
structure Task where
  cronExpression : String
  job : Job
deriving DecidableEq, Repr

/-- An element of a `characterLogs[userId]` array. -/
structure Character where
  id : Nat
  name : String
  server : String
  region : String
  lodestoneId : Nat
deriving DecidableEq, Repr

/-- An element of `logs.reports`, with the fields `getStaticPerformance` adds up. -/
structure Report where
  zone : String
  totalFights : Nat
  kills : Nat
deriving DecidableEq, Repr

/-- An element of `stats.participants`. -/
structure ParticipantStats where
  discordId : String
  character : String
  server : String
  role : String
  recentLogs : Nat
deriving DecidableEq, Repr

/-- A value of `stats.zoneAnalysis`; the floating-point fields `bestPull` and `killRatio`
are left out. -/
structure ZoneStats where
  totalPulls : Nat
  totalKills : Nat
  participation : Nat
deriving DecidableEq, Repr

/-- The object `stats` of `getStaticPerformance`; the locale-dependent `date` is left
out. -/
structure Stats where
  raid : String
  participants : List ParticipantStats
  zoneAnalysis : JsObject ZoneStats
deriving DecidableEq, Repr

/-- A `channel.send` call that went through. -/
inductive Message where
  | reminder (channelId : String) (content : String) (embed : Embed)
  | performance (channelId : String) (content : String) (stats : Stats)
deriving DecidableEq, Repr

/-- The running bot: raid objects live in `heap` and are named by their index, the global
`raids` maps a raid id to its object, `tasks` are the jobs registered with `cron.schedule`,
`outbox` the messages sent and `lookups` the character ids passed to `getCharacterLogs`. -/
structure World where
  heap : List Raid
  raids : JsObject Nat
  characterLogs : JsObject (List Character)
  tasks : List Task
  outbox : List Message
  lookups : List Nat
deriving DecidableEq, Repr

namespace World

/-- The bot at start-up: `raids = {}`, `characterLogs = {}`, nothing scheduled. -/
def init : World :=
  { heap := [], raids := [], characterLogs := [], tasks := [], outbox := [], lookups := [] }

/-- The value of `raids[raidId]`: the object and its reference. -/
def raid? (w : World) (raidId : String) : Option (Nat × Raid) :=
  match w.raids.get raidId with
  | none => none
  | some ref =>
    match w.heap[ref]? with
    | none => none
    | some raid => some (ref, raid)

/-- The store as a table of values: each raid id with the object it names. -/
def store (w : World) : Store :=
  w.raids.filterMap (fun e => (w.heap[e.2]?).map (fun raid => (e.1, raid)))

/-- The function `scheduleReminders`, called at instant `now`. -/
def scheduleReminders (w : World) (tz : TimeZone) (now : Int) (raidId : String) : World :=
  match w.raid? raidId with
  | none => w
  | some (ref, raid) =>
    config.reminderTimes.foldl
      (fun w reminder =>
        let reminderTime := raid.datetime - reminder.minutes * 60000
        if reminderTime > now ∧ ¬ raid.remindersSent.contains reminder.name then
          { w with
            tasks := w.tasks ++
              [⟨cronExpression tz reminderTime, Job.reminder raidId ref reminder.name⟩] }
        else w)
      w

/-- The function `scheduleLogsFetch`, called at instant `now`. -/
def scheduleLogsFetch (w : World) (tz : TimeZone) (now : Int) (raidId : String) : World :=
  match w.raid? raidId with
  | none => w
  | some (_, raid) =>
    let fetchTime := raid.datetime + config.fflogs.updateInterval * 60000
    if fetchTime > now then
      { w with tasks := w.tasks ++ [⟨cronExpression tz fetchTime, Job.logsFetch raidId⟩] }
    else w

/-- The function `createRaid` of the running bot: the new object is stored under the id
read from the clock, then `scheduleReminders` and `scheduleLogsFetch` run. -/
def createRaid (w : World) (tz : TimeZone) (name description : String) (datetime : Int)
    (raidType : Option String) (partySize : Nat) (roles : JsObject Int)
    (guideLink : Option String) (dateNow : Nat) : World × String :=
  let raidId := toString dateNow
  let roles := if roles.keys.length = 0 then config.defaultRaidComp else roles
  let w₁ : World :=
    { w with
      heap := w.heap ++
        [{ id := raidId
           name := name
           description := description
           datetime := datetime
           partySize := partySize
           roles := roles
           participants := []
           waitlist := []
           remindersSent := []
           raidType := raidType
           guideLink := guideLink
           messageId := none
           channelId := none }]
      raids := w.raids.set raidId w.heap.length }
  let w₂ := scheduleReminders w₁ tz dateNow raidId
  let w₃ := scheduleLogsFetch w₂ tz dateNow raidId
  (w₃, raidId)

/-- The function `loadRaids`.  The argument `file` is `none` when `raids.json` does not
exist, `some none` when reading or parsing it throws, and `some (some table)` when
`JSON.parse` returns `table`, whose raids become new objects. -/
def loadRaids (w : World) (tz : TimeZone) (now : Int) (file : Option (Option Store)) :
    World :=
  match file with
  | none => w
  | some none => w
  | some (some table) =>
    let w₁ : World :=
      { w with
        heap := w.heap ++ table.values
        raids := table.keys.enum.map (fun e => (e.2, w.heap.length + e.1)) }
    w₁.raids.keys.foldl (fun w raidId => scheduleReminders w tz now raidId) w₁

/-- The change the `!raid delete` handler makes to `raids`. -/
def deleteRaid (w : World) (raidId : String) : World :=
  match w.raid? raidId with
  | none => w
  | some _ => { w with raids := w.raids.delete raidId }

/-- The function `sendRaidReminder`, called at instant `now`; `delivered` tells whether
`client.channels.fetch` and `channel.send` went through or threw, which the function
catches itself.  The call of `createRaidEmbed` stands outside that `try`: when
`EmbedBuilder` rejects the values, the exception leaves the function and the result is
`none`. -/
def sendRaidReminder (w : World) (raidId reminderType : String) (delivered : Bool)
    (now : Int) : Option World :=
  match w.raid? raidId with
  | none => some w
  | some (_, raid) =>
    let raidEmbed := createRaidEmbed raid now
    if raidEmbed.accepted = false then none
    else
      let mentions :=
        " ".intercalate (raid.participants.keys.map (fun userId => "<@" ++ userId ++ ">"))
      let content :=
        "**" ++ reminderType ++ " Reminder** for " ++ raid.name ++ "! " ++ mentions
      let content :=
        if truthy raid.guideLink then
          content ++ "\n\nDon\x27t forget to study. We are using this guide: " ++
            raid.guideLink.getD ""
        else content
      if truthy raid.messageId ∧ truthy raid.channelId then
        if delivered then
          some
            { w with
              outbox := w.outbox ++
                [Message.reminder (raid.channelId.getD "") content raidEmbed] }
        else some w
      else some w

/-- The reminder callback registered by `scheduleReminders`: `sendRaidReminder`, then the
label is pushed on the `remindersSent` of the raid object the callback holds.  When
`sendRaidReminder` throws, the `catch` of the callback logs the error and the push is
skipped. -/
def reminderCallback (w : World) (raidId : String) (ref : Nat) (name : String)
    (delivered : Bool) (now : Int) : World :=
  match sendRaidReminder w raidId name delivered now with
  | none => w
  | some w₁ =>
    { w₁ with
      heap := w₁.heap.modify
        (fun raid => { raid with remindersSent := raid.remindersSent ++ [name] }) ref }

end World

namespace World

/-- The update of `stats.zoneAnalysis` for one report in `getStaticPerformance`. -/
def addReport (zoneAnalysis : JsObject ZoneStats) (report : Report) : JsObject ZoneStats :=
  let zoneData := (zoneAnalysis.get report.zone).getD ⟨0, 0, 0⟩
  zoneAnalysis.set report.zone
    { totalPulls := zoneData.totalPulls + report.totalFights
      totalKills := zoneData.totalKills + report.kills
      participation := zoneData.participation + 1 }

/-- The function `getStaticPerformance`.  The argument `logs` gives the outcome of the
`getCharacterLogs` call made for a participant: `none` for `success: false`, else the
reports.  Returns `stats` (`none` for `Raid not found`) and the character ids looked up. -/
def getStaticPerformance (w : World) (raidId : String)
    (logs : String → Option (List Report)) : Option Stats × List Nat :=
  match w.raid? raidId with
  | none => (none, [])
  | some (_, raid) =>
    let out : Stats × List Nat :=
      raid.participants.keys.foldl
        (fun acc userId =>
          match w.characterLogs.get userId with
          | none => acc
          | some [] => acc
          | some (character :: _) =>
            match logs userId with
            | none => (acc.1, acc.2 ++ [character.id])
            | some reports =>
              ({ acc.1 with
                 participants := acc.1.participants ++
                   [{ discordId := userId
                      character := character.name
                      server := character.server
                      role := ((raid.participants.get userId).map (fun p => p.role)).getD ""
                      recentLogs := reports.length }]
                 zoneAnalysis := reports.foldl addReport acc.1.zoneAnalysis },
               acc.2 ++ [character.id]))
        ({ raid := raid.name, participants := [], zoneAnalysis := [] }, [])
    (some out.1, out.2)

/-- The function `autoFetchLogsAfterRaid`; `delivered` tells whether
`client.channels.fetch` and `channel.send` went through or threw. -/
def autoFetchLogsAfterRaid (w : World) (raidId : String)
    (logs : String → Option (List Report)) (delivered : Bool) : World :=
  match w.raid? raidId with
  | none => w
  | some (_, raid) =>
    let performance := getStaticPerformance w raidId logs
    let w₁ : World := { w with lookups := w.lookups ++ performance.2 }
    match performance.1 with
    | none => w₁
    | some stats =>
      if truthy raid.channelId then
        if delivered then
          { w₁ with
            outbox := w₁.outbox ++
              [Message.performance (raid.channelId.getD "") "**Raid Performance Report**" stats] }
        else w₁
      else w₁

/-- A run of the callback of a registered job. -/
def runJob (w : World) (job : Job) (logs : String → Option (List Report))
    (delivered : Bool) (now : Int) : World :=
  match job with
  | Job.reminder raidId ref name => reminderCallback w raidId ref name delivered now
  | Job.logsFetch raidId => autoFetchLogsAfterRaid w raidId logs delivered

end World

/-! ## Sample runs of the bot -/

/-- The raid created at instant 1700000000000 (2023-11-14 22:13:20 UTC) for 90 minutes
later, with the default composition. -/
def soonRaid : Raid :=
  { id := "1700000000000"
    name := "Eden"
    description := "Prog"
    datetime := 1700000000000 + 5400000
    partySize := 8
    roles := config.defaultRaidComp
    participants := []
    waitlist := []
    remindersSent := []
    raidType := none
    guideLink := none
    messageId := none
    channelId := none }

/-- The bot after `createRaid` has made `soonRaid`, on a host in UTC. -/
def soonWorld : World :=
  (World.createRaid World.init utc "Eden" "Prog" (1700000000000 + 5400000) none 8 [] none
    1700000000000).1

/-- The job `createRaid` registers for the `1 hour` reminder of `soonRaid`. -/
def soonReminder : Job := Job.reminder "1700000000000" 0 "1 hour"

/-- The bot `soonWorld` after the announcement of the raid is posted: the handler attaches
`messageId` and `channelId` to the raid object. -/
def postedWorld : World :=
  { soonWorld with heap := [{ soonRaid with messageId := some "m1", channelId := some "c1" }] }

/-- The raid of `soonWorld` as `JSON.parse` reads it back from `raids.json`. -/
def soonTable : Store := [("1700000000000", soonRaid)]

/-- The bot `postedWorld` after the raid is deleted; its two jobs stay registered. -/
def deletedWorld : World := World.deleteRaid postedWorld "1700000000000"

/-- The raid created at instant 1700000000000 for 400 days later, 2024-12-18 22:13:20
UTC, with the default composition. -/
def farRaid : Raid := { soonRaid with datetime := 1700000000000 + 400 * 86400000 }

/-- The bot after `createRaid` has made `farRaid`, on a host in UTC. -/
def farWorld : World :=
  (World.createRaid World.init utc "Eden" "Prog" (1700000000000 + 400 * 86400000) none 8 []
    none 1700000000000).1

/-- The bot after `createRaid` has made the raid of `soonWorld` with an empty description,
as the `!raid create` handler passes it on for a second argument `""`. -/
def blankWorld : World :=
  (World.createRaid World.init utc "Eden" "" (1700000000000 + 5400000) none 8 [] none
    1700000000000).1

/-- No analytics lookup succeeds. -/
def noLogs : String → Option (List Report) := fun _ => none

/-! ## Role limits by reference

Whether the `roles` of a new raid are the object `config.defaultRaidComp` itself is a
question about references.  Here the objects of role limits live in a list and are named
by their index; the object `config.defaultRaidComp` has the index 0. -/

namespace config

/-- The reference of the object `config.defaultRaidComp`. -/
def defaultRaidCompRef : Nat := 0

end config

/-- The function `createRaid` with its argument `roles` as a reference: an object without
keys is replaced by `{...config.defaultRaidComp}`, a new object that holds the properties
the default composition has at the time of the call, and an object with a key is stored as
it is.  Returns the objects after the call, the reference stored in the field `roles` of
the new raid, and the store and id as `createRaid` returns them for the contents; `none`
when `roles` names no object. -/
def createRaidByRef (objects : List (JsObject Int)) (raids : Store)
    (name description : String) (datetime : Int) (raidType : Option String)
    (partySize : Nat) (roles : Nat) (guideLink : Option String) (dateNow : Nat) :
    Option (List (JsObject Int) × Nat × Store × String) :=
  match objects[roles]? with
  | none => none
  | some contents =>
    if contents.keys.length = 0 then
      let copy := (objects[config.defaultRaidCompRef]?).getD []
      some (objects ++ [copy], objects.length,
        createRaid raids name description datetime raidType partySize copy guideLink dateNow)
    else
      some (objects, roles,
        createRaid raids name description datetime raidType partySize contents guideLink
          dateNow)

/-! ## Recurring raids

The generator of the `!raid schedule` handler.  The setters of `Date` work on local time
and go back to an instant, so the host enters with both directions of its time zone. -/

/-- The time zone of the host in both directions: `offsetAt t` is the number of minutes
local time is ahead of UTC at the instant `t`, and `offsetFor wall` the number of minutes
the host takes for the local time value `wall` when it turns it into an instant (for a
local time that a change of the clocks skips or repeats, the offset before the change). -/
structure Zone where
  offsetAt : TimeZone
  offsetFor : Int → Int

namespace Zone

/-- A zone whose offset never changes. -/
def fixed (offset : Int) : Zone := ⟨fun _ => offset, fun _ => offset⟩

/-- The local time value of the instant `t`, in milliseconds. -/
def localTime (z : Zone) (t : Int) : Int := t + z.offsetAt t * 60000

/-- The instant of the local time value `wall`. -/
def utcTime (z : Zone) (wall : Int) : Int := wall - z.offsetFor wall * 60000

/-- The offset of the host is `offset` from the instant `a` to the instant `b`: at every
instant between the two, and for every local time that this offset places between the
two. -/
def SteadyBetween (z : Zone) (offset a b : Int) : Prop :=
  (∀ t, a ≤ t → t ≤ b → z.offsetAt t = offset) ∧
    ∀ wall, a ≤ wall - offset * 60000 → wall - offset * 60000 ≤ b → z.offsetFor wall = offset

end Zone

/-- The method `Date.prototype.setDate` on the date with time value `t`: the local day is
moved to day `date` of the local month, days past the end of the month counting on into
the next, and the local time of day is kept. -/
def setDate (z : Zone) (t date : Int) : Int :=
  z.utcTime (z.localTime t + (date - getDate z.offsetAt t) * 86400000)

/-- The method `Date.prototype.setHours` with four arguments, the last two being 0, on the
date with time value `t`: the local day is kept. -/
def setHours (z : Zone) (t hours minutes : Int) : Int :=
  z.utcTime (z.localTime t / 86400000 * 86400000 + hours * 3600000 + minutes * 60000)

/-- The function `dayOfWeek`: `none` stands for `undefined`. -/
def dayOfWeek (dayName : String) : Option Int :=
  JsObject.get
    [("sunday", 0), ("monday", 1), ("tuesday", 2), ("wednesday", 3), ("thursday", 4),
     ("friday", 5), ("saturday", 6)]
    (String.mk (dayName.data.map Char.toLower))

/-- The function `getDaysToAdd`; the operator `%` of JavaScript takes the sign of the
dividend. -/
def getDaysToAdd (currentDay targetDay : Int) : Int :=
  Int.tmod (targetDay + 7 - currentDay) 7

/-- A value of `config.regularRaids`; `hours` and `minutes` are the numbers
`template.time.split(':').map(Number)`. -/
structure RegularRaid where
  days : List String
  hours : Int
  minutes : Int
  name : String
deriving DecidableEq, Repr

namespace config

/-- The template `config.regularRaids.raid1`, with `time: '20:00'`. -/
def raid1 : RegularRaid := ⟨["Monday", "Tuesday", "Thursday"], 20, 0, "Weekly Static Run"⟩

/-- The object `config.regularRaids`. -/
def regularRaids : JsObject RegularRaid := [("raid1", raid1)]

end config

/-- The local `targetDate` of the schedule handler for week `i` and day `dayName`, after
`setDate(now.getDate() + daysToAdd + 7 * i)` and `setHours(hours, minutes, 0, 0)`.  The
result is `none`, an invalid date, when `dayOfWeek` does not know the day. -/
def Zone.targetDate (z : Zone) (now : Int) (template : RegularRaid) (i : Int)
    (dayName : String) : Option Int :=
  match dayOfWeek dayName with
  | none => none
  | some target =>
    let daysToAdd := getDaysToAdd (getDay z.offsetAt now) target
    some
      (setHours z (setDate z now (getDate z.offsetAt now + daysToAdd + 7 * i))
        template.hours template.minutes)

/-- The local `targetDate` on a host whose zone has the fixed offset of `offset`
minutes. -/
def targetDate (offset now : Int) (template : RegularRaid) (i : Int) (dayName : String) :
    Option Int :=
  (Zone.fixed offset).targetDate now template i dayName

/-- The day names and dates for which the schedule handler calls `createRaid`, in call
order: weeks 0 to 3, the days of the template in each, the dates that are not after `now`
left out. -/
def scheduleDates (z : Zone) (now : Int) (template : RegularRaid) : List (String × Int) :=
  (List.range 4).flatMap (fun i =>
    template.days.filterMap (fun dayName =>
      match z.targetDate now template i dayName with
      | none => none
      | some t => if t > now then some (dayName, t) else none))

/-- The `createRaid` call the schedule handler makes for `dayName` and `targetDate`, with
the reading `dateNow` of the clock: returns the new store. -/
def scheduleCreate (raids : Store) (raidTemplateId : String) (template : RegularRaid)
    (dayName : String) (targetDate : Int) (dateNow : Nat) : Store :=
  (createRaid raids (template.name ++ " - " ++ dayName)
    ("Regular " ++ raidTemplateId ++ " raid on " ++ dayName ++ "s") targetDate
    (some raidTemplateId) config.maxPartySize config.defaultRaidComp none dateNow).1

/-- The `!raid schedule` handler for the templates `regularRaids`, called at instant `now`
with `args[1]` = `raidTemplateId`; `clock k` is the reading of `Date.now()` in the
`createRaid` call number `k`.  Returns the new store and the reply.  For a template id
that is a name of `Object.prototype` the guard lets the inherited member through, and the
loop over its `days`, which is `undefined`, throws. -/
def raidSchedule (regularRaids : JsObject RegularRaid) (raids : Store) (z : Zone) (now : Int)
    (raidTemplateId : Option String) (clock : Nat → Nat) : Outcome (Store × String) :=
  match raidTemplateId with
  | none =>
    Outcome.returned
      (raids,
        "Invalid raid template. Available templates: " ++ ", ".intercalate regularRaids.keys)
  | some id =>
    if id = "" then
      Outcome.returned
        (raids,
          "Invalid raid template. Available templates: " ++
            ", ".intercalate regularRaids.keys)
    else
      match regularRaids.read id with
      | Property.undefined =>
        Outcome.returned
          (raids,
            "Invalid raid template. Available templates: " ++
              ", ".intercalate regularRaids.keys)
      | Property.inherited _ => Outcome.thrown "TypeError: template.days is not iterable"
      | Property.own template =>
        let dates := scheduleDates z now template
        Outcome.returned
          (dates.enum.foldl
            (fun raids e => scheduleCreate raids id template e.2.1 e.2.2 (clock e.1)) raids,
           "Successfully scheduled " ++ toString dates.length ++ " instances of " ++ id ++
             " for the next 4 weeks.")

/-- The template of the scenario: Monday at 20:00. -/
def mondayTemplate : RegularRaid := ⟨["Monday"], 20, 0, "Weekly Static Run"⟩

/-- Wednesday 2023-11-15 12:00:00 UTC. -/
def wednesdayNoon : Int := 1700049600000

/-- Monday 2023-11-13 21:00:00 UTC, one hour after the time of `mondayTemplate`. -/
def mondayNight : Int := 1699909200000

/-- A clock that reads the millisecond of `wednesdayNoon` at every call. -/
def frozenClock : Nat → Nat := fun _ => 1700049600000

/-- The zone of a host in Berlin around the winter of 2023: local time is 60 minutes ahead
of UTC from 2023-10-29 01:00 UTC to 2024-03-31 01:00 UTC, and 120 minutes before and after;
a local time that the change of the clocks repeats or skips is read with the offset before
the change. -/
def berlin : Zone :=
  { offsetAt := fun t => if 1698541200000 ≤ t ∧ t < 1711846800000 then 60 else 120
    offsetFor := fun wall =>
      if 1698541200000 + 7200000 ≤ wall ∧ wall < 1711846800000 + 7200000 then 60 else 120 }

/-! ## Persistence -/

/-- The function `signUpForRaid` together with the outcome of the write in `saveRaids()`,
which the two branches that change the raid call before they return: `written` tells
whether `fs.writeFileSync` went through.  Returns the store in memory after the call and
the result, `none` when the write threw and the exception left the function. -/
def signUpForRaidSaving (raids : Store) (raidId userId username role : String) (now : Int)
    (written : Bool) : Store × Option SignUpResult :=
  match raids.get raidId with
  | none => (raids, some ⟨false, "Raid not found!"⟩)
  | some raid =>
    if ¬ config.roles.contains role then
      (raids,
        some ⟨false, "Invalid role. Please choose from: " ++ ", ".intercalate config.roles⟩)
    else
      match raid.participants.get userId with
      | some p => (raids, some ⟨false, "You\x27re already signed up as " ++ p.role⟩)
      | none =>
        if roleLimit raid role > 0 ∧ (roleCount raid role : Int) ≥ roleLimit raid role then
          (raids.set raidId
            { raid with waitlist := raid.waitlist ++ [⟨userId, username, role, now⟩] },
           if written then
             some ⟨false, "Role " ++ role ++ " is full. You\x27ve been added to the waitlist."⟩
           else none)
        else
          (raids.set raidId
            { raid with participants := raid.participants.set userId ⟨username, role, now⟩ },
           if written then
             some ⟨true, "You\x27ve signed up for " ++ raid.name ++ " as " ++ role⟩
           else none)

/-- The function `cancelSignup` together with the outcome of the write in `saveRaids()`,
called after the participant is removed and the waitlist served.  Returns the store in
memory after the call and the result, `none` when the write threw. -/
def cancelSignupSaving (raids : Store) (raidId userId : String) (now : Int)
    (written : Bool) : Store × Option Bool :=
  match raids.get raidId with
  | none => (raids, some false)
  | some raid =>
    match raid.participants.get userId with
    | none => (raids, some false)
    | some p =>
      let role := p.role
      let participants := raid.participants.delete userId
      match findIndex (fun w => w.role == role) raid.waitlist with
      | none =>
        (raids.set raidId { raid with participants := participants },
          if written then some true else none)
      | some waitlistIndex =>
        match raid.waitlist[waitlistIndex]? with
        | none =>
          (raids.set raidId { raid with participants := participants },
            if written then some true else none)
        | some nextPerson =>
          (raids.set raidId
            { raid with
              participants :=
                participants.set nextPerson.userId ⟨nextPerson.username, nextPerson.role, now⟩
              waitlist := raid.waitlist.eraseIdx waitlistIndex },
           if written then some true else none)

/-- A JSON document as `JSON.stringify` writes it and `JSON.parse` reads it back; `instant`
is the string holding the ISO form of an instant. -/
inductive Json where
  | null
  | num (n : Int)
  | instant (t : Int)
  | str (s : String)
  | arr (items : List Json)
  | obj (props : List (String × Json))

namespace Json

/-- Property read on a parsed document. -/
def field (j : Json) (k : String) : Option Json :=
  match j with
  | obj props => JsObject.get props k
  | _ => none

/-- A parsed value read as a string. -/
def asString : Json → Option String
  | str s => some s
  | _ => none

/-- A parsed value read as a number. -/
def asNumber : Json → Option Int
  | num n => some n
  | _ => none

/-- A parsed value read as the ISO form of an instant. -/
def asInstant : Json → Option Int
  | instant t => some t
  | _ => none

/-- A parsed value read as `null` or a string. -/
def asNullable : Json → Option (Option String)
  | null => some none
  | str s => some (some s)
  | _ => none

/-- A property that may be absent, read as `undefined` or a string. -/
def asOptional : Option Json → Option (Option String)
  | none => some none
  | some (str s) => some (some s)
  | some _ => none

/-- The document of a value that is `null` or a string. -/
def ofNullable : Option String → Json
  | none => null
  | some s => str s

end Json

/-- The list of the values when every one is present. -/
def allSome {α : Type} : List (Option α) → Option (List α)
  | [] => some []
  | none :: _ => none
  | some a :: t => (allSome t).map (fun l => a :: l)

/-- The document `JSON.stringify` writes for a value of `raid.participants`. -/
def Participant.toJson (p : Participant) : Json :=
  Json.obj
    [("username", Json.str p.username), ("role", Json.str p.role),
     ("timestamp", Json.instant p.timestamp)]

/-- A parsed value read as a value of `raid.participants`. -/
def Participant.ofJson (j : Json) : Option Participant :=
  match (j.field "username").bind Json.asString, (j.field "role").bind Json.asString,
    (j.field "timestamp").bind Json.asInstant with
  | some username, some role, some timestamp => some ⟨username, role, timestamp⟩
  | _, _, _ => none

/-- The document `JSON.stringify` writes for an element of `raid.waitlist`. -/
def WaitlistEntry.toJson (w : WaitlistEntry) : Json :=
  Json.obj
    [("userId", Json.str w.userId), ("username", Json.str w.username),
     ("role", Json.str w.role), ("timestamp", Json.instant w.timestamp)]

/-- A parsed value read as an element of `raid.waitlist`. -/
def WaitlistEntry.ofJson (j : Json) : Option WaitlistEntry :=
  match (j.field "userId").bind Json.asString, (j.field "username").bind Json.asString,
    (j.field "role").bind Json.asString, (j.field "timestamp").bind Json.asInstant with
  | some userId, some username, some role, some timestamp =>
    some ⟨userId, username, role, timestamp⟩
  | _, _, _, _ => none

/-- The document `JSON.stringify` writes for a raid: the properties `createRaid` sets, in
its order, then `messageId` and `channelId` when the handler has attached them. -/
def Raid.toJson (raid : Raid) : Json :=
  Json.obj
    ([("id", Json.str raid.id), ("name", Json.str raid.name),
      ("description", Json.str raid.description), ("datetime", Json.instant raid.datetime),
      ("partySize", Json.num raid.partySize),
      ("roles", Json.obj (raid.roles.map (fun e => (e.1, Json.num e.2)))),
      ("participants", Json.obj (raid.participants.map (fun e => (e.1, e.2.toJson)))),
      ("waitlist", Json.arr (raid.waitlist.map WaitlistEntry.toJson)),
      ("remindersSent", Json.arr (raid.remindersSent.map Json.str)),
      ("raidType", Json.ofNullable raid.raidType),
      ("guideLink", Json.ofNullable raid.guideLink)] ++
      (match raid.messageId with
       | none => []
       | some m => [("messageId", Json.str m)]) ++
      (match raid.channelId with
       | none => []
       | some c => [("channelId", Json.str c)]))

/-- A parsed value read as a raid, property by property. -/
def Raid.ofJson (j : Json) : Option Raid :=
  match (j.field "id").bind Json.asString, (j.field "name").bind Json.asString,
    (j.field "description").bind Json.asString, (j.field "datetime").bind Json.asInstant,
    (j.field "partySize").bind Json.asNumber,
    (j.field "roles").bind (fun r =>
      match r with
      | Json.obj props => allSome (props.map (fun e => e.2.asNumber.map (fun n => (e.1, n))))
      | _ => none),
    (j.field "participants").bind (fun r =>
      match r with
      | Json.obj props =>
        allSome (props.map (fun e => (Participant.ofJson e.2).map (fun p => (e.1, p))))
      | _ => none),
    (j.field "waitlist").bind (fun r =>
      match r with
      | Json.arr items => allSome (items.map WaitlistEntry.ofJson)
      | _ => none),
    (j.field "remindersSent").bind (fun r =>
      match r with
      | Json.arr items => allSome (items.map Json.asString)
      | _ => none),
    (j.field "raidType").bind Json.asNullable, (j.field "guideLink").bind Json.asNullable,
    Json.asOptional (j.field "messageId"), Json.asOptional (j.field "channelId") with
  | some id, some name, some description, some datetime, some partySize, some roles,
    some participants, some waitlist, some remindersSent, some raidType, some guideLink,
    some messageId, some channelId =>
    some
      { id := id
        name := name
        description := description
        datetime := datetime
        partySize := partySize.toNat
        roles := roles
        participants := participants
        waitlist := waitlist
        remindersSent := remindersSent
        raidType := raidType
        guideLink := guideLink
        messageId := messageId
        channelId := channelId }
  | _, _, _, _, _, _, _, _, _, _, _, _, _ => none

/-- The document `saveRaids` writes to `raids.json`: `JSON.stringify(raids, null, 2)`. -/
def saveRaids (raids : Store) : Json :=
  Json.obj (raids.map (fun e => (e.1, e.2.toJson)))

/-- The table `JSON.parse` gives `loadRaids` for a document, `none` when the document is
not a table of raids. -/
def parseRaids (j : Json) : Option Store :=
  match j with
  | Json.obj props => allSome (props.map (fun e => (Raid.ofJson e.2).map (fun raid => (e.1, raid))))
  | _ => none

/-! ## Deleting a raid -/

/-- The `!raid delete` handler up to its reply, with `args[1]` = `raidId`: returns the new
store and the reply.  The guard `!raids[raidId]` and the read `raids[raidId]` go through the
prototype chain; `delete raids[raidId]` removes an own property only. -/
def raidDelete (raids : Store) (raidId : Option String) : Store × String :=
  match raidId with
  | none => (raids, "Raid not found. Use \x60!raid list\x60 to see available raids.")
  | some raidId =>
    if raidId = "" then
      (raids, "Raid not found. Use \x60!raid list\x60 to see available raids.")
    else
      match raids.read raidId with
      | Property.undefined =>
        (raids, "Raid not found. Use \x60!raid list\x60 to see available raids.")
      | Property.own raid =>
        (raids.delete raidId, "Raid \x22" ++ raid.name ++ "\x22 has been deleted.")
      | Property.inherited name =>
        (raids.delete raidId,
          "Raid \x22" ++ name.getD "undefined" ++ "\x22 has been deleted.")

/-! ## The `!raid create` command -/

/-- The loop of the `!raid create` handler that cuts `fullCommand` into `segments`: the
characters left, the character before them, and the variables `inQuote`, `segments` and
`current`; character 34 is the double quote and 92 the backslash. -/
def segmentsLoop : List Char → Option Char → Bool → List String → String → List String
  | [], _, _, segments, current => if current ≠ "" then segments ++ [current] else segments
  | char :: rest, previous, inQuote, segments, current =>
    if char = Char.ofNat 34 ∧ previous ≠ some (Char.ofNat 92) then
      if inQuote then segmentsLoop rest (some char) false (segments ++ [current]) ""
      else segmentsLoop rest (some char) true segments current
    else if inQuote = false ∧ char = ' ' ∧ current = "" then
      segmentsLoop rest (some char) inQuote segments current
    else if inQuote = false ∧ char = ' ' then
      segmentsLoop rest (some char) inQuote (segments ++ [current]) ""
    else segmentsLoop rest (some char) inQuote segments (current.push char)

/-- The method `String.prototype.split` for the separator `':'`: the characters left and
the piece read so far. -/
def splitColon : List Char → List Char → List String
  | [], piece => [String.mk piece]
  | c :: rest, piece =>
    if c = ':' then String.mk piece :: splitColon rest [] else splitColon rest (piece ++ [c])

/-- The function `parseInt(s, 10)`: `none` stands for `NaN`.  White space is the ASCII
one and the digits are read exactly, as for counts below 2^53. -/
def parseInt10 (s : String) : Option Int :=
  let cs := s.data.dropWhile Char.isWhitespace
  let signed : Int × List Char :=
    match cs with
    | '-' :: r => (-1, r)
    | '+' :: r => (1, r)
    | _ => (1, cs)
  let digits := signed.2.takeWhile Char.isDigit
  if digits = [] then none
  else some (signed.1 * ((digits.foldl (fun n c => n * 10 + (c.toNat - 48)) 0 : Nat) : Int))

/-- The arguments the `!raid create` handler reads from the command. -/
structure RaidCreateArgs where
  name : String
  description : String
  datetime : String
  raidType : Option String
  guideLink : Option String
  roles : JsObject Int
deriving DecidableEq, Repr

/-- The `!raid create` handler up to the parsed arguments, for
`fullCommand = message.content.slice(...).trim()`; `none` stands for the reply
`Missing arguments`. -/
def parseRaidCreate (fullCommand : String) : Option RaidCreateArgs :=
  let segments := (segmentsLoop fullCommand.data none false [] "").drop 1
  match segments with
  | name :: description :: datetime :: _ =>
    let raidType : Option String :=
      match segments[3]? with
      | some s => if s.data.contains ':' then none else some s
      | none => none
    let nextIndex := if raidType.isSome then 4 else 3
    let guideLink : Option String :=
      match segments[nextIndex]? with
      | some s =>
        if "http://".data.isPrefixOf s.data ∨ "https://".data.isPrefixOf s.data then some s
        else none
      | none => none
    let nextIndex := if guideLink.isSome then nextIndex + 1 else nextIndex
    let roles : JsObject Int :=
      (segments.drop nextIndex).foldl
        (fun roles roleArg =>
          match splitColon roleArg.data [] with
          | roleName :: count :: _ =>
            if roleName ≠ "" ∧ count ≠ "" then
              roles.set roleName ((parseInt10 count).getD 0)
            else roles
          | _ => roles)
        []
    some
      { name := name
        description := description
        datetime := datetime
        raidType := raidType
        guideLink := guideLink
        roles := roles }
  | _ => none

/-- The command `!raid create "Eden" "" "2023-11-14 23:43:20"`, after the prefix and the
command name are cut off. -/
def blankCommand : String :=
  "create \x22Eden\x22 \x22\x22 \x222023-11-14 23:43:20\x22"

/-- The example of the comment in the `!raid create` handler, after the prefix and the
command name are cut off. -/
def exampleCommand : String :=
  "create \x22Eden Savage\x22 \x22Weekly prog\x22 \x222023-12-15 20:00\x22 raid1 \x22https://guide.com\x22 Tank:2 \x22Regen Healer\x22:1 \x22Shield Healer\x22:1 \x22Melee DPS\x22:2 \x22Ranged DPS\x22:1 \x22Caster DPS\x22:1"

/-! ## Party size -/

/-- A store with one raid of the default composition and `partySize` 8. -/
def defaultStore : Store :=
  (createRaid [] "Eden" "Prog" 1000 none config.maxPartySize [] none 1700000000042).1

/-- Nine users. -/
def nineUsers : List (String × String) :=
  [("U1", "u1"), ("U2", "u2"), ("U3", "u3"), ("U4", "u4"), ("U5", "u5"), ("U6", "u6"),
   ("U7", "u7"), ("U8", "u8"), ("U9", "u9")]

/-! ## Performance of a static -/

/-- The primary character and the reports of a participant who has a registered character
and whose `getCharacterLogs` call succeeded; `none` for a participant who is skipped. -/
def World.included (w : World) (logs : String → Option (List Report)) (userId : String) :
    Option (Character × List Report) :=
  match w.characterLogs.get userId with
  | some (character :: _) => (logs userId).map (fun reports => (character, reports))
  | _ => none

/-- The pulls recorded for a zone in `stats.zoneAnalysis`, 0 when the zone has no entry. -/
def totalPullsOf (zoneAnalysis : JsObject ZoneStats) (zone : String) : Nat :=
  ((zoneAnalysis.get zone).map (fun z => z.totalPulls)).getD 0

/-- The kills recorded for a zone in `stats.zoneAnalysis`, 0 when the zone has no entry. -/
def totalKillsOf (zoneAnalysis : JsObject ZoneStats) (zone : String) : Nat :=
  ((zoneAnalysis.get zone).map (fun z => z.totalKills)).getD 0

/-- A raid with four participants. -/
def staticRaid : Raid :=
  { soonRaid with
    participants :=
      [("A", ⟨"alice", "Tank", 1⟩), ("B", ⟨"bob", "Flex", 2⟩), ("C", ⟨"carol", "Flex", 3⟩),
       ("D", ⟨"dave", "Melee DPS", 4⟩)]
    channelId := some "c1" }

/-- The bot with `staticRaid`: `A`, `C` and `D` have a registered character, `B` has
none. -/
def staticWorld : World :=
  { World.init with
    heap := [staticRaid]
    raids := [("1700000000000", 0)]
    characterLogs :=
      [("A", [⟨11, "Aria", "Gilgamesh", "NA", 101⟩]), ("C", [⟨13, "Cyd", "Gilgamesh", "NA", 103⟩]),
       ("D", [⟨14, "Dax", "Gilgamesh", "NA", 104⟩])] }

/-- The lookups for `A` and `D` succeed, the lookup for `C` fails. -/
def staticLogs : String → Option (List Report) := fun userId =>
  if userId = "A" then some [⟨"Eden", 10, 1⟩, ⟨"Omega", 4, 0⟩]
  else if userId = "D" then some [⟨"Eden", 7, 2⟩]
  else none

/-! ## Properties of the object model -/

namespace JsObject
variable {α : Type}

theorem get_set_self (o : JsObject α) (k : String) (v : α) : (o.set k v).get k = some v := by
  induction o with
  | nil => simp [set, get]
  | cons e t ih =>
    obtain ⟨k', v'⟩ := e
    by_cases h : k' = k <;> simp [set, get, h, ih]

theorem get_set_ne (o : JsObject α) {k k' : String} (v : α) (h : k' ≠ k) :
    (o.set k v).get k' = o.get k' := by
  induction o with
  | nil => simp [set, get, Ne.symm h]
  | cons e t ih =>
    obtain ⟨k₀, v₀⟩ := e
    by_cases h₀ : k₀ = k
    · subst h₀
      simp [set, get, Ne.symm h]
    · by_cases h₁ : k₀ = k'
      · subst h₁
        simp [set, get, h₀]
      · simp [set, get, h₀, h₁, ih]

theorem get_set (o : JsObject α) (k k' : String) (v : α) :
    (o.set k v).get k' = if k' = k then some v else o.get k' := by
  by_cases h : k' = k
  · subst h; simp [get_set_self]
  · simp [h, get_set_ne]

theorem get_delete_self (o : JsObject α) (k : String) : (o.delete k).get k = none := by
  induction o with
  | nil => simp [delete, get]
  | cons e t ih =>
    obtain ⟨k', v'⟩ := e
    by_cases h : k' = k
    · simpa [delete, h] using ih
    · simpa [delete, h, get] using ih

theorem get_delete_ne (o : JsObject α) {k k' : String} (h : k' ≠ k) :
    (o.delete k).get k' = o.get k' := by
  induction o with
  | nil => simp [delete, get]
  | cons e t ih =>
    obtain ⟨k₀, v₀⟩ := e
    by_cases h₀ : k₀ = k
    · subst h₀
      simpa [delete, get, Ne.symm h] using ih
    · by_cases h₁ : k₀ = k'
      · subst h₁
        simp [delete, get, h₀]
      · simpa [delete, get, h₀, h₁] using ih

theorem set_eq_append (o : JsObject α) (k : String) (v : α) (h : o.get k = none) :
    o.set k v = o ++ [(k, v)] := by
  induction o with
  | nil => simp [set]
  | cons e t ih =>
    obtain ⟨k', v'⟩ := e
    by_cases h' : k' = k
    · simp [get, h'] at h
    · simp [get, h'] at h
      simp [set, h', ih h]

theorem set_eq_self (o : JsObject α) (k : String) (v : α) (h : o.get k = some v) :
    o.set k v = o := by
  induction o with
  | nil => simp [get] at h
  | cons e t ih =>
    obtain ⟨k', v'⟩ := e
    by_cases h' : k' = k
    · simp [get, h'] at h
      simp [set, h', h]
    · simp [get, h'] at h
      simp [set, h', ih h]

end JsObject

theorem findIndex_eq_none {α : Type} (p : α → Bool) (l : List α) :
    findIndex p l = none ↔ ∀ a ∈ l, p a = false := by
  induction l with
  | nil => simp [findIndex]
  | cons a t ih =>
    by_cases h : p a = true
    · simp [findIndex, h]
    · simp [findIndex, h, ih]

theorem findIndex_eq_some {α : Type} (p : α → Bool) (l : List α) (i : Nat)
    (h : findIndex p l = some i) :
    ∃ pre a post, l = pre ++ a :: post ∧ pre.length = i ∧ p a = true ∧
      ∀ b ∈ pre, p b = false := by
  induction l generalizing i with
  | nil => simp [findIndex] at h
  | cons a t ih =>
    by_cases hp : p a = true
    · simp [findIndex, hp] at h
      exact ⟨[], a, t, by simp, by simpa using h, hp, by simp⟩
    · simp only [findIndex, hp, Bool.false_eq_true, if_false, Option.map_eq_some'] at h
      obtain ⟨j, hj, rfl⟩ := h
      obtain ⟨pre, b, post, hl, hlen, hb, hpre⟩ := ih j hj
      refine ⟨a :: pre, b, post, by simp [hl], by simp [hlen], hb, ?_⟩
      intro c hc
      rcases List.mem_cons.mp hc with rfl | hc
      · simpa using hp
      · exact hpre c hc

theorem getElem?_append_cons {α : Type} (pre post : List α) (a : α) :
    (pre ++ a :: post)[pre.length]? = some a := by
  induction pre with
  | nil => simp
  | cons b t ih => simpa using ih

theorem eraseIdx_append_cons {α : Type} (pre post : List α) (a : α) :
    (pre ++ a :: post).eraseIdx pre.length = pre ++ post := by
  induction pre with
  | nil => simp
  | cons b t ih => simp [ih]

/-! ## Role counts -/

theorem countRole_nil (r : String) : countRole [] r = 0 := rfl

theorem countRole_cons (k : String) (v : Participant) (t : JsObject Participant) (r : String) :
    countRole ((k, v) :: t) r = (if v.role = r then 1 else 0) + countRole t r := by
  by_cases h : v.role = r
  · simp [countRole, JsObject.values, h, List.filter_cons, Nat.add_comm]
  · simp [countRole, JsObject.values, h, List.filter_cons]

theorem countRole_set_le (ps : JsObject Participant) (k : String) (v : Participant)
    (r : String) :
    countRole (ps.set k v) r ≤ countRole ps r + (if v.role = r then 1 else 0) := by
  induction ps with
  | nil => simp [JsObject.set, countRole_cons, countRole_nil]
  | cons e t ih =>
    obtain ⟨k', v'⟩ := e
    by_cases h : k' = k
    · simp only [JsObject.set, h, if_true, countRole_cons]
      split <;> split <;> omega
    · simp only [JsObject.set, h, if_false, countRole_cons]
      omega

theorem delete_cons_self {α : Type} (k : String) (v : α) (t : JsObject α) :
    JsObject.delete ((k, v) :: t) k = JsObject.delete t k := by
  simp [JsObject.delete]

theorem delete_cons_ne {α : Type} {k k' : String} (v : α) (t : JsObject α) (h : k' ≠ k) :
    JsObject.delete ((k', v) :: t) k = (k', v) :: JsObject.delete t k := by
  simp [JsObject.delete, h]

theorem countRole_delete_le (ps : JsObject Participant) (k : String) (r : String) :
    countRole (ps.delete k) r ≤ countRole ps r := by
  induction ps with
  | nil => simp [JsObject.delete]
  | cons e t ih =>
    obtain ⟨k', v'⟩ := e
    by_cases h : k' = k
    · subst h
      rw [delete_cons_self, countRole_cons]
      omega
    · rw [delete_cons_ne v' t h, countRole_cons, countRole_cons]
      omega

theorem countRole_delete_lt (ps : JsObject Participant) (k : String) (p : Participant)
    (h : ps.get k = some p) :
    countRole (ps.delete k) p.role + 1 ≤ countRole ps p.role := by
  induction ps with
  | nil => simp [JsObject.get] at h
  | cons e t ih =>
    obtain ⟨k', v'⟩ := e
    by_cases hk : k' = k
    · subst hk
      simp only [JsObject.get, if_true, Option.some.injEq] at h
      subst h
      have hle := countRole_delete_le t k' v'.role
      rw [delete_cons_self, countRole_cons]
      simp only [if_true]
      omega
    · simp only [JsObject.get, hk, if_false] at h
      have ih' := ih h
      rw [delete_cons_ne v' t hk, countRole_cons, countRole_cons]
      omega

/-! ## The branches of `signUpForRaid` and `cancelSignup` -/

theorem signUp_missing (raids : Store) (raidId userId username role : String) (now : Int)
    (hr : raids.get raidId = none) :
    signUpForRaid raids raidId userId username role now = (raids, ⟨false, "Raid not found!"⟩) := by
  simp [signUpForRaid, hr]

theorem signUp_invalid (raids : Store) (raidId userId username role : String) (now : Int)
    (raid : Raid) (hr : raids.get raidId = some raid) (hrole : role ∉ config.roles) :
    signUpForRaid raids raidId userId username role now =
      (raids, ⟨false, "Invalid role. Please choose from: " ++ ", ".intercalate config.roles⟩) := by
  simp [signUpForRaid, hr, hrole]

theorem signUp_duplicate (raids : Store) (raidId userId username role : String) (now : Int)
    (raid : Raid) (p : Participant) (hr : raids.get raidId = some raid)
    (hrole : role ∈ config.roles) (hp : raid.participants.get userId = some p) :
    signUpForRaid raids raidId userId username role now =
      (raids, ⟨false, "You\x27re already signed up as " ++ p.role⟩) := by
  simp [signUpForRaid, hr, hrole, hp]

theorem signUp_full (raids : Store) (raidId userId username role : String) (now : Int)
    (raid : Raid) (hr : raids.get raidId = some raid)
    (hrole : role ∈ config.roles) (hp : raid.participants.get userId = none)
    (hfull : 0 < roleLimit raid role ∧ roleLimit raid role ≤ (roleCount raid role : Int)) :
    signUpForRaid raids raidId userId username role now =
      (raids.set raidId
        { raid with waitlist := raid.waitlist ++ [⟨userId, username, role, now⟩] },
       ⟨false, "Role " ++ role ++ " is full. You\x27ve been added to the waitlist."⟩) := by
  simp [signUpForRaid, hr, hrole, hp, hfull]

theorem signUp_open (raids : Store) (raidId userId username role : String) (now : Int)
    (raid : Raid) (hr : raids.get raidId = some raid)
    (hrole : role ∈ config.roles) (hp : raid.participants.get userId = none)
    (hopen : ¬ (0 < roleLimit raid role ∧ roleLimit raid role ≤ (roleCount raid role : Int))) :
    signUpForRaid raids raidId userId username role now =
      (raids.set raidId
        { raid with participants := raid.participants.set userId ⟨username, role, now⟩ },
       ⟨true, "You\x27ve signed up for " ++ raid.name ++ " as " ++ role⟩) := by
  have hopen' : 0 < roleLimit raid role → (roleCount raid role : Int) < roleLimit raid role := by
    intro h
    by_contra hc
    exact hopen ⟨h, by omega⟩
  simp only [signUpForRaid, hr, hp]
  simp [hrole]
  exact hopen'

theorem cancel_absent (raids : Store) (raidId userId : String) (now : Int)
    (h : raids.get raidId = none ∨
      ∃ raid, raids.get raidId = some raid ∧ raid.participants.get userId = none) :
    cancelSignup raids raidId userId now = (raids, false) := by
  rcases h with h | ⟨raid, hr, hp⟩
  · simp [cancelSignup, h]
  · simp [cancelSignup, hr, hp]

theorem cancel_plain (raids : Store) (raidId userId : String) (now : Int)
    (raid : Raid) (p : Participant) (hr : raids.get raidId = some raid)
    (hp : raid.participants.get userId = some p)
    (hw : ∀ w ∈ raid.waitlist, w.role ≠ p.role) :
    cancelSignup raids raidId userId now =
      (raids.set raidId { raid with participants := raid.participants.delete userId },
       true) := by
  have hnone : findIndex (fun w : WaitlistEntry => w.role == p.role) raid.waitlist = none := by
    rw [findIndex_eq_none]
    intro w hmem
    simpa using hw w hmem
  simp [cancelSignup, hr, hp, hnone]

theorem cancel_promote (raids : Store) (raidId userId : String) (now : Int)
    (raid : Raid) (p : Participant) (pre post : List WaitlistEntry) (w : WaitlistEntry)
    (hr : raids.get raidId = some raid)
    (hp : raid.participants.get userId = some p)
    (hsplit : raid.waitlist = pre ++ w :: post) (hw : w.role = p.role)
    (hpre : ∀ w' ∈ pre, w'.role ≠ p.role) :
    cancelSignup raids raidId userId now =
      (raids.set raidId
        { raid with
          participants :=
            (raid.participants.delete userId).set w.userId ⟨w.username, w.role, now⟩
          waitlist := pre ++ post },
       true) := by
  have hidx : findIndex (fun w : WaitlistEntry => w.role == p.role) raid.waitlist
      = some pre.length := by
    rw [hsplit]
    clear hsplit
    induction pre with
    | nil => simp [findIndex, hw]
    | cons a t ih =>
      have ha : a.role ≠ p.role := hpre a (List.mem_cons_self _ _)
      have ht := ih (fun w' hmem => hpre w' (List.mem_cons_of_mem _ hmem))
      simp [findIndex, ha, ht]
  have hget : raid.waitlist[pre.length]? = some w := by
    rw [hsplit]; exact getElem?_append_cons pre post w
  have herase : raid.waitlist.eraseIdx pre.length = pre ++ post := by
    rw [hsplit]; exact eraseIdx_append_cons pre post w
  simp [cancelSignup, hr, hp, hidx, hget, herase]

theorem waitlist_split (l : List WaitlistEntry) (r : String)
    (h : ∃ w ∈ l, w.role = r) :
    ∃ pre w post, l = pre ++ w :: post ∧ w.role = r ∧ ∀ w' ∈ pre, w'.role ≠ r := by
  cases hfi : findIndex (fun w : WaitlistEntry => w.role == r) l with
  | none =>
    obtain ⟨w, hmem, hw⟩ := h
    have := (findIndex_eq_none _ l).mp hfi w hmem
    simp [hw] at this
  | some i =>
    obtain ⟨pre, a, post, hl, _, ha, hpre⟩ := findIndex_eq_some _ l i hfi
    refine ⟨pre, a, post, hl, by simpa using ha, ?_⟩
    intro w' hmem
    simpa using hpre w' hmem

theorem signUp_cases (raids : Store) (raidId userId username role : String) (now : Int) :
    (signUpForRaid raids raidId userId username role now).1 = raids ∨
    (∃ raid, raids.get raidId = some raid ∧ raid.participants.get userId = none ∧
      (0 < roleLimit raid role ∧ roleLimit raid role ≤ (roleCount raid role : Int)) ∧
      (signUpForRaid raids raidId userId username role now).1 =
        raids.set raidId
          { raid with waitlist := raid.waitlist ++ [⟨userId, username, role, now⟩] }) ∨
    (∃ raid, raids.get raidId = some raid ∧ raid.participants.get userId = none ∧
      ¬ (0 < roleLimit raid role ∧ roleLimit raid role ≤ (roleCount raid role : Int)) ∧
      (signUpForRaid raids raidId userId username role now).1 =
        raids.set raidId
          { raid with participants := raid.participants.set userId ⟨username, role, now⟩ }) := by
  cases hr : raids.get raidId with
  | none => left; rw [signUp_missing _ _ _ _ _ _ hr]
  | some raid =>
    by_cases hrole : role ∈ config.roles
    · cases hp : raid.participants.get userId with
      | some p => left; rw [signUp_duplicate _ _ _ _ _ _ raid p hr hrole hp]
      | none =>
        by_cases hfull : 0 < roleLimit raid role ∧ roleLimit raid role ≤ (roleCount raid role : Int)
        · right; left
          exact ⟨raid, rfl, hp, hfull, by rw [signUp_full _ _ _ _ _ _ raid hr hrole hp hfull]⟩
        · right; right
          exact ⟨raid, rfl, hp, hfull, by rw [signUp_open _ _ _ _ _ _ raid hr hrole hp hfull]⟩
    · left; rw [signUp_invalid _ _ _ _ _ _ raid hr hrole]

theorem cancel_cases (raids : Store) (raidId userId : String) (now : Int) :
    cancelSignup raids raidId userId now = (raids, false) ∨
    (∃ raid p, raids.get raidId = some raid ∧ raid.participants.get userId = some p ∧
      (∀ w ∈ raid.waitlist, w.role ≠ p.role) ∧
      cancelSignup raids raidId userId now =
        (raids.set raidId { raid with participants := raid.participants.delete userId },
         true)) ∨
    (∃ raid p pre w post, raids.get raidId = some raid ∧
      raid.participants.get userId = some p ∧
      raid.waitlist = pre ++ w :: post ∧ w.role = p.role ∧ (∀ w' ∈ pre, w'.role ≠ p.role) ∧
      cancelSignup raids raidId userId now =
        (raids.set raidId
          { raid with
            participants :=
              (raid.participants.delete userId).set w.userId ⟨w.username, w.role, now⟩
            waitlist := pre ++ post },
         true)) := by
  cases hr : raids.get raidId with
  | none => left; exact cancel_absent _ _ _ _ (Or.inl hr)
  | some raid =>
    cases hp : raid.participants.get userId with
    | none => left; exact cancel_absent _ _ _ _ (Or.inr ⟨raid, hr, hp⟩)
    | some p =>
      by_cases hw : ∃ w ∈ raid.waitlist, w.role = p.role
      · obtain ⟨pre, w, post, hsplit, hrole, hpre⟩ := waitlist_split raid.waitlist p.role hw
        right; right
        exact ⟨raid, p, pre, w, post, rfl, hp, hsplit, hrole, hpre,
          cancel_promote _ _ _ _ raid p pre post w hr hp hsplit hrole hpre⟩
      · right; left
        have hw' : ∀ w ∈ raid.waitlist, w.role ≠ p.role := by
          intro w hmem hrole
          exact hw ⟨w, hmem, hrole⟩
        exact ⟨raid, p, rfl, hp, hw', cancel_plain _ _ _ _ raid p hr hp hw'⟩

theorem store_set_all (P : Raid → Prop) (raids : Store) (k : String) (v : Raid)
    (hall : ∀ id raid, raids.get id = some raid → P raid) (hv : P v) :
    ∀ id raid, (raids.set k v).get id = some raid → P raid := by
  intro id raid h
  rw [JsObject.get_set] at h
  split at h
  · cases h; exact hv
  · exact hall id raid h

/-! ## Capacity -/

theorem capacityOk_signUp (raid : Raid) (userId username role : String) (now : Int)
    (hok : CapacityOk raid)
    (hopen : ¬ (0 < roleLimit raid role ∧ roleLimit raid role ≤ (roleCount raid role : Int))) :
    CapacityOk { raid with participants := raid.participants.set userId ⟨username, role, now⟩ } := by
  intro r l hl hpos
  have hold := hok r l hl hpos
  have hstep := countRole_set_le raid.participants userId ⟨username, role, now⟩ r
  simp only [roleCount] at hold ⊢
  by_cases hr : role = r
  · subst hr
    have hlim : roleLimit raid role = l := by
      have hl' : raid.roles.get role = some l := hl
      simp [roleLimit, hl']
    rw [hlim] at hopen
    simp only [if_true] at hstep
    have : (countRole raid.participants role : Int) < l := by
      by_contra hc
      exact hopen ⟨hpos, by simp only [roleCount]; omega⟩
    omega
  · simp only [hr, if_false] at hstep
    omega

theorem capacityOk_cancel (raid : Raid) (participants : JsObject Participant)
    (waitlist : List WaitlistEntry) (hok : CapacityOk raid)
    (hle : ∀ r, countRole participants r ≤ countRole raid.participants r) :
    CapacityOk { raid with participants := participants, waitlist := waitlist } := by
  intro r l hl hpos
  have hold := hok r l hl hpos
  have := hle r
  simp only [roleCount] at hold ⊢
  omega

theorem capacityOk_step_signUp (raids : Store) (raidId userId username role : String)
    (now : Int) (hall : ∀ id raid, raids.get id = some raid → CapacityOk raid) :
    ∀ id raid, (signUpForRaid raids raidId userId username role now).1.get id = some raid →
      CapacityOk raid := by
  rcases signUp_cases raids raidId userId username role now with
    h | ⟨raid, hr, _, _, h⟩ | ⟨raid, hr, _, hopen, h⟩
  · rw [h]; exact hall
  · rw [h]
    exact store_set_all _ _ _ _ hall (fun r l hl hpos => hall raidId raid hr r l hl hpos)
  · rw [h]
    exact store_set_all _ _ _ _ hall
      (capacityOk_signUp raid userId username role now (hall raidId raid hr) hopen)

theorem capacityOk_step_cancel (raids : Store) (raidId userId : String)
    (now : Int) (hall : ∀ id raid, raids.get id = some raid → CapacityOk raid) :
    ∀ id raid, (cancelSignup raids raidId userId now).1.get id = some raid →
      CapacityOk raid := by
  rcases cancel_cases raids raidId userId now with
    h | ⟨raid, p, hr, hp, _, h⟩ | ⟨raid, p, pre, w, post, hr, hp, _, hw, _, h⟩
  · rw [h]; exact hall
  · rw [h]
    refine store_set_all _ _ _ _ hall ?_
    exact capacityOk_cancel raid _ raid.waitlist (hall raidId raid hr)
      (fun r => countRole_delete_le _ _ _)
  · rw [h]
    refine store_set_all _ _ _ _ hall ?_
    refine capacityOk_cancel raid _ _ (hall raidId raid hr) ?_
    intro r
    have h1 := countRole_set_le (raid.participants.delete userId) w.userId
      ⟨w.username, w.role, now⟩ r
    have h2 := countRole_delete_le raid.participants userId r
    have h3 := countRole_delete_lt raid.participants userId p hp
    by_cases hrr : w.role = r
    · subst hrr
      rw [hw] at h1 ⊢
      simp only [if_true] at h1
      omega
    · simp only [hrr, if_false] at h1
      omega

theorem capacityOk_of_reachable (raids : Store) (h : Reachable raids) :
    ∀ id raid, raids.get id = some raid → CapacityOk raid := by
  induction h with
  | init => intro id raid h; simp [JsObject.get] at h
  | create name description datetime raidType partySize roles guideLink dateNow _ ih =>
    refine store_set_all _ _ _ _ ih ?_
    intro r l _ hpos
    simp only [roleCount, countRole_nil]
    exact_mod_cast hpos.le
  | signUp raidId userId username role now _ ih =>
    exact capacityOk_step_signUp _ _ _ _ _ _ ih
  | cancel raidId userId now _ ih =>
    exact capacityOk_step_cancel _ _ _ _ ih

/-- C1. Capacity invariant: in every store reached from `raids = {}` by `createRaid`,
`signUpForRaid` and `cancelSignup` calls, for every raid and every role `r` whose limit
`raid.roles[r]` is above zero, the number of participants with role `r` is at most that
limit. -/
theorem capacity_invariant (raids : Store) (hreach : Reachable raids)
    (raidId : String) (raid : Raid) (hraid : raids.get raidId = some raid)
    (r : String) (l : Int) (hl : raid.roles.get r = some l) (hpos : 0 < l) :
    ((raid.participants.values.filter (fun p => p.role == r)).length : Int) ≤ l :=
  capacityOk_of_reachable raids hreach raidId raid hraid r l hl hpos

/-- Witness of C1: in the run where `A` holds the only Tank slot and `B` is waitlisted, the
Tank count of raid `"1700000000042"` is within its limit 1. -/
theorem capacity_invariant_witness :
    tankStoreAB.get "1700000000042" = some tankRaidAB ∧
      ((tankRaidAB.participants.values.filter (fun p => p.role == "Tank")).length : Int) ≤ 1 :=
  ⟨by decide,
    capacity_invariant tankStoreAB
      (Reachable.signUp "1700000000042" "B" "bob" "Tank" 2
        (Reachable.signUp "1700000000042" "A" "alice" "Tank" 1
          (Reachable.create "Eden" "Prog" 1000 none 8 [("Tank", 1)] none 1700000000042 Reachable.init)))
      "1700000000042" tankRaidAB (by decide) "Tank" 1 (by decide) (by decide)⟩

/-! ## Signing up twice -/

/-- C2, counterexample. User `B` is waitlisted for Tank by a first call; a second call by `B`
for Tank appends `B` to the waitlist again, and a second call by `B` for Flex is accepted and
adds `B` to the participants. -/
theorem signUp_twice_counterexample :
    ((signUpForRaid (signUpForRaid tankStoreA "1700000000042" "B" "bob" "Tank" 2).1
        "1700000000042" "B" "bob" "Tank" 3).1.get "1700000000042").map (fun raid => raid.waitlist) ≠
      ((signUpForRaid tankStoreA "1700000000042" "B" "bob" "Tank" 2).1.get "1700000000042").map
        (fun raid => raid.waitlist) ∧
    (signUpForRaid (signUpForRaid tankStoreA "1700000000042" "B" "bob" "Tank" 2).1
        "1700000000042" "B" "bob" "Flex" 3).2.success = true ∧
    ((signUpForRaid (signUpForRaid tankStoreA "1700000000042" "B" "bob" "Tank" 2).1
        "1700000000042" "B" "bob" "Flex" 3).1.get "1700000000042").map (fun raid => raid.participants) ≠
      ((signUpForRaid tankStoreA "1700000000042" "B" "bob" "Tank" 2).1.get "1700000000042").map
        (fun raid => raid.participants) := by
  decide

/-- C2, amended. When the user is a participant of the raid after a first `signUpForRaid`
call (the call was accepted, or the user was signed up already), a second call for the same
user, with any role, returns `success = false` and leaves the whole store unchanged. -/
theorem signUp_twice_rejected (raids : Store) (raidId userId : String)
    (username role : String) (now : Int) (username' role' : String) (now' : Int)
    (hin : ∃ raid p, (signUpForRaid raids raidId userId username role now).1.get raidId
        = some raid ∧ raid.participants.get userId = some p) :
    (signUpForRaid (signUpForRaid raids raidId userId username role now).1
        raidId userId username' role' now').2.success = false ∧
    (signUpForRaid (signUpForRaid raids raidId userId username role now).1
        raidId userId username' role' now').1 =
      (signUpForRaid raids raidId userId username role now).1 := by
  obtain ⟨raid, p, hr, hp⟩ := hin
  by_cases hrole : role' ∈ config.roles
  · rw [signUp_duplicate _ _ _ _ _ _ raid p hr hrole hp]
    exact ⟨rfl, rfl⟩
  · rw [signUp_invalid _ _ _ _ _ _ raid hr hrole]
    exact ⟨rfl, rfl⟩

/-- Witness of C2 as amended: `A` is accepted as Tank, and a second call by `A`, for Flex,
is rejected and changes nothing. -/
theorem signUp_twice_rejected_witness :
    (signUpForRaid (signUpForRaid tankStore "1700000000042" "A" "alice" "Tank" 1).1
        "1700000000042" "A" "alice" "Flex" 2).2.success = false ∧
    (signUpForRaid (signUpForRaid tankStore "1700000000042" "A" "alice" "Tank" 1).1
        "1700000000042" "A" "alice" "Flex" 2).1 =
      (signUpForRaid tankStore "1700000000042" "A" "alice" "Tank" 1).1 :=
  signUp_twice_rejected tankStore "1700000000042" "A" "alice" "Tank" 1 "alice" "Flex" 2
    ⟨_, _, rfl, rfl⟩

/-! ## Participants and waitlist -/

theorem JsObject.get_delete {α : Type} (o : JsObject α) (k k' : String) :
    (o.delete k).get k' = if k' = k then none else o.get k' := by
  by_cases h : k' = k
  · subst h; simp [JsObject.get_delete_self]
  · simp [h, JsObject.get_delete_ne]

theorem waitlistOk_signUp_full (raid : Raid) (userId username role : String) (now : Int)
    (hok : WaitlistOk raid) (hp : raid.participants.get userId = none)
    (hoff : ∀ w ∈ raid.waitlist, w.userId ≠ userId) :
    WaitlistOk { raid with waitlist := raid.waitlist ++ [⟨userId, username, role, now⟩] } := by
  obtain ⟨hex, hnd⟩ := hok
  constructor
  · intro w hmem
    rcases List.mem_append.mp hmem with h | h
    · exact hex w h
    · simp only [List.mem_singleton] at h
      subst h
      exact hp
  · simp only [List.map_append, List.map_cons, List.map_nil]
    rw [List.nodup_append]
    refine ⟨hnd, List.nodup_singleton _, ?_⟩
    intro a ha hb
    simp only [List.mem_singleton] at hb
    obtain ⟨w, hw, rfl⟩ := List.mem_map.mp ha
    exact hoff w hw hb

theorem waitlistOk_signUp_open (raid : Raid) (userId username role : String) (now : Int)
    (hok : WaitlistOk raid) (hoff : ∀ w ∈ raid.waitlist, w.userId ≠ userId) :
    WaitlistOk
      { raid with participants := raid.participants.set userId ⟨username, role, now⟩ } := by
  obtain ⟨hex, hnd⟩ := hok
  refine ⟨?_, hnd⟩
  intro w hmem
  show (raid.participants.set userId ⟨username, role, now⟩).get w.userId = none
  rw [JsObject.get_set_ne _ _ (hoff w hmem)]
  exact hex w hmem

theorem waitlistOk_cancel_plain (raid : Raid) (userId : String) (hok : WaitlistOk raid) :
    WaitlistOk { raid with participants := raid.participants.delete userId } := by
  obtain ⟨hex, hnd⟩ := hok
  refine ⟨?_, hnd⟩
  intro w hmem
  show (raid.participants.delete userId).get w.userId = none
  rw [JsObject.get_delete]
  split
  · rfl
  · exact hex w hmem

theorem waitlistOk_cancel_promote (raid : Raid) (userId : String) (now : Int)
    (pre post : List WaitlistEntry) (w : WaitlistEntry)
    (hok : WaitlistOk raid) (hsplit : raid.waitlist = pre ++ w :: post) :
    WaitlistOk
      { raid with
        participants :=
          (raid.participants.delete userId).set w.userId ⟨w.username, w.role, now⟩
        waitlist := pre ++ post } := by
  obtain ⟨hex, hnd⟩ := hok
  rw [hsplit] at hex hnd
  simp only [List.map_append, List.map_cons] at hnd
  have hsub : (pre.map (fun w => w.userId) ++ post.map (fun w => w.userId)).Nodup :=
    hnd.sublist (List.Sublist.append_left (List.sublist_cons_self _ _) _)
  have hne : ∀ w' ∈ pre ++ post, w'.userId ≠ w.userId := by
    intro w' hmem heq
    rw [List.nodup_append] at hnd
    obtain ⟨_, hpost, hdisj⟩ := hnd
    rcases List.mem_append.mp hmem with h | h
    · exact hdisj (List.mem_map.mpr ⟨w', h, rfl⟩) (by rw [heq]; exact List.mem_cons_self _ _)
    · have := (List.nodup_cons.mp hpost).1
      exact this (by rw [← heq]; exact List.mem_map.mpr ⟨w', h, rfl⟩)
  constructor
  · intro w' hmem
    show ((raid.participants.delete userId).set w.userId ⟨w.username, w.role, now⟩).get
      w'.userId = none
    rw [JsObject.get_set_ne _ _ (hne w' hmem), JsObject.get_delete]
    split
    · rfl
    · apply hex
      rcases List.mem_append.mp hmem with h | h
      · exact List.mem_append_left _ h
      · exact List.mem_append_right _ (List.mem_cons_of_mem _ h)
  · simpa using hsub

theorem waitlistOk_of_reachable (raids : Store) (h : ReachableOffWaitlist raids) :
    ∀ id raid, raids.get id = some raid → WaitlistOk raid := by
  induction h with
  | init => intro id raid h; simp [JsObject.get] at h
  | create name description datetime raidType partySize roles guideLink dateNow _ ih =>
    refine store_set_all _ _ _ _ ih ?_
    exact ⟨by simp, by simp⟩
  | @signUp raids raidId userId username role now hoff _ ih =>
    rcases signUp_cases raids raidId userId username role now with
      h | ⟨raid, hr, hp, _, h⟩ | ⟨raid, hr, _, _, h⟩
    · rw [h]; exact ih
    · rw [h]
      exact store_set_all _ _ _ _ ih
        (waitlistOk_signUp_full raid userId username role now (ih raidId raid hr) hp
          (hoff raid hr))
    · rw [h]
      exact store_set_all _ _ _ _ ih
        (waitlistOk_signUp_open raid userId username role now (ih raidId raid hr)
          (hoff raid hr))
  | @cancel raids raidId userId now _ ih =>
    rcases cancel_cases raids raidId userId now with
      h | ⟨raid, p, hr, _, _, h⟩ | ⟨raid, p, pre, w, post, hr, _, hsplit, _, _, h⟩
    · rw [h]; exact ih
    · rw [h]
      exact store_set_all _ _ _ _ ih (waitlistOk_cancel_plain raid userId (ih raidId raid hr))
    · rw [h]
      exact store_set_all _ _ _ _ ih
        (waitlistOk_cancel_promote raid userId now pre post w (ih raidId raid hr) hsplit)

theorem offWaitlist_of_check (raids : Store) (raidId userId : String)
    (h : ((raids.get raidId).map
      (fun raid => raid.waitlist.all (fun w => w.userId != userId))).getD true = true) :
    ∀ raid, raids.get raidId = some raid → ∀ w ∈ raid.waitlist, w.userId ≠ userId := by
  intro raid hr w hmem
  rw [hr] at h
  simp only [Option.map_some', Option.getD_some, List.all_eq_true] at h
  simpa using h w hmem

/-- C3, counterexample. After `A` is accepted as Tank, `B` is waitlisted for Tank and `B`
then signs up as Flex, the reachable store has `B` both as a key of `raid.participants` and
as the `userId` of a waitlist entry. -/
theorem exclusivity_counterexample :
    Reachable tankStoreABB ∧ tankStoreABB.get "1700000000042" = some tankRaidABB ∧
      (tankRaidABB.participants.get "B").isSome = true ∧
      "B" ∈ tankRaidABB.waitlist.map (fun w => w.userId) :=
  ⟨Reachable.signUp "1700000000042" "B" "bob" "Flex" 3
    (Reachable.signUp "1700000000042" "B" "bob" "Tank" 2
      (Reachable.signUp "1700000000042" "A" "alice" "Tank" 1
        (Reachable.create "Eden" "Prog" 1000 none 8 [("Tank", 1)] none 1700000000042 Reachable.init))),
    by decide, by decide, by decide⟩

/-- C3, amended. In every store reached from `raids = {}` by `createRaid` calls,
`cancelSignup` calls, and `signUpForRaid` calls made for a user who is not on the waitlist
of the raid at the time of the call, no user id is both a key of `raid.participants` and
the `userId` of an entry of `raid.waitlist`. -/
theorem exclusivity_off_waitlist (raids : Store) (hreach : ReachableOffWaitlist raids)
    (raidId : String) (raid : Raid) (hraid : raids.get raidId = some raid)
    (userId : String) :
    ¬ ((raid.participants.get userId).isSome = true ∧
        ∃ w ∈ raid.waitlist, w.userId = userId) := by
  rintro ⟨hsome, w, hmem, rfl⟩
  have := (waitlistOk_of_reachable raids hreach raidId raid hraid).1 w hmem
  simp [this] at hsome

/-- Witness of C3 as amended: with `A` accepted and `B` waitlisted, each by a single call,
`B` is not both a participant and on the waitlist. -/
theorem exclusivity_off_waitlist_witness :
    tankStoreAB.get "1700000000042" = some tankRaidAB ∧
    ¬ ((tankRaidAB.participants.get "B").isSome = true ∧
        ∃ w ∈ tankRaidAB.waitlist, w.userId = "B") :=
  ⟨by decide,
    exclusivity_off_waitlist tankStoreAB
      (ReachableOffWaitlist.signUp "1700000000042" "B" "bob" "Tank" 2
        (offWaitlist_of_check _ _ _ (by decide))
        (ReachableOffWaitlist.signUp "1700000000042" "A" "alice" "Tank" 1
          (offWaitlist_of_check _ _ _ (by decide))
          (ReachableOffWaitlist.create "Eden" "Prog" 1000 none 8 [("Tank", 1)] none 1700000000042
            ReachableOffWaitlist.init)))
      "1700000000042" tankRaidAB (by decide) "B"⟩

/-! ## Cancelling with promotion -/

/-- C4. When participant `userId` of the raid has role `p.role` and the waitlist holds an
entry of that role, `cancelSignup` returns `true`; the waitlist splits as
`pre ++ w :: post` with `w` the first entry of that role, the new waitlist is `pre ++ post`
(only `w` is gone, the others keep their order), and the new participants are the old ones
with `userId` deleted and then `w.userId` set to `w.username` with role `p.role`: `w.userId`
is a participant with that role and every other key except `userId` reads as before. -/
theorem cancel_promotes_first (raids : Store) (raidId userId : String) (now : Int)
    (raid : Raid) (p : Participant) (hraid : raids.get raidId = some raid)
    (hp : raid.participants.get userId = some p)
    (hw : ∃ w ∈ raid.waitlist, w.role = p.role) :
    ∃ pre w post, raid.waitlist = pre ++ w :: post ∧ w.role = p.role ∧
      (∀ w' ∈ pre, w'.role ≠ p.role) ∧
      cancelSignup raids raidId userId now =
        (raids.set raidId
          { raid with
            participants :=
              (raid.participants.delete userId).set w.userId ⟨w.username, p.role, now⟩
            waitlist := pre ++ post },
         true) ∧
      ((raid.participants.delete userId).set w.userId ⟨w.username, p.role, now⟩).get w.userId
        = some ⟨w.username, p.role, now⟩ ∧
      ∀ k, k ≠ w.userId →
        ((raid.participants.delete userId).set w.userId ⟨w.username, p.role, now⟩).get k
          = if k = userId then none else raid.participants.get k := by
  obtain ⟨pre, w, post, hsplit, hrole, hpre⟩ := waitlist_split raid.waitlist p.role hw
  refine ⟨pre, w, post, hsplit, hrole, hpre, ?_, JsObject.get_set_self _ _ _, ?_⟩
  · rw [cancel_promote raids raidId userId now raid p pre post w hraid hp hsplit hrole hpre,
      hrole]
  · intro k hk
    rw [JsObject.get_set_ne _ _ hk, JsObject.get_delete]

/-- Witness of C4: limits `Tank: 1`, `A` accepted, `B` waitlisted; when `A` cancels, `B` is
the Tank participant and the waitlist is empty. -/
theorem cancel_promotes_first_witness :
    cancelSignup tankStoreAB "1700000000042" "A" 5 =
      ([("1700000000042", { tankRaid with participants := [("B", ⟨"bob", "Tank", 5⟩)] })], true) := by
  obtain ⟨pre, w, post, hsplit, -, -, heq, -, -⟩ :=
    cancel_promotes_first tankStoreAB "1700000000042" "A" 5 tankRaidAB ⟨"alice", "Tank", 1⟩
      (by decide) (by decide) ⟨⟨"B", "bob", "Tank", 2⟩, by decide, by decide⟩
  rw [heq]
  cases pre with
  | nil =>
    simp only [tankRaidAB, List.nil_append, List.cons.injEq] at hsplit
    obtain ⟨rfl, rfl⟩ := hsplit
    decide
  | cons a t =>
    simp [tankRaidAB] at hsplit

/-! ## Signing up -/

/-- C5. For a recognized role, an existing raid and a user who is not a participant, when
the limit `raid.roles[role]` is above zero and the role count has reached it,
`signUpForRaid` leaves `raid.participants` as it is and appends the one entry
`{userId, username, role, timestamp}` at the end of the waitlist. -/
theorem signUp_full_appends (raids : Store) (raidId userId username role : String)
    (now : Int) (raid : Raid) (l : Int) (hraid : raids.get raidId = some raid)
    (hrole : role ∈ config.roles) (hp : raid.participants.get userId = none)
    (hl : raid.roles.get role = some l) (hpos : 0 < l)
    (hfull : l ≤ ((raid.participants.values.filter (fun p => p.role == role)).length : Int)) :
    signUpForRaid raids raidId userId username role now =
      (raids.set raidId
        { raid with waitlist := raid.waitlist ++ [⟨userId, username, role, now⟩] },
       ⟨false, "Role " ++ role ++ " is full. You\x27ve been added to the waitlist."⟩) := by
  have hlim : roleLimit raid role = l := by simp [roleLimit, hl]
  exact signUp_full raids raidId userId username role now raid hraid hrole hp
    (by rw [hlim]; exact ⟨hpos, hfull⟩)

/-- Witness of C5: the Tank slot of raid `"1700000000042"` is taken by `A`, so `B` goes on the
waitlist. -/
theorem signUp_full_appends_witness :
    signUpForRaid tankStoreA "1700000000042" "B" "bob" "Tank" 2 =
      (tankStoreA.set "1700000000042"
        { ({ tankRaid with participants := [("A", ⟨"alice", "Tank", 1⟩)] } : Raid) with
          waitlist := [] ++ [⟨"B", "bob", "Tank", 2⟩] },
       ⟨false, "Role " ++ "Tank" ++ " is full. You\x27ve been added to the waitlist."⟩) :=
  signUp_full_appends tankStoreA "1700000000042" "B" "bob" "Tank" 2
    { tankRaid with participants := [("A", ⟨"alice", "Tank", 1⟩)] } 1
    (by decide) (by decide) (by decide) (by decide) (by decide) (by decide)

theorem JsObject.set_set {α : Type} (o : JsObject α) (k : String) (v v' : α) :
    (o.set k v).set k v' = o.set k v' := by
  induction o with
  | nil => simp [JsObject.set]
  | cons e t ih =>
    obtain ⟨k', v₀⟩ := e
    by_cases h : k' = k
    · simp [JsObject.set, h]
    · simp [JsObject.set, h, ih]

theorem signUp_open_appends (raids : Store) (raidId userId username role : String)
    (now : Int) (raid : Raid) (hr : raids.get raidId = some raid)
    (hrole : role ∈ config.roles) (hp : raid.participants.get userId = none)
    (hlim : roleLimit raid role = 0 ∨
      (0 < roleLimit raid role ∧ (roleCount raid role : Int) < roleLimit raid role)) :
    signUpForRaid raids raidId userId username role now =
      (raids.set raidId
        { raid with participants := raid.participants ++ [(userId, ⟨username, role, now⟩)] },
       ⟨true, "You\x27ve signed up for " ++ raid.name ++ " as " ++ role⟩) := by
  have hopen : ¬ (0 < roleLimit raid role ∧ roleLimit raid role ≤ (roleCount raid role : Int)) := by
    rintro ⟨h1, h2⟩
    rcases hlim with h | ⟨_, h⟩ <;> omega
  rw [signUp_open raids raidId userId username role now raid hr hrole hp hopen,
    JsObject.set_eq_append _ _ _ hp]

theorem signUpEach_unlimited (raidId role : String) (now : Int)
    (hrole : role ∈ config.roles) (users : List (String × String)) :
    ∀ (raids : Store) (raid : Raid), raids.get raidId = some raid →
      roleLimit raid role = 0 →
      (∀ u ∈ users, raid.participants.get u.1 = none) →
      (users.map Prod.fst).Nodup →
      signUpEach raids raidId role now users =
        (raids.set raidId
          { raid with
            participants :=
              raid.participants ++ users.map (fun u => (u.1, ⟨u.2, role, now⟩)) },
         users.map
          (fun _ => ⟨true, "You\x27ve signed up for " ++ raid.name ++ " as " ++ role⟩)) := by
  induction users with
  | nil =>
    intro raids raid hr _ _ _
    have heta : ({ raid with participants := raid.participants ++ [] } : Raid) = raid := by
      simp
    simp only [signUpEach, List.map_nil]
    rw [heta, JsObject.set_eq_self _ _ _ hr]
  | cons u rest ih =>
    intro raids raid hr hlim hnew hnd
    obtain ⟨uid, uname⟩ := u
    have hp : raid.participants.get uid = none := hnew (uid, uname) (List.mem_cons_self _ _)
    have hstep := signUp_open_appends raids raidId uid uname role now raid hr hrole hp
      (Or.inl hlim)
    simp only [List.map_cons, List.nodup_cons] at hnd
    have hrest : ∀ u ∈ rest,
        JsObject.get (raid.participants ++ [(uid, (⟨uname, role, now⟩ : Participant))]) u.1
          = none := by
      intro u hu
      rw [← JsObject.set_eq_append _ _ _ hp]
      have hne : u.1 ≠ uid := by
        rintro rfl
        exact hnd.1 (List.mem_map.mpr ⟨u, hu, rfl⟩)
      rw [JsObject.get_set_ne _ _ hne]
      exact hnew u (List.mem_cons_of_mem _ hu)
    have hih := ih (raids.set raidId
        { raid with participants := raid.participants ++ [(uid, ⟨uname, role, now⟩)] })
      { raid with participants := raid.participants ++ [(uid, ⟨uname, role, now⟩)] }
      (JsObject.get_set_self _ _ _) hlim hrest hnd.2
    simp only [signUpEach, hstep, hih, JsObject.set_set, List.map_cons, List.append_assoc,
      List.singleton_append]

/-- C6. For a recognized role, an existing raid and a user who is not a participant, when
the limit `raid.roles[role] || 0` is 0, or is above zero with the role count below it,
`signUpForRaid` returns `success = true`, adds the one key `userId` with the requested role
after the existing participants and leaves them and the waitlist as they are.  When the
limit is 0, any list of distinct users who are not participants, signing up one after
another, is accepted in full: every call returns `success = true`, all of them become
participants and the waitlist stays as it is. -/
theorem signUp_accepts (raids : Store) (raidId role : String) (now : Int) (raid : Raid)
    (hraid : raids.get raidId = some raid) (hrole : role ∈ config.roles) :
    (∀ userId username : String, raid.participants.get userId = none →
      (roleLimit raid role = 0 ∨
        (0 < roleLimit raid role ∧
          ((raid.participants.values.filter (fun p => p.role == role)).length : Int)
            < roleLimit raid role)) →
      signUpForRaid raids raidId userId username role now =
        (raids.set raidId
          { raid with
            participants := raid.participants ++ [(userId, ⟨username, role, now⟩)] },
         ⟨true, "You\x27ve signed up for " ++ raid.name ++ " as " ++ role⟩)) ∧
    (roleLimit raid role = 0 →
      ∀ users : List (String × String),
        (∀ u ∈ users, raid.participants.get u.1 = none) →
        (users.map Prod.fst).Nodup →
        signUpEach raids raidId role now users =
          (raids.set raidId
            { raid with
              participants :=
                raid.participants ++ users.map (fun u => (u.1, ⟨u.2, role, now⟩)) },
           users.map
            (fun _ => ⟨true, "You\x27ve signed up for " ++ raid.name ++ " as " ++ role⟩))) :=
  ⟨fun userId username hp hlim =>
      signUp_open_appends raids raidId userId username role now raid hraid hrole hp hlim,
    fun hlim users hnew hnd =>
      signUpEach_unlimited raidId role now hrole users raids raid hraid hlim hnew hnd⟩

/-- Witness of C6: raid `"1700000000042"` has no Flex limit, and `C`, `D`, `E` all sign up as Flex
after `A`; a single call by `C` is accepted as well. -/
theorem signUp_accepts_witness :
    signUpForRaid tankStoreA "1700000000042" "C" "carol" "Flex" 7 =
      ([("1700000000042", { tankRaid with
          participants := [("A", ⟨"alice", "Tank", 1⟩), ("C", ⟨"carol", "Flex", 7⟩)] })],
       ⟨true, "You\x27ve signed up for Eden as Flex"⟩) ∧
    signUpEach tankStoreA "1700000000042" "Flex" 7 [("C", "carol"), ("D", "dave"), ("E", "eve")] =
      ([("1700000000042", { tankRaid with
          participants := [("A", ⟨"alice", "Tank", 1⟩), ("C", ⟨"carol", "Flex", 7⟩),
            ("D", ⟨"dave", "Flex", 7⟩), ("E", ⟨"eve", "Flex", 7⟩)] })],
       [⟨true, "You\x27ve signed up for Eden as Flex"⟩,
        ⟨true, "You\x27ve signed up for Eden as Flex"⟩,
        ⟨true, "You\x27ve signed up for Eden as Flex"⟩]) := by
  have h := signUp_accepts tankStoreA "1700000000042" "Flex" 7
    { tankRaid with participants := [("A", ⟨"alice", "Tank", 1⟩)] } (by decide) (by decide)
  constructor
  · rw [h.1 "C" "carol" (by decide) (Or.inl (by decide))]
    decide
  · rw [h.2 (by decide) [("C", "carol"), ("D", "dave"), ("E", "eve")] (by decide) (by decide)]
    decide

theorem invalid_role_message :
    "Invalid role. Please choose from: " ++ ", ".intercalate config.roles =
      "Invalid role. Please choose from: Tank, Regen Healer, Shield Healer, Melee DPS, Ranged DPS, Caster DPS, Flex" := by
  decide

theorem JsObject.read_own {α : Type} (o : JsObject α) (k : String) (v : α)
    (h : o.get k = some v) : o.read k = Property.own v := by
  simp [JsObject.read, h]

theorem JsObject.read_undefined {α : Type} (o : JsObject α) (k : String)
    (h : o.get k = none) (hp : objectPrototype.get k = none) :
    o.read k = Property.undefined := by
  simp [JsObject.read, h, hp]

theorem JsObject.read_inherited {α : Type} (o : JsObject α) (k : String)
    (name : Option String) (h : o.get k = none) (hp : objectPrototype.get k = some name) :
    o.read k = Property.inherited name := by
  simp [JsObject.read, h, hp]

theorem signUpForRaidRun_own (raids : Store) (raidId userId username role : String)
    (now : Int) (raid : Raid) (h : raids.get raidId = some raid) :
    signUpForRaidRun raids raidId userId username role now =
      Outcome.returned (signUpForRaid raids raidId userId username role now) := by
  simp [signUpForRaidRun, JsObject.read_own raids raidId raid h]

/-- C7, failing input. A run of `signUpForRaid` with a role that is not in `config.roles`
returns `success = false` with a message and the store as it was, whatever the raid id;
so does a run with a raid id that is neither a key of `raids` nor a name of
`Object.prototype`.  A run with a raid id that is not a key of `raids` but names a member
of `Object.prototype`, such as `constructor`, and with a recognized role returns nothing:
it throws a `TypeError`. -/
theorem signUp_prototype_id_throws (raids : Store) (raidId userId username role : String)
    (now : Int) :
    (role ∉ config.roles →
      signUpForRaidRun raids raidId userId username role now =
          Outcome.returned (raids, ⟨false, "Raid not found!"⟩) ∨
        signUpForRaidRun raids raidId userId username role now =
          Outcome.returned (raids,
            ⟨false,
              "Invalid role. Please choose from: Tank, Regen Healer, Shield Healer, Melee DPS, Ranged DPS, Caster DPS, Flex"⟩)) ∧
    (raids.get raidId = none → objectPrototype.get raidId = none →
      signUpForRaidRun raids raidId userId username role now =
        Outcome.returned (raids, ⟨false, "Raid not found!"⟩)) ∧
    (raids.get raidId = none → objectPrototype.get raidId ≠ none → role ∈ config.roles →
      signUpForRaidRun raids raidId userId username role now =
        Outcome.thrown
          ("TypeError: Cannot read properties of undefined (reading \x27" ++ userId ++
            "\x27)")) := by
  refine ⟨?_, ?_, ?_⟩
  · intro hrole
    cases hr : raids.get raidId with
    | some raid =>
      rw [signUpForRaidRun_own raids raidId userId username role now raid hr,
        signUp_invalid _ _ _ _ _ _ raid hr hrole, invalid_role_message]
      exact Or.inr rfl
    | none =>
      cases hp : objectPrototype.get raidId with
      | none =>
        left
        simp [signUpForRaidRun, JsObject.read_undefined raids raidId hr hp]
      | some name =>
        right
        have hc : ¬ config.roles.contains role = true := by simpa using hrole
        simp only [signUpForRaidRun, JsObject.read_inherited raids raidId name hr hp]
        rw [if_pos hc, invalid_role_message]
  · intro hr hp
    simp [signUpForRaidRun, JsObject.read_undefined raids raidId hr hp]
  · intro hr hp hrole
    cases hq : objectPrototype.get raidId with
    | none => exact absurd hq hp
    | some name =>
      have hc : ¬ ¬ config.roles.contains role = true := by simpa using hrole
      simp only [signUpForRaidRun, JsObject.read_inherited raids raidId name hr hq]
      rw [if_neg hc]

/-- Witness of C7: on `tankStoreA`, the role `Bard` is rejected for the raid there and for
the id `constructor`, the id `1700000000007` is rejected as not found, and the call made by
`!raid join constructor Tank` throws. -/
theorem signUp_prototype_id_throws_witness :
    (signUpForRaidRun tankStoreA "1700000000042" "B" "bob" "Bard" 2 =
        Outcome.returned (tankStoreA, ⟨false, "Raid not found!"⟩) ∨
      signUpForRaidRun tankStoreA "1700000000042" "B" "bob" "Bard" 2 =
        Outcome.returned (tankStoreA,
          ⟨false,
            "Invalid role. Please choose from: Tank, Regen Healer, Shield Healer, Melee DPS, Ranged DPS, Caster DPS, Flex"⟩)) ∧
    (signUpForRaidRun tankStoreA "constructor" "B" "bob" "Bard" 2 =
        Outcome.returned (tankStoreA, ⟨false, "Raid not found!"⟩) ∨
      signUpForRaidRun tankStoreA "constructor" "B" "bob" "Bard" 2 =
        Outcome.returned (tankStoreA,
          ⟨false,
            "Invalid role. Please choose from: Tank, Regen Healer, Shield Healer, Melee DPS, Ranged DPS, Caster DPS, Flex"⟩)) ∧
    signUpForRaidRun tankStoreA "1700000000007" "B" "bob" "Tank" 2 =
      Outcome.returned (tankStoreA, ⟨false, "Raid not found!"⟩) ∧
    signUpForRaidRun tankStoreA "constructor" "B" "bob" "Tank" 2 =
      Outcome.thrown "TypeError: Cannot read properties of undefined (reading \x27B\x27)" :=
  ⟨(signUp_prototype_id_throws tankStoreA "1700000000042" "B" "bob" "Bard" 2).1 (by decide),
    (signUp_prototype_id_throws tankStoreA "constructor" "B" "bob" "Bard" 2).1 (by decide),
    (signUp_prototype_id_throws tankStoreA "1700000000007" "B" "bob" "Tank" 2).2.1
      (by decide) (by decide),
    (signUp_prototype_id_throws tankStoreA "constructor" "B" "bob" "Tank" 2).2.2
      (by decide) (by decide) (by decide)⟩

/-! ## Status and message -/

theorem waitlist_message_ne_missing (role : String) :
    "Role " ++ role ++ " is full. You\x27ve been added to the waitlist." ≠ "Raid not found!" := by
  intro h
  have := congrArg String.data h
  simp [String.data_append] at this

theorem waitlist_message_ne_invalid (role x : String) :
    "Role " ++ role ++ " is full. You\x27ve been added to the waitlist." ≠
      "Invalid role. Please choose from: " ++ x := by
  intro h
  have := congrArg String.data h
  simp [String.data_append] at this

theorem waitlist_message_ne_duplicate (role x : String) :
    "Role " ++ role ++ " is full. You\x27ve been added to the waitlist." ≠
      "You\x27re already signed up as " ++ x := by
  intro h
  have := congrArg String.data h
  simp [String.data_append] at this

theorem signUp_outcome (raids : Store) (raidId userId username role : String) (now : Int) :
    (raids.get raidId = none ∧
      signUpForRaid raids raidId userId username role now =
        (raids, ⟨false, "Raid not found!"⟩)) ∨
    (∃ raid, raids.get raidId = some raid ∧
      signUpForRaid raids raidId userId username role now =
        (raids,
          ⟨false, "Invalid role. Please choose from: " ++ ", ".intercalate config.roles⟩)) ∨
    (∃ (raid : Raid) (p : Participant), raids.get raidId = some raid ∧
      signUpForRaid raids raidId userId username role now =
        (raids, ⟨false, "You\x27re already signed up as " ++ p.role⟩)) ∨
    (∃ raid, raids.get raidId = some raid ∧
      signUpForRaid raids raidId userId username role now =
        (raids.set raidId
          { raid with waitlist := raid.waitlist ++ [⟨userId, username, role, now⟩] },
         ⟨false, "Role " ++ role ++ " is full. You\x27ve been added to the waitlist."⟩)) ∨
    (∃ raid, raids.get raidId = some raid ∧
      signUpForRaid raids raidId userId username role now =
        (raids.set raidId
          { raid with participants := raid.participants.set userId ⟨username, role, now⟩ },
         ⟨true, "You\x27ve signed up for " ++ raid.name ++ " as " ++ role⟩)) := by
  cases hr : raids.get raidId with
  | none => exact Or.inl ⟨rfl, signUp_missing _ _ _ _ _ _ hr⟩
  | some raid =>
    by_cases hrole : role ∈ config.roles
    · cases hp : raid.participants.get userId with
      | some p =>
        exact Or.inr (Or.inr (Or.inl ⟨raid, p, rfl, signUp_duplicate _ _ _ _ _ _ raid p hr hrole hp⟩))
      | none =>
        by_cases hfull : 0 < roleLimit raid role ∧ roleLimit raid role ≤ (roleCount raid role : Int)
        · exact Or.inr (Or.inr (Or.inr (Or.inl
            ⟨raid, rfl, signUp_full _ _ _ _ _ _ raid hr hrole hp hfull⟩)))
        · exact Or.inr (Or.inr (Or.inr (Or.inr
            ⟨raid, rfl, signUp_open _ _ _ _ _ _ raid hr hrole hp hfull⟩)))
    · exact Or.inr (Or.inl ⟨raid, rfl, signUp_invalid _ _ _ _ _ _ raid hr hrole⟩)

theorem waitlist_append_ne (l : List WaitlistEntry) (e : WaitlistEntry) : l ++ [e] ≠ l := by
  intro h
  have := congrArg List.length h
  simp at this

/-- C8, counterexample. With the Tank slot taken by `A`, the call that puts `B` on the
waitlist and a call rejected for a missing raid, which leaves the store as it was, return
the same status `success = false`. -/
theorem signUp_status_counterexample :
    (signUpForRaid tankStoreA "1700000000042" "B" "bob" "Tank" 2).1 = [("1700000000042", tankRaidAB)] ∧
    (signUpForRaid tankStoreA "1700000000007" "B" "bob" "Tank" 2).1 = tankStoreA ∧
    (signUpForRaid tankStoreA "1700000000042" "B" "bob" "Tank" 2).2.success =
      (signUpForRaid tankStoreA "1700000000007" "B" "bob" "Tank" 2).2.success := by
  decide

/-- C8, amended. The status of `signUpForRaid` is the boolean `success`, which tells an
accepted call from the rest only: a call that appends the caller to the waitlist returns
`success = false`, the same status as any call that is rejected and leaves the store as it
was, and the two calls differ in the returned message. -/
theorem signUp_status_waitlisted (raids : Store) (raidId userId username role : String)
    (now : Int) (raid raid' : Raid)
    (raids₂ : Store) (raidId₂ userId₂ username₂ role₂ : String) (now₂ : Int)
    (hraid : raids.get raidId = some raid)
    (hraid' : (signUpForRaid raids raidId userId username role now).1.get raidId = some raid')
    (happend : raid'.waitlist = raid.waitlist ++ [⟨userId, username, role, now⟩])
    (hrej : (signUpForRaid raids₂ raidId₂ userId₂ username₂ role₂ now₂).2.success = false)
    (hsame : (signUpForRaid raids₂ raidId₂ userId₂ username₂ role₂ now₂).1 = raids₂) :
    (signUpForRaid raids raidId userId username role now).2.success = false ∧
    (signUpForRaid raids raidId userId username role now).2.success =
      (signUpForRaid raids₂ raidId₂ userId₂ username₂ role₂ now₂).2.success ∧
    (signUpForRaid raids raidId userId username role now).2.message ≠
      (signUpForRaid raids₂ raidId₂ userId₂ username₂ role₂ now₂).2.message := by
  have h1 : (signUpForRaid raids raidId userId username role now).2 =
      ⟨false, "Role " ++ role ++ " is full. You\x27ve been added to the waitlist."⟩ := by
    rcases signUp_outcome raids raidId userId username role now with
      ⟨hr, _⟩ | ⟨r, _, h⟩ | ⟨r, p, _, h⟩ | ⟨r, _, h⟩ | ⟨r, hr, h⟩
    · rw [hr] at hraid; cases hraid
    · rw [h, hraid] at hraid'
      cases hraid'
      exact absurd happend.symm (waitlist_append_ne _ _)
    · rw [h, hraid] at hraid'
      cases hraid'
      exact absurd happend.symm (waitlist_append_ne _ _)
    · rw [h]
    · rw [hraid] at hr
      cases hr
      rw [h, JsObject.get_set_self] at hraid'
      cases hraid'
      exact absurd happend.symm (waitlist_append_ne _ _)
  have h2 : (signUpForRaid raids₂ raidId₂ userId₂ username₂ role₂ now₂).2.message =
        "Raid not found!" ∨
      (signUpForRaid raids₂ raidId₂ userId₂ username₂ role₂ now₂).2.message =
        "Invalid role. Please choose from: " ++ ", ".intercalate config.roles ∨
      ∃ x, (signUpForRaid raids₂ raidId₂ userId₂ username₂ role₂ now₂).2.message =
        "You\x27re already signed up as " ++ x := by
    rcases signUp_outcome raids₂ raidId₂ userId₂ username₂ role₂ now₂ with
      ⟨_, h⟩ | ⟨r, _, h⟩ | ⟨r, p, _, h⟩ | ⟨r, hr, h⟩ | ⟨r, _, h⟩
    · rw [h]; exact Or.inl rfl
    · rw [h]; exact Or.inr (Or.inl rfl)
    · rw [h]; exact Or.inr (Or.inr ⟨p.role, rfl⟩)
    · rw [h] at hsame
      have := congrArg (fun s => JsObject.get s raidId₂) hsame
      simp only [JsObject.get_set_self, hr, Option.some.injEq] at this
      have hwl := congrArg Raid.waitlist this
      exact absurd hwl (waitlist_append_ne _ _)
    · rw [h] at hrej
      cases hrej
  refine ⟨by rw [h1], by rw [h1, hrej], ?_⟩
  rw [h1]
  rcases h2 with h | h | ⟨x, h⟩
  · rw [h]; exact waitlist_message_ne_missing role
  · rw [h]; exact waitlist_message_ne_invalid role _
  · rw [h]; exact waitlist_message_ne_duplicate role x

/-- Witness of C8 as amended: `B` is waitlisted for Tank in raid `"1700000000042"`, and a call for the
missing raid `"1700000000007"` is rejected. -/
theorem signUp_status_waitlisted_witness :
    (signUpForRaid tankStoreA "1700000000042" "B" "bob" "Tank" 2).2.success = false ∧
    (signUpForRaid tankStoreA "1700000000042" "B" "bob" "Tank" 2).2.success =
      (signUpForRaid tankStoreA "1700000000007" "B" "bob" "Tank" 2).2.success ∧
    (signUpForRaid tankStoreA "1700000000042" "B" "bob" "Tank" 2).2.message ≠
      (signUpForRaid tankStoreA "1700000000007" "B" "bob" "Tank" 2).2.message :=
  signUp_status_waitlisted tankStoreA "1700000000042" "B" "bob" "Tank" 2
    { tankRaid with participants := [("A", ⟨"alice", "Tank", 1⟩)] } tankRaidAB
    tankStoreA "1700000000007" "B" "bob" "Tank" 2
    (by decide) (by decide) (by decide) (by decide) (by decide)

/-! ## Cancelling -/

/-- C9. When participant `userId` of the raid has role `p.role` and no waitlist entry has
that role, `cancelSignup` returns `true`, deletes the key `userId` from the participants,
adds no key, and leaves the waitlist as it is. -/
theorem cancel_frees_slot (raids : Store) (raidId userId : String) (now : Int)
    (raid : Raid) (p : Participant) (hraid : raids.get raidId = some raid)
    (hp : raid.participants.get userId = some p)
    (hw : ∀ w ∈ raid.waitlist, w.role ≠ p.role) :
    cancelSignup raids raidId userId now =
      (raids.set raidId { raid with participants := raid.participants.delete userId },
       true) ∧
    ∀ k, (raid.participants.delete userId).get k =
      if k = userId then none else raid.participants.get k :=
  ⟨cancel_plain raids raidId userId now raid p hraid hp hw,
    fun k => JsObject.get_delete raid.participants userId k⟩

/-- Witness of C9: `B` is a Flex participant of raid `"1700000000042"`, whose waitlist only holds a
Tank entry; when `B` cancels, the waitlist is as before. -/
theorem cancel_frees_slot_witness :
    cancelSignup tankStoreABB "1700000000042" "B" 9 = ([("1700000000042", tankRaidAB)], true) := by
  rw [(cancel_frees_slot tankStoreABB "1700000000042" "B" 9 tankRaidABB ⟨"bob", "Flex", 3⟩
    (by decide) (by decide) (by decide)).1]
  decide

/-- C10. Function `cancelSignup` returns `false` and the store as it was when the raid id is
not in the store or the user is not a key of the participants of the raid, whether or not
the user is on the waitlist; it returns `true` exactly when the raid exists and the user is
a key of its participants. -/
theorem cancel_false_iff (raids : Store) (raidId userId : String) (now : Int) :
    ((raids.get raidId = none ∨
        ∃ raid, raids.get raidId = some raid ∧ raid.participants.get userId = none) →
      cancelSignup raids raidId userId now = (raids, false)) ∧
    ((cancelSignup raids raidId userId now).2 = true ↔
      ∃ raid p, raids.get raidId = some raid ∧ raid.participants.get userId = some p) := by
  refine ⟨cancel_absent raids raidId userId now, ?_⟩
  rcases cancel_cases raids raidId userId now with
    h | ⟨raid, p, hr, hp, _, h⟩ | ⟨raid, p, pre, w, post, hr, hp, _, _, _, h⟩
  · constructor
    · intro ht
      rw [h] at ht
      cases ht
    · rintro ⟨raid, p, hr, hp⟩
      cases hw : findIndex (fun w : WaitlistEntry => w.role == p.role) raid.waitlist with
      | none => simp [cancelSignup, hr, hp, hw]
      | some i =>
        cases hg : raid.waitlist[i]? with
        | none => simp [cancelSignup, hr, hp, hw, hg]
        | some w => simp [cancelSignup, hr, hp, hw, hg]
  · rw [h]
    exact ⟨fun _ => ⟨raid, p, hr, hp⟩, fun _ => rfl⟩
  · rw [h]
    exact ⟨fun _ => ⟨raid, p, hr, hp⟩, fun _ => rfl⟩

/-- Witness of C10: `B` is on the waitlist of raid `"1700000000042"` and is not a participant, so the
cancellation returns `false` and changes nothing; the same holds for the missing raid
`"1700000000007"`. -/
theorem cancel_false_iff_witness :
    cancelSignup tankStoreAB "1700000000042" "B" 9 = (tankStoreAB, false) ∧
    cancelSignup tankStoreAB "1700000000007" "A" 9 = (tankStoreAB, false) :=
  ⟨(cancel_false_iff tankStoreAB "1700000000042" "B" 9).1 (Or.inr ⟨tankRaidAB, by decide, by decide⟩),
    (cancel_false_iff tankStoreAB "1700000000007" "A" 9).1 (Or.inl (by decide))⟩

/-! ## Scheduling of reminders -/

theorem World.scheduleReminders_missing (w : World) (tz : TimeZone) (now : Int)
    (raidId : String) (h : w.raid? raidId = none) :
    w.scheduleReminders tz now raidId = w := by
  simp [World.scheduleReminders, h]

theorem World.scheduleReminders_eq (w : World) (tz : TimeZone) (now : Int)
    (raidId : String) (ref : Nat) (raid : Raid) (h : w.raid? raidId = some (ref, raid)) :
    w.scheduleReminders tz now raidId =
      { w with
        tasks := w.tasks ++
          (config.reminderTimes.filter
            (fun r => decide (raid.datetime - r.minutes * 60000 > now ∧
              r.name ∉ raid.remindersSent))).map
            (fun r => ⟨cronExpression tz (raid.datetime - r.minutes * 60000),
              Job.reminder raidId ref r.name⟩) } := by
  have key : ∀ (l : List config.ReminderTime) (w : World),
      l.foldl
        (fun w reminder =>
          let reminderTime := raid.datetime - reminder.minutes * 60000
          if reminderTime > now ∧ ¬ raid.remindersSent.contains reminder.name then
            { w with
              tasks := w.tasks ++
                [⟨cronExpression tz reminderTime, Job.reminder raidId ref reminder.name⟩] }
          else w)
        w =
      { w with
        tasks := w.tasks ++
          (l.filter
            (fun r => decide (raid.datetime - r.minutes * 60000 > now ∧
              r.name ∉ raid.remindersSent))).map
            (fun r => ⟨cronExpression tz (raid.datetime - r.minutes * 60000),
              Job.reminder raidId ref r.name⟩) } := by
    intro l
    induction l with
    | nil => intro w; simp
    | cons r t ih =>
      intro w
      rw [List.foldl_cons, ih]
      by_cases hc : raid.datetime - r.minutes * 60000 > now ∧ r.name ∉ raid.remindersSent
      · have hc' : raid.datetime - r.minutes * 60000 > now ∧
            ¬ raid.remindersSent.contains r.name = true := by simpa using hc
        simp [List.filter_cons, hc, hc']
      · have hc' : ¬ (raid.datetime - r.minutes * 60000 > now ∧
            ¬ raid.remindersSent.contains r.name = true) := by simpa using hc
        simp only [hc', if_false, List.filter_cons, hc, decide_False, Bool.false_eq_true]
  simp only [World.scheduleReminders, h]
  exact key config.reminderTimes w

/-! ## Cron expressions of the jobs -/

theorem civilFromDays_range (z : Int) :
    1 ≤ (civilFromDays z).2.1 ∧ (civilFromDays z).2.1 ≤ 12 ∧
    1 ≤ (civilFromDays z).2.2 ∧ (civilFromDays z).2.2 ≤ 31 := by
  simp only [civilFromDays]
  split <;> omega

theorem dayOfEra_year (e : Int) (h0 : 0 ≤ e) (h1 : e ≤ 146096) :
    0 ≤ (e - e / 1460 + e / 36524 - e / 146096) / 365 ∧
    (e - e / 1460 + e / 36524 - e / 146096) / 365 ≤ 399 ∧
    0 ≤ e - (365 * ((e - e / 1460 + e / 36524 - e / 146096) / 365) +
        ((e - e / 1460 + e / 36524 - e / 146096) / 365) / 4 -
        ((e - e / 1460 + e / 36524 - e / 146096) / 365) / 100) ∧
    e - (365 * ((e - e / 1460 + e / 36524 - e / 146096) / 365) +
        ((e - e / 1460 + e / 36524 - e / 146096) / 365) / 4 -
        ((e - e / 1460 + e / 36524 - e / 146096) / 365) / 100) ≤ 365 := by
  by_cases hlast : e = 146096
  · subst hlast
    decide
  · have h3 : e / 146096 = 0 := by omega
    rw [h3]
    generalize hc : e / 36524 = c
    have hc3 : 0 ≤ c ∧ c ≤ 3 := by omega
    generalize hy : (e - e / 1460 + c - 0) / 365 = y
    have hyq : y / 100 = c := by omega
    omega

theorem civilFromDays_decompose (z : Int) :
    ∃ era yoe doy : Int, 0 ≤ yoe ∧ yoe ≤ 399 ∧ 0 ≤ doy ∧ doy ≤ 365 ∧
      z + 719468 = era * 146097 + (365 * yoe + yoe / 4 - yoe / 100) + doy ∧
      (civilFromDays z).2.1 =
        (if (5 * doy + 2) / 153 < 10 then (5 * doy + 2) / 153 + 3
          else (5 * doy + 2) / 153 - 9) ∧
      (civilFromDays z).2.2 = doy - (153 * ((5 * doy + 2) / 153) + 2) / 5 + 1 := by
  have he : 0 ≤ z + 719468 - (z + 719468) / 146097 * 146097 ∧
      z + 719468 - (z + 719468) / 146097 * 146097 ≤ 146096 := by omega
  obtain ⟨hy0, hy1, hd0, hd1⟩ :=
    dayOfEra_year (z + 719468 - (z + 719468) / 146097 * 146097) he.1 he.2
  refine ⟨(z + 719468) / 146097, _, _, hy0, hy1, hd0, hd1, ?_, ?_, ?_⟩
  · omega
  · simp only [civilFromDays]
  · simp only [civilFromDays]

theorem civilFromDays_year_apart (a b : Int) (hab : a < b)
    (h : (civilFromDays a).2 = (civilFromDays b).2) : a + 365 ≤ b := by
  obtain ⟨ea, ya, da, ha1, ha2, ha3, ha4, hza, hma, hda⟩ := civilFromDays_decompose a
  obtain ⟨eb, yb, db, hb1, hb2, hb3, hb4, hzb, hmb, hdb⟩ := civilFromDays_decompose b
  have hm : (civilFromDays a).2.1 = (civilFromDays b).2.1 := by rw [h]
  have hd : (civilFromDays a).2.2 = (civilFromDays b).2.2 := by rw [h]
  rw [hma, hmb] at hm
  rw [hda, hdb] at hd
  have hdoy : da = db := by
    split at hm <;> split at hm <;> omega
  subst hdoy
  rcases lt_trichotomy ea eb with he | he | he
  · omega
  · subst he
    rcases lt_trichotomy ya yb with hy | hy | hy
    · have h4 : ya / 4 ≤ yb / 4 := by omega
      have h100 : yb / 100 - ya / 100 ≤ yb / 4 - ya / 4 := by omega
      omega
    · omega
    · have h4 : yb / 4 ≤ ya / 4 := by omega
      have h100 : ya / 100 - yb / 100 ≤ ya / 4 - yb / 4 := by omega
      omega
  · omega

theorem splitSpaces_append (a rest : List Char) (h : ' ' ∉ a) :
    splitSpaces (a ++ ' ' :: rest) = a :: splitSpaces rest := by
  induction a with
  | nil => simp [splitSpaces]
  | cons c t ih =>
    simp only [List.mem_cons, not_or] at h
    have hc : c ≠ ' ' := fun e => h.1 e.symm
    simp [splitSpaces, hc, ih h.2]

theorem splitSpaces_word (a : List Char) (h : ' ' ∉ a) : splitSpaces a = [a] := by
  induction a with
  | nil => rfl
  | cons c t ih =>
    simp only [List.mem_cons, not_or] at h
    have hc : c ≠ ' ' := fun e => h.1 e.symm
    simp [splitSpaces, hc, ih h.2]

set_option maxRecDepth 100000 in
theorem field_digits :
    ∀ k : Fin 60, ' ' ∉ (toString ((k : Nat) : Int)).data ∧
      decimal? (toString ((k : Nat) : Int)).data = some (k : Nat) ∧
      (toString ((k : Nat) : Int)).data ≠ ['*'] := by
  decide

theorem field_text (v : Int) (h0 : 0 ≤ v) (h1 : v < 60) :
    ' ' ∉ (toString v).data ∧ ∀ u : Int, cronField (toString v).data u = true ↔ u = v := by
  obtain ⟨k, rfl⟩ := Int.eq_ofNat_of_zero_le h0
  have hk : k < 60 := by omega
  obtain ⟨hs, hd, hn⟩ := field_digits ⟨k, hk⟩
  simp only at hs hd hn
  refine ⟨hs, fun u => ?_⟩
  simp only [cronField, hd, Option.map_some', Bool.or_eq_true, beq_iff_eq, hn, false_or,
    Option.some.injEq, Int.ofNat_eq_coe]
  exact eq_comm

theorem getMinutes_range (tz : TimeZone) (t : Int) :
    0 ≤ getMinutes tz t ∧ getMinutes tz t < 60 := by
  unfold getMinutes
  omega

theorem getHours_range (tz : TimeZone) (t : Int) : 0 ≤ getHours tz t ∧ getHours tz t < 24 := by
  unfold getHours
  omega

theorem getDate_range (tz : TimeZone) (t : Int) : 1 ≤ getDate tz t ∧ getDate tz t ≤ 31 := by
  have h := civilFromDays_range (localMinute tz t / 1440)
  unfold getDate
  omega

theorem getMonth_range (tz : TimeZone) (t : Int) : 0 ≤ getMonth tz t ∧ getMonth tz t ≤ 11 := by
  have h := civilFromDays_range (localMinute tz t / 1440)
  unfold getMonth
  omega

theorem splitSpaces_cronExpression (tz : TimeZone) (T : Int) :
    splitSpaces (cronExpression tz T).data =
      [(toString (getMinutes tz T)).data, (toString (getHours tz T)).data,
       (toString (getDate tz T)).data, (toString (getMonth tz T + 1)).data, ['*']] := by
  have h1 := (field_text (getMinutes tz T) (by have := getMinutes_range tz T; omega)
    (by have := getMinutes_range tz T; omega)).1
  have h2 := (field_text (getHours tz T) (by have := getHours_range tz T; omega)
    (by have := getHours_range tz T; omega)).1
  have h3 := (field_text (getDate tz T) (by have := getDate_range tz T; omega)
    (by have := getDate_range tz T; omega)).1
  have h4 := (field_text (getMonth tz T + 1) (by have := getMonth_range tz T; omega)
    (by have := getMonth_range tz T; omega)).1
  have hform : (cronExpression tz T).data =
      (toString (getMinutes tz T)).data ++ ' ' ::
        ((toString (getHours tz T)).data ++ ' ' ::
          ((toString (getDate tz T)).data ++ ' ' ::
            ((toString (getMonth tz T + 1)).data ++ ' ' :: ['*']))) := by
    simp [cronExpression, String.data_append]
  rw [hform, splitSpaces_append _ _ h1, splitSpaces_append _ _ h2, splitSpaces_append _ _ h3,
    splitSpaces_append _ _ h4]
  rfl

theorem cronMatches_cronExpression (tz : TimeZone) (T t : Int) :
    cronMatches tz (cronExpression tz T) t = true ↔
      t % 60000 = 0 ∧ getMinutes tz t = getMinutes tz T ∧ getHours tz t = getHours tz T ∧
        getDate tz t = getDate tz T ∧ getMonth tz t = getMonth tz T := by
  have h1 := (field_text (getMinutes tz T) (by have := getMinutes_range tz T; omega)
    (by have := getMinutes_range tz T; omega)).2
  have h2 := (field_text (getHours tz T) (by have := getHours_range tz T; omega)
    (by have := getHours_range tz T; omega)).2
  have h3 := (field_text (getDate tz T) (by have := getDate_range tz T; omega)
    (by have := getDate_range tz T; omega)).2
  have h4 := (field_text (getMonth tz T + 1) (by have := getMonth_range tz T; omega)
    (by have := getMonth_range tz T; omega)).2
  have h5 : ∀ u : Int, cronField ['*'] u = true := fun u => by simp [cronField]
  simp only [cronMatches, splitSpaces_cronExpression, Bool.and_eq_true, decide_eq_true_eq, h1,
    h2, h3, h4, h5, and_true]
  constructor
  · rintro ⟨⟨⟨⟨a, b⟩, c⟩, d⟩, e⟩
    exact ⟨a, b, c, d, by omega⟩
  · rintro ⟨a, b, c, d, e⟩
    exact ⟨⟨⟨⟨a, b⟩, c⟩, d⟩, by omega⟩

theorem cronMatches_minute (tz : TimeZone) (T : Int) (h : tz (T - T % 60000) = tz T) :
    cronMatches tz (cronExpression tz T) (T - T % 60000) = true := by
  rw [cronMatches_cronExpression]
  have hl : localMinute tz (T - T % 60000) = localMinute tz T := by
    unfold localMinute
    rw [h]
    omega
  simp only [getMinutes, getHours, getDate, getMonth, hl, and_self, and_true]
  omega

theorem cronMatches_not_before (tz : TimeZone) (offset now T t : Int)
    (hz : ∀ u, now ≤ u → u ≤ T → tz u = offset) (hyear : T ≤ now + 365 * 86400000)
    (hnow : now < t) (ht : t < T - T % 60000) :
    cronMatches tz (cronExpression tz T) t = false := by
  rw [Bool.eq_false_iff]
  intro hmatch
  obtain ⟨hsec, hmin, hhour, hdate, hmonth⟩ := (cronMatches_cronExpression tz T t).mp hmatch
  have hzt : tz t = offset := hz t (by omega) (by omega)
  have hzT : tz T = offset := hz T (by omega) (by omega)
  have e1 : localMinute tz t = t / 60000 + offset := by unfold localMinute; rw [hzt]
  have e2 : localMinute tz T = T / 60000 + offset := by unfold localMinute; rw [hzT]
  unfold getMinutes at hmin
  unfold getHours at hhour
  unfold getDate at hdate
  unfold getMonth at hmonth
  rw [e1, e2] at hmin hhour hdate hmonth
  have hpair : (civilFromDays ((t / 60000 + offset) / 1440)).2 =
      (civilFromDays ((T / 60000 + offset) / 1440)).2 :=
    Prod.ext (by omega) hdate
  rcases lt_trichotomy ((t / 60000 + offset) / 1440) ((T / 60000 + offset) / 1440) with
    hlt | heq | hgt
  · have := civilFromDays_year_apart _ _ hlt hpair
    omega
  · omega
  · omega

/-! ## Jobs of the reminders -/

/-- C11, failing input.  For a raid in the store, `scheduleReminders` at instant `now`
registers, after the jobs registered before and in the order of `config.reminderTimes`,
one job for each reminder `{name, minutes}` whose instant `datetime - minutes * 60000` is
strictly later than `now` and whose `name` is not in `raid.remindersSent`, and no other.
The cron expression of such a job admits exactly the starts of the minutes whose local
month, day of the month, hour and minute are those of that instant, in any year: the job
runs at the minute of `datetime - minutes * 60000`, and on a host whose offset does not
change in between it does not run earlier after `now` when that instant is at most 365
days after `now`.  For a raid further ahead the first run comes a year early. -/
theorem scheduleReminders_cron_yearly (w : World) (tz : TimeZone) (now : Int)
    (raidId : String) (ref : Nat) (raid : Raid) (hraid : w.raid? raidId = some (ref, raid)) :
    (w.scheduleReminders tz now raidId).tasks =
      w.tasks ++
        (config.reminderTimes.filter
          (fun r => decide (raid.datetime - r.minutes * 60000 > now ∧
            r.name ∉ raid.remindersSent))).map
          (fun r => ⟨cronExpression tz (raid.datetime - r.minutes * 60000),
            Job.reminder raidId ref r.name⟩) ∧
    ∀ r : config.ReminderTime,
      (∀ t, cronMatches tz (cronExpression tz (raid.datetime - r.minutes * 60000)) t = true ↔
        t % 60000 = 0 ∧
        getMinutes tz t = getMinutes tz (raid.datetime - r.minutes * 60000) ∧
        getHours tz t = getHours tz (raid.datetime - r.minutes * 60000) ∧
        getDate tz t = getDate tz (raid.datetime - r.minutes * 60000) ∧
        getMonth tz t = getMonth tz (raid.datetime - r.minutes * 60000)) ∧
      (tz (raid.datetime - r.minutes * 60000 - (raid.datetime - r.minutes * 60000) % 60000) =
          tz (raid.datetime - r.minutes * 60000) →
        cronMatches tz (cronExpression tz (raid.datetime - r.minutes * 60000))
          (raid.datetime - r.minutes * 60000 - (raid.datetime - r.minutes * 60000) % 60000) =
          true) ∧
      (∀ offset, (∀ u, now ≤ u → u ≤ raid.datetime - r.minutes * 60000 → tz u = offset) →
        raid.datetime - r.minutes * 60000 ≤ now + 365 * 86400000 →
        ∀ t, now < t →
          t < raid.datetime - r.minutes * 60000 -
            (raid.datetime - r.minutes * 60000) % 60000 →
          cronMatches tz (cronExpression tz (raid.datetime - r.minutes * 60000)) t =
            false) := by
  refine ⟨?_, fun r => ⟨?_, ?_, ?_⟩⟩
  · rw [World.scheduleReminders_eq w tz now raidId ref raid hraid]
  · exact fun t => cronMatches_cronExpression tz _ t
  · exact cronMatches_minute tz _
  · exact fun offset hz hyear t hnow ht =>
      cronMatches_not_before tz offset now _ t hz hyear hnow ht

/-- Witness of C11.  For the raid set 90 minutes after `now` = 2023-11-14 22:13:20 UTC,
only the `1 hour` job is registered; it runs at 22:43:00, the minute that holds `now` plus
30 minutes, and at no instant between `now` and then.  For the raid set 400 days after
`now`, the `24 hours` job has the expression of 17 December 22:13 and runs on
2023-12-17 at 22:13:00, which is 33 days after `now` and 366 days before the minute of
`datetime - 24 * 60 * 60000`. -/
theorem scheduleReminders_cron_yearly_witness :
    ((soonWorld.scheduleReminders utc 1700000000000 "1700000000000").tasks =
        soonWorld.tasks ++ [⟨"43 22 14 11 *", Job.reminder "1700000000000" 0 "1 hour"⟩] ∧
      cronMatches utc "43 22 14 11 *" 1700001780000 = true ∧
      cronMatches utc (cronExpression utc (soonRaid.datetime - 60 * 60000))
        (soonRaid.datetime - 60 * 60000 - (soonRaid.datetime - 60 * 60000) % 60000) = true ∧
      ∀ t, 1700000000000 < t → t < 1700001780000 →
        cronMatches utc (cronExpression utc (soonRaid.datetime - 60 * 60000)) t = false) ∧
    ((World.init.scheduleReminders utc 1700000000000 "1700000000000").tasks = [] ∧
      farWorld.tasks.take 3 =
        [⟨"13 22 17 12 *", Job.reminder "1700000000000" 0 "24 hours"⟩,
         ⟨"13 19 18 12 *", Job.reminder "1700000000000" 0 "3 hours"⟩,
         ⟨"13 21 18 12 *", Job.reminder "1700000000000" 0 "1 hour"⟩] ∧
      (1700000000000 : Int) < 1702851180000 ∧
      (1702851180000 : Int) + 366 * 86400000 =
        farRaid.datetime - 24 * 60 * 60000 - (farRaid.datetime - 24 * 60 * 60000) % 60000 ∧
      cronMatches utc (cronExpression utc (farRaid.datetime - 24 * 60 * 60000))
        1702851180000 = true) :=
  ⟨⟨by
      rw [(scheduleReminders_cron_yearly soonWorld utc 1700000000000 "1700000000000" 0
        soonRaid (by decide)).1]
      decide,
    by decide,
    ((scheduleReminders_cron_yearly soonWorld utc 1700000000000 "1700000000000" 0 soonRaid
      (by decide)).2 ⟨"1 hour", 60⟩).2.1 rfl,
    fun t h1 h2 =>
      ((scheduleReminders_cron_yearly soonWorld utc 1700000000000 "1700000000000" 0 soonRaid
        (by decide)).2 ⟨"1 hour", 60⟩).2.2 0 (fun _ _ _ => rfl) (by decide) t h1
        (by
          have e : soonRaid.datetime - (60 : Int) * 60000 -
              (soonRaid.datetime - (60 : Int) * 60000) % 60000 = 1700001780000 := by decide
          show t < soonRaid.datetime - (60 : Int) * 60000 -
              (soonRaid.datetime - (60 : Int) * 60000) % 60000
          rw [e]
          exact h2)⟩,
    ⟨by decide, by decide, by decide, by decide,
      (((scheduleReminders_cron_yearly farWorld utc 1700000000000 "1700000000000" 0 farRaid
        (by decide)).2 ⟨"24 hours", 24 * 60⟩).1 1702851180000).mpr (by decide)⟩⟩

/-! ## Scheduling of the fetch of logs -/

/-- C14, failing input.  Function `scheduleLogsFetch` at instant `now` registers one job,
the fetch of logs for the raid, when the raid is in the store and the instant
`datetime + 30 * 60000` is strictly later than `now`; it changes nothing when that instant
is not later than `now`, and nothing when the raid id is not in the store.  The cron
expression of the job admits exactly the starts of the minutes whose local month, day of
the month, hour and minute are those of that instant, in any year: the job runs at the
minute of `datetime + 30 * 60000`, and on a host whose offset does not change in between
it does not run earlier after `now` when that instant is at most 365 days after `now`.
For a raid further ahead the first run comes a year early. -/
theorem scheduleLogsFetch_cron_yearly (w : World) (tz : TimeZone) (now : Int)
    (raidId : String) :
    (∀ ref raid, w.raid? raidId = some (ref, raid) → raid.datetime + 30 * 60000 > now →
      w.scheduleLogsFetch tz now raidId =
        { w with
          tasks := w.tasks ++
            [⟨cronExpression tz (raid.datetime + 30 * 60000), Job.logsFetch raidId⟩] }) ∧
    (∀ ref raid, w.raid? raidId = some (ref, raid) → ¬ raid.datetime + 30 * 60000 > now →
      w.scheduleLogsFetch tz now raidId = w) ∧
    (w.raids.get raidId = none → w.scheduleLogsFetch tz now raidId = w) ∧
    ∀ fetchTime : Int,
      (∀ t, cronMatches tz (cronExpression tz fetchTime) t = true ↔
        t % 60000 = 0 ∧ getMinutes tz t = getMinutes tz fetchTime ∧
        getHours tz t = getHours tz fetchTime ∧ getDate tz t = getDate tz fetchTime ∧
        getMonth tz t = getMonth tz fetchTime) ∧
      (tz (fetchTime - fetchTime % 60000) = tz fetchTime →
        cronMatches tz (cronExpression tz fetchTime) (fetchTime - fetchTime % 60000) =
          true) ∧
      (∀ offset, (∀ u, now ≤ u → u ≤ fetchTime → tz u = offset) →
        fetchTime ≤ now + 365 * 86400000 →
        ∀ t, now < t → t < fetchTime - fetchTime % 60000 →
          cronMatches tz (cronExpression tz fetchTime) t = false) := by
  refine ⟨?_, ?_, ?_, fun fetchTime => ⟨?_, ?_, ?_⟩⟩
  · intro ref raid h hlt
    simp only [World.scheduleLogsFetch, h, config.fflogs.updateInterval]
    rw [if_pos hlt]
  · intro ref raid h hlt
    simp only [World.scheduleLogsFetch, h, config.fflogs.updateInterval]
    rw [if_neg hlt]
  · intro h
    simp [World.scheduleLogsFetch, World.raid?, h]
  · exact fun t => cronMatches_cronExpression tz _ t
  · exact cronMatches_minute tz _
  · exact fun offset hz hyear t hnow ht =>
      cronMatches_not_before tz offset now _ t hz hyear hnow ht

/-- Witness of C14.  For the raid set 90 minutes after `now` = 2023-11-14 22:13:20 UTC
the fetch is registered for minute 00:13 of 15 November, it runs at 00:13:00 and at no
instant between `now` and then; two hours after the raid nothing is registered, and
nothing for a raid id that is not in the store.  For the raid set 400 days after `now`,
the job has the expression of 18 December 22:43 and runs on 2023-12-18 at 22:43:00, which
is 34 days after `now` and 366 days before the minute of `datetime + 30 * 60000`. -/
theorem scheduleLogsFetch_cron_yearly_witness :
    (soonWorld.scheduleLogsFetch utc 1700000000000 "1700000000000" =
        { soonWorld with
          tasks := soonWorld.tasks ++ [⟨"13 0 15 11 *", Job.logsFetch "1700000000000"⟩] } ∧
      soonWorld.scheduleLogsFetch utc (1700000000000 + 12600000) "1700000000000" =
        soonWorld ∧
      soonWorld.scheduleLogsFetch utc 1700000000000 "1700000000007" = soonWorld ∧
      cronMatches utc "13 0 15 11 *" 1700007180000 = true ∧
      cronMatches utc (cronExpression utc (soonRaid.datetime + 30 * 60000))
        (soonRaid.datetime + 30 * 60000 - (soonRaid.datetime + 30 * 60000) % 60000) = true ∧
      ∀ t, 1700000000000 < t → t < 1700007180000 →
        cronMatches utc (cronExpression utc (soonRaid.datetime + 30 * 60000)) t = false) ∧
    (farWorld.tasks.drop 3 = [⟨"43 22 18 12 *", Job.logsFetch "1700000000000"⟩] ∧
      (1700000000000 : Int) < 1702939380000 ∧
      (1702939380000 : Int) + 366 * 86400000 =
        farRaid.datetime + 30 * 60000 - (farRaid.datetime + 30 * 60000) % 60000 ∧
      cronMatches utc (cronExpression utc (farRaid.datetime + 30 * 60000)) 1702939380000 =
        true) :=
  ⟨⟨by
      rw [(scheduleLogsFetch_cron_yearly soonWorld utc 1700000000000 "1700000000000").1 0
        soonRaid (by decide) (by decide)]
      decide,
    (scheduleLogsFetch_cron_yearly soonWorld utc (1700000000000 + 12600000)
      "1700000000000").2.1 0 soonRaid (by decide) (by decide),
    (scheduleLogsFetch_cron_yearly soonWorld utc 1700000000000 "1700000000007").2.2.1
      (by decide),
    by decide,
    ((scheduleLogsFetch_cron_yearly soonWorld utc 1700000000000 "1700000000000").2.2.2
      (soonRaid.datetime + 30 * 60000)).2.1 rfl,
    fun t h1 h2 =>
      ((scheduleLogsFetch_cron_yearly soonWorld utc 1700000000000 "1700000000000").2.2.2
        (soonRaid.datetime + 30 * 60000)).2.2 0 (fun _ _ _ => rfl) (by decide) t h1
        (by
          have e : soonRaid.datetime + (30 : Int) * 60000 -
              (soonRaid.datetime + (30 : Int) * 60000) % 60000 = 1700007180000 := by decide
          show t < soonRaid.datetime + (30 : Int) * 60000 -
              (soonRaid.datetime + (30 : Int) * 60000) % 60000
          rw [e]
          exact h2)⟩,
    ⟨by decide, by decide, by decide,
      (((scheduleLogsFetch_cron_yearly farWorld utc 1700000000000 "1700000000000").2.2.2
        (farRaid.datetime + 30 * 60000)).1 1702939380000).mpr (by decide)⟩⟩

/-! ## Reminder labels -/

/-- C12, failing run. The `1 hour` job of `soonRaid` stays registered after it has run, and
its cron expression matches minute 22:43 of 14 November again one year later; after two
runs of the callback `remindersSent` holds the label twice. -/
theorem reminder_label_duplicated :
    soonReminder ∈ soonWorld.tasks.map Task.job ∧
    soonReminder ∈ (soonWorld.runJob soonReminder noLogs true 1700001800000).tasks.map Task.job ∧
    cronExpression utc 1700001800000 = "43 22 14 11 *" ∧
    cronExpression utc (1700001800000 + 366 * 86400000) = "43 22 14 11 *" ∧
    ((soonWorld.runJob soonReminder noLogs true 1700001800000).runJob soonReminder noLogs true
        (1700001800000 + 366 * 86400000)).store =
      [("1700000000000", { soonRaid with remindersSent := ["1 hour", "1 hour"] })] := by
  decide

/-! ## Restart -/

/-- C13, failing run. At start-up `loadRaids` reads back the raid set 90 minutes after
`now`: it registers the `1 hour` reminder and no fetch of logs, although
`datetime + 30 * 60000` is later than `now` and `createRaid` had registered both jobs. -/
theorem loadRaids_skips_logsFetch :
    (World.loadRaids World.init utc 1700000000000 (some (some soonTable))).tasks =
      [⟨"43 22 14 11 *", Job.reminder "1700000000000" 0 "1 hour"⟩] ∧
    soonRaid.datetime + config.fflogs.updateInterval * 60000 > 1700000000000 ∧
    soonWorld.tasks =
      [⟨"43 22 14 11 *", Job.reminder "1700000000000" 0 "1 hour"⟩,
       ⟨"13 0 15 11 *", Job.logsFetch "1700000000000"⟩] := by
  decide

/-! ## Running the callbacks -/

theorem World.raid?_eq_some (w : World) (raidId : String) (ref : Nat) (raid : Raid) :
    w.raid? raidId = some (ref, raid) ↔
      w.raids.get raidId = some ref ∧ w.heap[ref]? = some raid := by
  constructor
  · intro h
    unfold World.raid? at h
    split at h
    · cases h
    · rename_i r hg
      split at h
      · cases h
      · rename_i x hh
        cases h
        exact ⟨hg, hh⟩
  · rintro ⟨hg, hh⟩
    simp [World.raid?, hg, hh]

theorem World.raid?_eq_none_of_get (w : World) (raidId : String)
    (h : w.raids.get raidId = none) : w.raid? raidId = none := by
  simp [World.raid?, h]

theorem World.sendRaidReminder_missing (w : World) (raidId reminderType : String)
    (delivered : Bool) (now : Int) (h : w.raid? raidId = none) :
    w.sendRaidReminder raidId reminderType delivered now = some w := by
  simp [World.sendRaidReminder, h]

theorem World.sendRaidReminder_throws (w : World) (raidId reminderType : String)
    (delivered : Bool) (now : Int) (ref : Nat) (raid : Raid)
    (hraid : w.raid? raidId = some (ref, raid))
    (h : (createRaidEmbed raid now).accepted = false) :
    w.sendRaidReminder raidId reminderType delivered now = none := by
  simp [World.sendRaidReminder, hraid, h]

theorem World.sendRaidReminder_frame (w w₁ : World) (raidId reminderType : String)
    (delivered : Bool) (now : Int)
    (h : w.sendRaidReminder raidId reminderType delivered now = some w₁) :
    w₁.heap = w.heap ∧ w₁.raids = w.raids ∧ w₁.tasks = w.tasks ∧ w₁.lookups = w.lookups ∧
      w₁.characterLogs = w.characterLogs := by
  unfold World.sendRaidReminder at h
  split at h
  · cases h
    simp
  · simp only at h
    split at h
    · cases h
    · split at h
      · split at h <;> cases h <;> simp
      · cases h
        simp

theorem World.sendRaidReminder_returns (w : World) (raidId reminderType : String)
    (delivered : Bool) (now : Int) (ref : Nat) (raid : Raid)
    (hraid : w.raid? raidId = some (ref, raid))
    (h : (createRaidEmbed raid now).accepted = true) :
    ∃ w₁, w.sendRaidReminder raidId reminderType delivered now = some w₁ ∧
      ((delivered = false ∨ ¬ (truthy raid.messageId ∧ truthy raid.channelId)) →
        w₁.outbox = w.outbox) ∧
      (delivered = true → truthy raid.messageId ∧ truthy raid.channelId →
        ∃ content, w₁.outbox =
          w.outbox ++
            [Message.reminder (raid.channelId.getD "") content (createRaidEmbed raid now)]) := by
  unfold World.sendRaidReminder
  simp only [hraid, h, Bool.true_eq_false, if_false]
  by_cases hboth : truthy raid.messageId ∧ truthy raid.channelId
  · cases delivered
    · simp [hboth]
    · simp [hboth]
  · simp [hboth]

/-- C16, counterexample.  The command `!raid create "Eden" "" "2023-11-14 23:43:20"`, sent
at 22:13:20 to a host in UTC, makes a raid with an empty description, which `EmbedBuilder`
rejects.  When the `1 hour` trigger of
such a raid fires, the raid is in the store, `sendRaidReminder` throws before any delivery
is tried, and the callback leaves `remindersSent` empty. -/
theorem reminder_unmarked_counterexample :
    (parseRaidCreate blankCommand).map (fun a => (a.name, a.description)) =
      some ("Eden", "") ∧
    blankWorld.raid? "1700000000000" = some (0, { soonRaid with description := "" }) ∧
    Job.reminder "1700000000000" 0 "1 hour" ∈ blankWorld.tasks.map Task.job ∧
    blankWorld.sendRaidReminder "1700000000000" "1 hour" true 1700001800000 = none ∧
    (blankWorld.reminderCallback "1700000000000" 0 "1 hour" true 1700001800000).store =
      [("1700000000000", { soonRaid with description := "", remindersSent := [] })] := by
  decide

/-- C16, amended.  When the reminder callback runs for a raid id that is in the store and
`EmbedBuilder` accepts the embed of the stored raid, the label is appended to the
`remindersSent` of the raid object the callback holds, which is the stored raid when the
callback was registered for it, whatever the outcome of the delivery: when the delivery
fails, or is not attempted because `messageId` or `channelId` is missing, no message goes
out and the label is appended all the same.  When `EmbedBuilder` rejects the embed, the
callback changes nothing: the label is not appended. -/
theorem reminder_marks_when_rendered (w : World) (raidId : String) (ref held : Nat)
    (raid object : Raid) (name : String) (delivered : Bool) (now : Int)
    (hraid : w.raid? raidId = some (ref, raid)) (hheld : w.heap[held]? = some object) :
    ((createRaidEmbed raid now).accepted = true →
      (w.reminderCallback raidId held name delivered now).heap[held]? =
        some { object with remindersSent := object.remindersSent ++ [name] } ∧
      (held = ref →
        (w.reminderCallback raidId held name delivered now).raid? raidId =
          some (ref, { raid with remindersSent := raid.remindersSent ++ [name] })) ∧
      ((delivered = false ∨ ¬ (truthy raid.messageId ∧ truthy raid.channelId)) →
        (w.reminderCallback raidId held name delivered now).outbox = w.outbox)) ∧
    ((createRaidEmbed raid now).accepted = false →
      w.reminderCallback raidId held name delivered now = w) := by
  constructor
  · intro hok
    obtain ⟨w₁, hsend, hquiet, -⟩ :=
      World.sendRaidReminder_returns w raidId name delivered now ref raid hraid hok
    obtain ⟨fh, fr, -, -, -⟩ := World.sendRaidReminder_frame w w₁ raidId name delivered now hsend
    obtain ⟨hget, hheap⟩ := (World.raid?_eq_some w raidId ref raid).mp hraid
    refine ⟨?_, ?_, ?_⟩
    · simp only [World.reminderCallback, hsend, fh]
      rw [List.getElem?_modify_eq, hheld]
      rfl
    · intro heq
      subst heq
      rw [World.raid?_eq_some]
      simp only [World.reminderCallback, hsend, fh, fr]
      refine ⟨hget, ?_⟩
      rw [List.getElem?_modify_eq, hheap]
      rfl
    · intro h
      simp only [World.reminderCallback, hsend]
      exact hquiet h
  · intro hbad
    simp only [World.reminderCallback,
      World.sendRaidReminder_throws w raidId name delivered now ref raid hraid hbad]

/-- Witness of C16 as amended: the `1 hour` callback of the posted raid marks the label
when the delivery fails, the callback of the raid that was never posted marks it with no
delivery attempted, and the callback of the raid with the empty description marks
nothing. -/
theorem reminder_marks_when_rendered_witness :
    ((postedWorld.reminderCallback "1700000000000" 0 "1 hour" false 1700001800000).raid?
        "1700000000000" =
      some (0, { ({ soonRaid with messageId := some "m1", channelId := some "c1" } : Raid) with
        remindersSent := [] ++ ["1 hour"] }) ∧
      (postedWorld.reminderCallback "1700000000000" 0 "1 hour" false 1700001800000).outbox =
        postedWorld.outbox) ∧
    ((soonWorld.reminderCallback "1700000000000" 0 "1 hour" true 1700001800000).raid?
        "1700000000000" =
      some (0, { soonRaid with remindersSent := [] ++ ["1 hour"] }) ∧
      (soonWorld.reminderCallback "1700000000000" 0 "1 hour" true 1700001800000).outbox =
        soonWorld.outbox) ∧
    blankWorld.reminderCallback "1700000000000" 0 "1 hour" true 1700001800000 = blankWorld :=
  ⟨⟨((reminder_marks_when_rendered postedWorld "1700000000000" 0 0
        { soonRaid with messageId := some "m1", channelId := some "c1" }
        { soonRaid with messageId := some "m1", channelId := some "c1" } "1 hour" false
        1700001800000 (by decide) (by decide)).1 (by decide)).2.1 rfl,
      ((reminder_marks_when_rendered postedWorld "1700000000000" 0 0
        { soonRaid with messageId := some "m1", channelId := some "c1" }
        { soonRaid with messageId := some "m1", channelId := some "c1" } "1 hour" false
        1700001800000 (by decide) (by decide)).1 (by decide)).2.2 (Or.inl rfl)⟩,
    ⟨((reminder_marks_when_rendered soonWorld "1700000000000" 0 0 soonRaid soonRaid "1 hour"
        true 1700001800000 (by decide) (by decide)).1 (by decide)).2.1 rfl,
      ((reminder_marks_when_rendered soonWorld "1700000000000" 0 0 soonRaid soonRaid "1 hour"
        true 1700001800000 (by decide) (by decide)).1 (by decide)).2.2
        (Or.inr (by decide))⟩,
    (reminder_marks_when_rendered blankWorld "1700000000000" 0 0
      { soonRaid with description := "" } { soonRaid with description := "" } "1 hour" true
      1700001800000 (by decide) (by decide)).2 (by decide)⟩

/-- C15. When the raid id is no longer in `raids` and no entry of `raids` names the raid
object a reminder callback holds, a run of that callback sends no message, makes no
analytics lookup, and leaves `raids`, every raid of the store and the registered jobs as
they were; a run of the fetch callback for that id changes nothing at all. -/
theorem callbacks_skip_deleted (w : World) (raidId : String)
    (hdel : w.raids.get raidId = none) :
    (∀ (ref : Nat) (name : String) (delivered : Bool) (now : Int),
      (∀ e ∈ w.raids, e.2 ≠ ref) →
      (w.reminderCallback raidId ref name delivered now).outbox = w.outbox ∧
      (w.reminderCallback raidId ref name delivered now).lookups = w.lookups ∧
      (w.reminderCallback raidId ref name delivered now).raids = w.raids ∧
      (w.reminderCallback raidId ref name delivered now).store = w.store ∧
      (w.reminderCallback raidId ref name delivered now).tasks = w.tasks) ∧
    (∀ (logs : String → Option (List Report)) (delivered : Bool),
      w.autoFetchLogsAfterRaid raidId logs delivered = w) := by
  have hnone := World.raid?_eq_none_of_get w raidId hdel
  constructor
  · intro ref name delivered now hobj
    have hsend := World.sendRaidReminder_missing w raidId name delivered now hnone
    simp only [World.reminderCallback, hsend, World.store, true_and, and_true]
    apply List.filterMap_congr
    intro e he
    rw [List.getElem?_modify_ne _ _ (Ne.symm (hobj e he))]
  · intro logs delivered
    simp [World.autoFetchLogsAfterRaid, hnone]

/-- Witness of C15: after the posted raid is deleted, a run of its `1 hour` callback and a
run of its fetch callback send nothing, look nothing up and leave the store empty. -/
theorem callbacks_skip_deleted_witness :
    ((deletedWorld.reminderCallback "1700000000000" 0 "1 hour" true 1700001800000).outbox =
        deletedWorld.outbox ∧
      (deletedWorld.reminderCallback "1700000000000" 0 "1 hour" true 1700001800000).lookups =
        deletedWorld.lookups ∧
      (deletedWorld.reminderCallback "1700000000000" 0 "1 hour" true 1700001800000).raids =
        deletedWorld.raids ∧
      (deletedWorld.reminderCallback "1700000000000" 0 "1 hour" true 1700001800000).store =
        deletedWorld.store ∧
      (deletedWorld.reminderCallback "1700000000000" 0 "1 hour" true 1700001800000).tasks =
        deletedWorld.tasks) ∧
    deletedWorld.autoFetchLogsAfterRaid "1700000000000" noLogs true = deletedWorld :=
  ⟨(callbacks_skip_deleted deletedWorld "1700000000000" (by decide)).1 0 "1 hour" true
      1700001800000 (by decide),
    (callbacks_skip_deleted deletedWorld "1700000000000" (by decide)).2 noLogs true⟩

/-! ## Creating raids -/

theorem JsObject.keys_set_of_get {α : Type} (o : JsObject α) (k : String) (v v' : α)
    (h : o.get k = some v) : (o.set k v').keys = o.keys := by
  induction o with
  | nil => simp [JsObject.get] at h
  | cons e t ih =>
    obtain ⟨k', v₀⟩ := e
    by_cases hk : k' = k
    · simp [JsObject.set, JsObject.keys, hk]
    · simp only [JsObject.get, hk, if_false] at h
      have := ih h
      simp only [JsObject.keys] at this
      simp [JsObject.set, JsObject.keys, hk, this]

/-- C17, failing run. Two `createRaid` calls that read the same millisecond from the clock
return the same id; the second call overwrites the raid of the first, so the store has the
keys it had after the first call and holds one more raid than before, not two. -/
theorem createRaid_same_millisecond (raids : Store) (name description : String)
    (datetime : Int) (raidType : Option String) (partySize : Nat) (roles : JsObject Int)
    (guideLink : Option String) (name' description' : String) (datetime' : Int)
    (raidType' : Option String) (partySize' : Nat) (roles' : JsObject Int)
    (guideLink' : Option String) (dateNow : Nat) :
    (createRaid
        (createRaid raids name description datetime raidType partySize roles guideLink
          dateNow).1
        name' description' datetime' raidType' partySize' roles' guideLink' dateNow).2 =
      (createRaid raids name description datetime raidType partySize roles guideLink
        dateNow).2 ∧
    (createRaid
        (createRaid raids name description datetime raidType partySize roles guideLink
          dateNow).1
        name' description' datetime' raidType' partySize' roles' guideLink' dateNow).1.keys =
      (createRaid raids name description datetime raidType partySize roles guideLink
        dateNow).1.keys ∧
    ((createRaid
        (createRaid raids name description datetime raidType partySize roles guideLink
          dateNow).1
        name' description' datetime' raidType' partySize' roles' guideLink' dateNow).1.get
        (toString dateNow)).map (fun raid => raid.name) = some name' := by
  refine ⟨rfl, ?_, ?_⟩
  · simp only [createRaid]
    exact JsObject.keys_set_of_get _ _ _ _ (JsObject.get_set_self _ _ _)
  · simp only [createRaid, JsObject.get_set_self, Option.map_some']

theorem World.scheduleReminders_frame (w : World) (tz : TimeZone) (now : Int)
    (raidId : String) :
    (w.scheduleReminders tz now raidId).heap = w.heap ∧
    (w.scheduleReminders tz now raidId).raids = w.raids := by
  cases h : w.raid? raidId with
  | none => rw [World.scheduleReminders_missing w tz now raidId h]; exact ⟨rfl, rfl⟩
  | some e =>
    obtain ⟨ref, raid⟩ := e
    rw [World.scheduleReminders_eq w tz now raidId ref raid h]
    exact ⟨rfl, rfl⟩

theorem World.scheduleLogsFetch_frame (w : World) (tz : TimeZone) (now : Int)
    (raidId : String) :
    (w.scheduleLogsFetch tz now raidId).heap = w.heap ∧
    (w.scheduleLogsFetch tz now raidId).raids = w.raids := by
  unfold World.scheduleLogsFetch
  split
  · exact ⟨rfl, rfl⟩
  · simp only
    split <;> exact ⟨rfl, rfl⟩

/-- C18. The raid `createRaid` stores under the id it returns has no participants, an
empty waitlist and no reminders sent, the given instant as `datetime`, and as role limits
the given mapping when it has a key and the default composition `Tank: 2`,
`Regen Healer: 1`, `Shield Healer: 1`, `Melee DPS: 2`, `Ranged DPS: 1`, `Caster DPS: 1`,
`Flex: 0` when it has none.  In the second case the field `roles` is a new object: its
reference is none that existed before the call, so it is not `config.defaultRaidComp`, and
no object that existed is changed.  The field is the object `config.defaultRaidComp` only
when the caller passes that very object, and in every other case a write through the raid
leaves the default composition as it is.  The running bot stores the same raid as a new
object. -/
theorem createRaid_stores_copy (objects : List (JsObject Int)) (raids : Store) (w : World)
    (tz : TimeZone) (name description : String) (datetime : Int) (raidType : Option String)
    (partySize : Nat) (roles : Nat) (contents : JsObject Int) (guideLink : Option String)
    (dateNow : Nat)
    (hdefault : objects[config.defaultRaidCompRef]? = some config.defaultRaidComp)
    (hroles : objects[roles]? = some contents) :
    ∃ objects' ref stored,
      createRaidByRef objects raids name description datetime raidType partySize roles
          guideLink dateNow =
        some (objects', ref,
          createRaid raids name description datetime raidType partySize stored guideLink
            dateNow) ∧
      stored =
        (if contents = [] then
          [("Tank", 2), ("Regen Healer", 1), ("Shield Healer", 1), ("Melee DPS", 2),
           ("Ranged DPS", 1), ("Caster DPS", 1), ("Flex", 0)]
        else contents) ∧
      (createRaid raids name description datetime raidType partySize stored guideLink
          dateNow).1.get
        (createRaid raids name description datetime raidType partySize stored guideLink
          dateNow).2 =
        some
          { id := toString dateNow
            name := name
            description := description
            datetime := datetime
            partySize := partySize
            roles := stored
            participants := []
            waitlist := []
            remindersSent := []
            raidType := raidType
            guideLink := guideLink
            messageId := none
            channelId := none } ∧
      objects'[ref]? = some stored ∧
      (∀ r, r < objects.length → objects'[r]? = objects[r]?) ∧
      (contents = [] → ref = objects.length ∧ ref ≠ config.defaultRaidCompRef) ∧
      (contents ≠ [] → ref = roles) ∧
      (ref = config.defaultRaidCompRef ↔ roles = config.defaultRaidCompRef) ∧
      (roles ≠ config.defaultRaidCompRef → ∀ k v,
        (objects'.modify (fun o => o.set k v) ref)[config.defaultRaidCompRef]? =
          some config.defaultRaidComp) ∧
      (World.createRaid w tz name description datetime raidType partySize stored guideLink
          dateNow).1.raid?
        (World.createRaid w tz name description datetime raidType partySize stored guideLink
          dateNow).2 =
        ((createRaid raids name description datetime raidType partySize stored guideLink
          dateNow).1.get (toString dateNow)).map (fun raid => (w.heap.length, raid)) := by
  have hlen : 0 < objects.length := by
    rcases Nat.eq_zero_or_pos objects.length with h | h
    · rw [List.length_eq_zero] at h
      subst h
      simp [config.defaultRaidCompRef] at hdefault
    · exact h
  have hne : config.defaultRaidComp ≠ [] := by decide
  have hkeep : ∀ (l : JsObject Int),
      (if l.keys.length = 0 then config.defaultRaidComp else l) = l ∨ l = [] := by
    intro l
    cases l with
    | nil => exact Or.inr rfl
    | cons a t => left; simp [JsObject.keys]
  have hstored : ∀ (stored : JsObject Int), stored ≠ [] →
      (createRaid raids name description datetime raidType partySize stored guideLink
          dateNow).1.get
        (createRaid raids name description datetime raidType partySize stored guideLink
          dateNow).2 =
        some
          { id := toString dateNow
            name := name
            description := description
            datetime := datetime
            partySize := partySize
            roles := stored
            participants := []
            waitlist := []
            remindersSent := []
            raidType := raidType
            guideLink := guideLink
            messageId := none
            channelId := none } := by
    intro stored hs
    have : (if stored.keys.length = 0 then config.defaultRaidComp else stored) = stored := by
      rcases hkeep stored with h | h
      · exact h
      · exact absurd h hs
    simp only [createRaid, JsObject.get_set_self, this]
  have hworld : ∀ (stored : JsObject Int),
      (World.createRaid w tz name description datetime raidType partySize stored guideLink
          dateNow).1.raid?
        (World.createRaid w tz name description datetime raidType partySize stored guideLink
          dateNow).2 =
        ((createRaid raids name description datetime raidType partySize stored guideLink
          dateNow).1.get (toString dateNow)).map (fun raid => (w.heap.length, raid)) := by
    intro stored
    simp only [createRaid, JsObject.get_set_self, Option.map_some', World.createRaid]
    rw [World.raid?_eq_some]
    simp only [(World.scheduleLogsFetch_frame _ tz _ _).1,
      (World.scheduleLogsFetch_frame _ tz _ _).2, (World.scheduleReminders_frame _ tz _ _).1,
      (World.scheduleReminders_frame _ tz _ _).2]
    exact ⟨JsObject.get_set_self _ _ _, by simp⟩
  by_cases hc : contents = []
  · subst hc
    refine ⟨objects ++ [config.defaultRaidComp], objects.length, config.defaultRaidComp,
      ?_, ?_, hstored _ hne, ?_, ?_, ?_, ?_, ?_, ?_, hworld _⟩
    · simp [createRaidByRef, hroles, hdefault, JsObject.keys]
    · simp [config.defaultRaidComp]
    · simp
    · intro r hr
      rw [List.getElem?_append_left hr]
    · intro _
      exact ⟨rfl, by simp only [config.defaultRaidCompRef]; omega⟩
    · intro h
      exact absurd rfl h
    · constructor
      · intro h
        simp only [config.defaultRaidCompRef] at h
        omega
      · intro h
        rw [h, hdefault] at hroles
        exact absurd (Option.some.inj hroles) hne
    · intro _ k v
      rw [List.getElem?_modify_ne _ _ (by simp only [config.defaultRaidCompRef]; omega),
        List.getElem?_append_left (by simpa [config.defaultRaidCompRef] using hlen)]
      exact hdefault
  · have hk : ¬ contents.keys.length = 0 := by
      cases contents with
      | nil => exact absurd rfl hc
      | cons a t => simp [JsObject.keys]
    refine ⟨objects, roles, contents, ?_, ?_, hstored _ hc, hroles, ?_, ?_, ?_, ?_, ?_,
      hworld _⟩
    · simp [createRaidByRef, hroles, hk]
    · simp [hc]
    · intro r _
      rfl
    · intro h
      exact absurd h hc
    · intro _
      rfl
    · exact Iff.rfl
    · intro hr k v
      rw [List.getElem?_modify_ne _ _ hr]
      exact hdefault

/-- Witness of C18: the `!raid create` handler passes a new object without keys, and the
raid gets a third object with the default composition, which is not the object
`config.defaultRaidComp`, so that a write through the raid leaves the default composition
as it is; the `!raid schedule` handler passes a copy of the default composition, which the
raid keeps. -/
theorem createRaid_stores_copy_witness :
    createRaidByRef [config.defaultRaidComp, []] [] "Eden" "Prog" 1000 none 8 1 none
        1700000000042 =
      some ([config.defaultRaidComp, [], config.defaultRaidComp], 2,
        createRaid [] "Eden" "Prog" 1000 none 8 config.defaultRaidComp none 1700000000042) ∧
    createRaidByRef [config.defaultRaidComp, config.defaultRaidComp] [] "Eden" "Prog" 1000
        none 8 1 none 1700000000042 =
      some ([config.defaultRaidComp, config.defaultRaidComp], 1,
        createRaid [] "Eden" "Prog" 1000 none 8 config.defaultRaidComp none 1700000000042) ∧
    (∃ objects' ref stored,
      createRaidByRef [config.defaultRaidComp, []] [] "Eden" "Prog" 1000 none 8 1 none
          1700000000042 =
        some (objects', ref,
          createRaid [] "Eden" "Prog" 1000 none 8 stored none 1700000000042) ∧
      (createRaid [] "Eden" "Prog" 1000 none 8 stored none 1700000000042).1.get
        (createRaid [] "Eden" "Prog" 1000 none 8 stored none 1700000000042).2 =
        some
          { id := toString 1700000000042
            name := "Eden"
            description := "Prog"
            datetime := 1000
            partySize := 8
            roles := stored
            participants := []
            waitlist := []
            remindersSent := []
            raidType := none
            guideLink := none
            messageId := none
            channelId := none } ∧
      objects'[ref]? = some stored ∧
      (ref = [config.defaultRaidComp, ([] : JsObject Int)].length ∧
        ref ≠ config.defaultRaidCompRef) ∧
      ∀ k v,
        (objects'.modify (fun o => o.set k v) ref)[config.defaultRaidCompRef]? =
          some config.defaultRaidComp) ∧
    (∃ objects' ref stored,
      createRaidByRef [config.defaultRaidComp, config.defaultRaidComp] [] "Eden" "Prog" 1000
          none 8 1 none 1700000000042 =
        some (objects', ref,
          createRaid [] "Eden" "Prog" 1000 none 8 stored none 1700000000042) ∧
      objects'[ref]? = some stored ∧ ref = 1 ∧ ¬ ref = config.defaultRaidCompRef ∧
      ∀ k v,
        (objects'.modify (fun o => o.set k v) ref)[config.defaultRaidCompRef]? =
          some config.defaultRaidComp) := by
  refine ⟨rfl, rfl, ?_, ?_⟩
  · obtain ⟨objects', ref, stored, h1, -, h3, h4, -, h6, -, -, h9, -⟩ :=
      createRaid_stores_copy [config.defaultRaidComp, []] [] World.init utc "Eden" "Prog" 1000
        none 8 1 [] none 1700000000042 (by decide) (by decide)
    exact ⟨objects', ref, stored, h1, h3, h4, h6 rfl, h9 (by decide)⟩
  · obtain ⟨objects', ref, stored, h1, -, -, h4, -, -, h7, h8, h9, -⟩ :=
      createRaid_stores_copy [config.defaultRaidComp, config.defaultRaidComp] [] World.init
        utc "Eden" "Prog" 1000 none 8 1 config.defaultRaidComp none 1700000000042 (by decide)
        (by decide)
    exact ⟨objects', ref, stored, h1, h4, h7 (by decide),
      fun h => absurd (h8.mp h) (by decide), h9 (by decide)⟩

/-! ## Presentation of a raid -/

/-- C19, counterexample. A raid whose only role has the limit -1, which is not zero, gets
no role field. -/
theorem roleBreakdown_counterexample :
    ({ tankRaid with roles := [("Tank", -1)] } : Raid).roles.get "Tank" = some (-1) ∧
    (-1 : Int) ≠ 0 ∧
    roleBreakdown { tankRaid with roles := [("Tank", -1)] } = [] := by
  decide

/-- C19, amended. The role fields of `createRaidEmbed` follow the date field and come, in
the order of `raid.roles`, one for each role whose limit is greater than 0; the field of
a role is named `role (count/limit)` with `count` the number of participants of that role,
and its value lists the user names of those participants, one per line, or is `None` when
there are none. -/
theorem roleBreakdown_fields (raid : Raid) (now : Int) :
    List.Forall₂
      (fun (e : String × Int) (f : EmbedField) =>
        f.name =
          e.1 ++ " (" ++ toString (countRole raid.participants e.1) ++ "/" ++
            toString e.2 ++ ")" ∧
        f.value =
          (if countRole raid.participants e.1 = 0 then "None"
           else "\n".intercalate
             ((raid.participants.filter (fun p => p.2.role == e.1)).map
               (fun p => p.2.username))) ∧
        f.inline = true)
      (raid.roles.filter (fun e => decide (0 < e.2))) (roleBreakdown raid) ∧
    ∃ rest, (createRaidEmbed raid now).fields =
      { name := "Date & Time"
        value := "<t:" ++ toString (raid.datetime / 1000) ++ ":F>" ++ "\n" ++
          ("<t:" ++ toString (raid.datetime / 1000) ++ ":R>")
        inline := false } :: (roleBreakdown raid ++ rest) ∧
      ∀ f ∈ rest, f.name = "Waitlist" := by
  constructor
  · unfold roleBreakdown
    rw [List.forall₂_map_right_iff]
    show List.Forall₂ _ (raid.roles.filter (fun e => decide (0 < e.2)))
      (raid.roles.filter (fun e => decide (0 < e.2)))
    rw [List.forall₂_same]
    intro e _
    have hlen : ((raid.participants.values.filter (fun p => p.role == e.1)).map
        (fun p => p.username)).length = countRole raid.participants e.1 := by
      simp [countRole]
    have hnames : (raid.participants.values.filter (fun p => p.role == e.1)).map
        (fun p => p.username) =
        (raid.participants.filter (fun p => p.2.role == e.1)).map (fun p => p.2.username) := by
      simp only [JsObject.values, List.filter_map, List.map_map]
      rfl
    refine ⟨?_, ?_, rfl⟩
    · simp only [hlen]
    · simp only [hlen, ← hnames]
      by_cases hz : countRole raid.participants e.1 = 0
      · simp [hz]
      · have : countRole raid.participants e.1 > 0 := Nat.pos_of_ne_zero hz
        simp [hz, this]
  · unfold createRaidEmbed
    by_cases hw : raid.waitlist.length > 0
    · simp only [hw, if_true]
      exact ⟨_, rfl, by simp⟩
    · simp only [hw, if_false]
      exact ⟨[], by simp, by simp⟩

/-- C20, counterexample. Two calls of `createRaidEmbed` on the same raid at different
instants give different embeds. -/
theorem createRaidEmbed_counterexample :
    createRaidEmbed tankRaidAB 1700000000000 ≠ createRaidEmbed tankRaidAB 1700000060000 := by
  decide

/-- C20, amended. Two calls of `createRaidEmbed` on raids with the same name, description,
datetime, roles, participants, waitlist, guide link, raid type and id give embeds with the
same title, description, fields, colour and footer; the timestamp of each embed is the
instant of its call. -/
theorem createRaidEmbed_deterministic (r₁ r₂ : Raid) (now₁ now₂ : Int)
    (hname : r₁.name = r₂.name) (hdescription : r₁.description = r₂.description)
    (hdatetime : r₁.datetime = r₂.datetime) (hroles : r₁.roles = r₂.roles)
    (hparticipants : r₁.participants = r₂.participants) (hwaitlist : r₁.waitlist = r₂.waitlist)
    (hguideLink : r₁.guideLink = r₂.guideLink) (hraidType : r₁.raidType = r₂.raidType)
    (hid : r₁.id = r₂.id) :
    (createRaidEmbed r₁ now₁).title = (createRaidEmbed r₂ now₂).title ∧
    (createRaidEmbed r₁ now₁).description = (createRaidEmbed r₂ now₂).description ∧
    (createRaidEmbed r₁ now₁).fields = (createRaidEmbed r₂ now₂).fields ∧
    (createRaidEmbed r₁ now₁).color = (createRaidEmbed r₂ now₂).color ∧
    (createRaidEmbed r₁ now₁).footer = (createRaidEmbed r₂ now₂).footer ∧
    (createRaidEmbed r₁ now₁).timestamp = now₁ ∧
    (createRaidEmbed r₂ now₂).timestamp = now₂ := by
  simp only [createRaidEmbed, roleBreakdown, hname, hdescription, hdatetime, hroles,
    hparticipants, hwaitlist, hguideLink, hraidType, hid, and_self]

/-- Witness of C20 as amended: the raid before and after its announcement is posted, which
only attaches `messageId` and `channelId`, rendered one minute apart. -/
theorem createRaidEmbed_deterministic_witness :
    (createRaidEmbed soonRaid 1700000000000).title =
      (createRaidEmbed { soonRaid with messageId := some "m1", channelId := some "c1" }
        1700000060000).title ∧
    (createRaidEmbed soonRaid 1700000000000).description =
      (createRaidEmbed { soonRaid with messageId := some "m1", channelId := some "c1" }
        1700000060000).description ∧
    (createRaidEmbed soonRaid 1700000000000).fields =
      (createRaidEmbed { soonRaid with messageId := some "m1", channelId := some "c1" }
        1700000060000).fields ∧
    (createRaidEmbed soonRaid 1700000000000).color =
      (createRaidEmbed { soonRaid with messageId := some "m1", channelId := some "c1" }
        1700000060000).color ∧
    (createRaidEmbed soonRaid 1700000000000).footer =
      (createRaidEmbed { soonRaid with messageId := some "m1", channelId := some "c1" }
        1700000060000).footer ∧
    (createRaidEmbed soonRaid 1700000000000).timestamp = 1700000000000 ∧
    (createRaidEmbed { soonRaid with messageId := some "m1", channelId := some "c1" }
      1700000060000).timestamp = 1700000060000 :=
  createRaidEmbed_deterministic soonRaid
    { soonRaid with messageId := some "m1", channelId := some "c1" }
    1700000000000 1700000060000 rfl rfl rfl rfl rfl rfl rfl rfl rfl

/-! ## Day-of-week arithmetic -/

theorem getDaysToAdd_eq (currentDay targetDay : Int) (hc : currentDay ≤ 6)
    (ht : 0 ≤ targetDay) :
    getDaysToAdd currentDay targetDay = (targetDay - currentDay + 7) % 7 := by
  unfold getDaysToAdd
  rw [Int.tmod_eq_emod (by omega) (by omega)]
  congr 1
  omega

theorem dayOfWeek_range (dayName : String) (d : Int) (h : dayOfWeek dayName = some d) :
    0 ≤ d ∧ d ≤ 6 := by
  unfold dayOfWeek at h
  simp only [JsObject.get] at h
  repeat' split at h
  all_goals first
    | (cases h; omega)
    | cases h

theorem getDay_range (tz : TimeZone) (t : Int) : 0 ≤ getDay tz t ∧ getDay tz t ≤ 6 := by
  unfold getDay
  omega

theorem localMinute_fixed (offset x : Int) :
    localMinute (fun _ => offset) ((x - offset) * 60000) = x := by
  show (x - offset) * 60000 / 60000 + offset = x
  omega

theorem targetDate_eq (offset now : Int) (template : RegularRaid) (i : Int)
    (dayName : String) (d : Int) (h : dayOfWeek dayName = some d) :
    targetDate offset now template i dayName =
      some
        (((localMinute (fun _ => offset) now / 1440 +
              getDaysToAdd (getDay (fun _ => offset) now) d + 7 * i) * 1440 +
            template.hours * 60 + template.minutes - offset) * 60000) := by
  simp only [targetDate, Zone.targetDate, h, setHours, setDate, Zone.utcTime, Zone.localTime,
    Zone.fixed, localMinute, Option.some.injEq]
  omega

/-- C21. For weekday numbers `currentDay` and `targetDay` from 0 to 6,
`getDaysToAdd currentDay targetDay` is `(targetDay - currentDay + 7) mod 7`, lies between 0
and 6, is 0 exactly when the two days are equal, and leads from `currentDay` to
`targetDay` modulo 7; the date the generator computes for week `i`, with a time of day
within the day, lies on the local day of `now` plus that value plus `7 * i` days. -/
theorem getDaysToAdd_spec (currentDay targetDay : Int)
    (hc : 0 ≤ currentDay ∧ currentDay ≤ 6) (ht : 0 ≤ targetDay ∧ targetDay ≤ 6) :
    getDaysToAdd currentDay targetDay = (targetDay - currentDay + 7) % 7 ∧
    0 ≤ getDaysToAdd currentDay targetDay ∧
    getDaysToAdd currentDay targetDay ≤ 6 ∧
    (getDaysToAdd currentDay targetDay = 0 ↔ currentDay = targetDay) ∧
    (currentDay + getDaysToAdd currentDay targetDay) % 7 = targetDay ∧
    ∀ (offset now : Int) (template : RegularRaid) (i : Int) (dayName : String),
      dayOfWeek dayName = some targetDay → getDay (fun _ => offset) now = currentDay →
      0 ≤ template.hours * 60 + template.minutes →
      template.hours * 60 + template.minutes < 1440 →
      ∃ t, targetDate offset now template i dayName = some t ∧
        localMinute (fun _ => offset) t / 1440 =
          localMinute (fun _ => offset) now / 1440 +
            getDaysToAdd currentDay targetDay + 7 * i := by
  have heq := getDaysToAdd_eq currentDay targetDay hc.2 ht.1
  refine ⟨heq, ?_, ?_, ?_, ?_, ?_⟩
  · rw [heq]; omega
  · rw [heq]; omega
  · rw [heq]; omega
  · rw [heq]; omega
  · intro offset now template i dayName hday hnow h0 h1
    refine ⟨_, targetDate_eq offset now template i dayName targetDay hday, ?_⟩
    rw [hnow]
    have hx : ((localMinute (fun _ => offset) now / 1440 +
          getDaysToAdd currentDay targetDay + 7 * i) * 1440 +
        template.hours * 60 + template.minutes - offset) =
        ((localMinute (fun _ => offset) now / 1440 +
          getDaysToAdd currentDay targetDay + 7 * i) * 1440 +
        (template.hours * 60 + template.minutes)) - offset := by omega
    rw [hx, localMinute_fixed]
    omega

/-- Witness of C21: from Wednesday (3) to Monday (1) there are 5 days, and the date the
generator computes from Wednesday 2023-11-15 for week 1 and Monday 20:00 lies 12 days
later. -/
theorem getDaysToAdd_spec_witness :
    getDaysToAdd 3 1 = (1 - 3 + 7) % 7 ∧ getDaysToAdd 3 1 = 5 ∧
    (3 + getDaysToAdd 3 1) % 7 = 1 ∧
    ∃ t, targetDate 0 wednesdayNoon mondayTemplate 1 "Monday" = some t ∧
      localMinute (fun _ => 0) t / 1440 =
        localMinute (fun _ => 0) wednesdayNoon / 1440 + getDaysToAdd 3 1 + 7 * 1 :=
  ⟨(getDaysToAdd_spec 3 1 (by decide) (by decide)).1, by decide,
    (getDaysToAdd_spec 3 1 (by decide) (by decide)).2.2.2.2.1,
    (getDaysToAdd_spec 3 1 (by decide) (by decide)).2.2.2.2.2 0 wednesdayNoon mondayTemplate 1
      "Monday" (by decide) (by decide) (by decide) (by decide)⟩

/-! ## The recurring generator -/

theorem targetDate_week (offset now : Int) (template : RegularRaid) (i : Int)
    (dayName : String) (d : Int) (t₀ : Int) (h : dayOfWeek dayName = some d)
    (h₀ : targetDate offset now template 0 dayName = some t₀) :
    targetDate offset now template i dayName = some (t₀ + i * (7 * 86400000)) := by
  rw [targetDate_eq offset now template 0 dayName d h] at h₀
  rw [targetDate_eq offset now template i dayName d h]
  simp only [Option.some.injEq] at h₀ ⊢
  omega

theorem targetDate_fields (offset now : Int) (template : RegularRaid)
    (dayName : String) (d : Int) (t₀ : Int) (h : dayOfWeek dayName = some d)
    (h₀ : targetDate offset now template 0 dayName = some t₀) (k : Int) :
    localMinute (fun _ => offset) (t₀ + k * (7 * 86400000)) =
      (localMinute (fun _ => offset) now / 1440 +
        getDaysToAdd (getDay (fun _ => offset) now) d + 7 * k) * 1440 +
        (template.hours * 60 + template.minutes) := by
  rw [targetDate_eq offset now template 0 dayName d h] at h₀
  simp only [Option.some.injEq] at h₀
  have hx : t₀ + k * (7 * 86400000) =
      (((localMinute (fun _ => offset) now / 1440 +
        getDaysToAdd (getDay (fun _ => offset) now) d + 7 * k) * 1440 +
        (template.hours * 60 + template.minutes)) - offset) * 60000 := by omega
  rw [hx, localMinute_fixed]

theorem targetDate_weekday (offset now : Int) (template : RegularRaid)
    (dayName : String) (d : Int) (t₀ : Int) (h : dayOfWeek dayName = some d)
    (h₀ : targetDate offset now template 0 dayName = some t₀)
    (hh : 0 ≤ template.hours ∧ template.hours < 24)
    (hm : 0 ≤ template.minutes ∧ template.minutes < 60) (k : Int) :
    getDay (fun _ => offset) (t₀ + k * (7 * 86400000)) = d ∧
    getHours (fun _ => offset) (t₀ + k * (7 * 86400000)) = template.hours ∧
    getMinutes (fun _ => offset) (t₀ + k * (7 * 86400000)) = template.minutes := by
  have hl := targetDate_fields offset now template dayName d t₀ h h₀ k
  have hr := dayOfWeek_range dayName d h
  have hc := getDay_range (fun _ => offset) now
  have hadd := getDaysToAdd_eq (getDay (fun _ => offset) now) d hc.2 hr.1
  have hday : getDay (fun _ => offset) now =
      (localMinute (fun _ => offset) now / 1440 + 4) % 7 := rfl
  unfold getDay getHours getMinutes
  rw [hl, hadd, hday]
  refine ⟨?_, ?_, ?_⟩ <;> omega

theorem targetDate_future (offset now : Int) (template : RegularRaid)
    (dayName : String) (d : Int) (t₀ : Int) (h : dayOfWeek dayName = some d)
    (h₀ : targetDate offset now template 0 dayName = some t₀)
    (hh : 0 ≤ template.hours ∧ template.hours < 24)
    (hm : 0 ≤ template.minutes ∧ template.minutes < 60)
    (hne : getDay (fun _ => offset) now ≠ d) : now < t₀ := by
  have hl := targetDate_fields offset now template dayName d t₀ h h₀ 0
  have hr := dayOfWeek_range dayName d h
  have hc := getDay_range (fun _ => offset) now
  have hadd := getDaysToAdd_eq (getDay (fun _ => offset) now) d hc.2 hr.1
  have hnow : localMinute (fun _ => offset) now = now / 60000 + offset := rfl
  have ht : localMinute (fun _ => offset) (t₀ + 0 * (7 * 86400000)) =
      (t₀ + 0 * (7 * 86400000)) / 60000 + offset := rfl
  rw [ht, hadd] at hl
  rw [hnow] at hl
  have hpos : 1 ≤ (d - getDay (fun _ => offset) now + 7) % 7 := by omega
  omega

theorem JsObject.get_eq_none_of_not_mem {α : Type} (o : JsObject α) (k : String)
    (h : k ∉ o.keys) : o.get k = none := by
  induction o with
  | nil => rfl
  | cons e t ih =>
    obtain ⟨k', v⟩ := e
    simp only [JsObject.keys, List.map_cons, List.mem_cons, not_or] at h
    have ht : k ∉ JsObject.keys t := h.2
    simp [JsObject.get, Ne.symm h.1, ih ht]

theorem JsObject.keys_set_of_not_mem {α : Type} (o : JsObject α) (k : String) (v : α)
    (h : k ∉ o.keys) : (o.set k v).keys = o.keys ++ [k] := by
  rw [JsObject.set_eq_append o k v (JsObject.get_eq_none_of_not_mem o k h)]
  simp [JsObject.keys]

theorem targetDate_next (offset now : Int) (template : RegularRaid)
    (dayName : String) (d : Int) (t₀ : Int) (h : dayOfWeek dayName = some d)
    (h₀ : targetDate offset now template 0 dayName = some t₀)
    (hh : 0 ≤ template.hours ∧ template.hours < 24) (t' : Int) (hnow : now < t')
    (hd : getDay (fun _ => offset) t' = d)
    (hhours : getHours (fun _ => offset) t' = template.hours)
    (hminutes : getMinutes (fun _ => offset) t' = template.minutes)
    (hsec : t' % 60000 = 0) : t₀ ≤ t' := by
  have hl := targetDate_fields offset now template dayName d t₀ h h₀ 0
  have hr := dayOfWeek_range dayName d h
  have hc := getDay_range (fun _ => offset) now
  have hadd := getDaysToAdd_eq (getDay (fun _ => offset) now) d hc.2 hr.1
  have e1 : localMinute (fun _ => offset) now = now / 60000 + offset := rfl
  have e2 : localMinute (fun _ => offset) (t₀ + 0 * (7 * 86400000)) =
      (t₀ + 0 * (7 * 86400000)) / 60000 + offset := rfl
  have e3 : getDay (fun _ => offset) now = ((now / 60000 + offset) / 1440 + 4) % 7 := rfl
  have e4 : getDay (fun _ => offset) t' = ((t' / 60000 + offset) / 1440 + 4) % 7 := rfl
  have e5 : getHours (fun _ => offset) t' = (t' / 60000 + offset) / 60 % 24 := rfl
  have e6 : getMinutes (fun _ => offset) t' = (t' / 60000 + offset) % 60 := rfl
  rw [targetDate_eq offset now template 0 dayName d h] at h₀
  simp only [Option.some.injEq] at h₀
  rw [e1, hadd, e3] at h₀
  rw [e4] at hd
  rw [e5] at hhours
  rw [e6] at hminutes
  omega

theorem targetDate_today (offset now : Int) (template : RegularRaid)
    (dayName : String) (d : Int) (t₀ : Int) (h : dayOfWeek dayName = some d)
    (h₀ : targetDate offset now template 0 dayName = some t₀)
    (hh : 0 ≤ template.hours ∧ template.hours < 24)
    (hm : 0 ≤ template.minutes ∧ template.minutes < 60) :
    now < t₀ + 7 * 86400000 := by
  have hr := dayOfWeek_range dayName d h
  have hc := getDay_range (fun _ => offset) now
  have hadd := getDaysToAdd_eq (getDay (fun _ => offset) now) d hc.2 hr.1
  have e1 : localMinute (fun _ => offset) now = now / 60000 + offset := rfl
  rw [targetDate_eq offset now template 0 dayName d h] at h₀
  simp only [Option.some.injEq] at h₀
  rw [e1, hadd] at h₀
  omega

theorem targetDate_steady (z : Zone) (offset now : Int) (template : RegularRaid)
    (i : Int) (dayName : String)
    (hz : z.SteadyBetween offset (now - 86400000) (now + 28 * 86400000))
    (hi : 0 ≤ i ∧ i ≤ 3) (ht0 : 0 ≤ template.hours * 60 + template.minutes)
    (ht1 : template.hours * 60 + template.minutes < 1440) :
    z.targetDate now template i dayName = targetDate offset now template i dayName := by
  cases hday : dayOfWeek dayName with
  | none => simp [targetDate, Zone.targetDate, hday]
  | some d =>
    rw [targetDate_eq offset now template i dayName d hday]
    have hnow : z.offsetAt now = offset := hz.1 now (by omega) (by omega)
    have hgd : getDay z.offsetAt now = getDay (fun _ => offset) now := by
      simp only [getDay, localMinute, hnow]
    have hr := dayOfWeek_range dayName d hday
    have hc := getDay_range (fun _ => offset) now
    have hadd := getDaysToAdd_eq (getDay (fun _ => offset) now) d hc.2 hr.1
    have hk : 0 ≤ getDaysToAdd (getDay (fun _ => offset) now) d + 7 * i ∧
        getDaysToAdd (getDay (fun _ => offset) now) d + 7 * i ≤ 27 := by
      rw [hadd]; omega
    simp only [Zone.targetDate, hday, hgd, Option.some.injEq]
    generalize getDaysToAdd (getDay (fun _ => offset) now) d = a at hk ⊢
    have hset : setDate z now (getDate z.offsetAt now + a + 7 * i) =
        now + (a + 7 * i) * 86400000 := by
      have hw : z.offsetFor (now + offset * 60000 +
          (getDate z.offsetAt now + a + 7 * i - getDate z.offsetAt now) * 86400000) = offset :=
        hz.2 _ (by omega) (by omega)
      simp only [setDate, Zone.utcTime, Zone.localTime, hnow, hw]
      omega
    have hu : z.offsetAt (now + (a + 7 * i) * 86400000) = offset :=
      hz.1 _ (by omega) (by omega)
    have hw3 : z.offsetFor ((now + (a + 7 * i) * 86400000 + offset * 60000) / 86400000 *
        86400000 + template.hours * 3600000 + template.minutes * 60000) = offset :=
      hz.2 _ (by omega) (by omega)
    rw [hset]
    simp only [setHours, Zone.utcTime, Zone.localTime, hu, hw3, localMinute]
    omega

theorem zone_fields_steady (z : Zone) (offset a b t : Int) (hz : z.SteadyBetween offset a b)
    (h1 : a ≤ t) (h2 : t ≤ b) :
    localMinute z.offsetAt t = localMinute (fun _ => offset) t ∧
    getDay z.offsetAt t = getDay (fun _ => offset) t ∧
    getHours z.offsetAt t = getHours (fun _ => offset) t ∧
    getMinutes z.offsetAt t = getMinutes (fun _ => offset) t := by
  have h : z.offsetAt t = offset := hz.1 t h1 h2
  simp only [getDay, getHours, getMinutes, localMinute, h, and_self]

theorem scheduleDates_steady (z : Zone) (offset now : Int) (template : RegularRaid)
    (hz : z.SteadyBetween offset (now - 86400000) (now + 28 * 86400000))
    (ht0 : 0 ≤ template.hours * 60 + template.minutes)
    (ht1 : template.hours * 60 + template.minutes < 1440) :
    scheduleDates z now template =
      template.days.filterMap (fun dayName =>
          match targetDate offset now template 0 dayName with
          | none => none
          | some t => if t > now then some (dayName, t) else none) ++
        (template.days.filterMap (fun dayName =>
          match targetDate offset now template 1 dayName with
          | none => none
          | some t => if t > now then some (dayName, t) else none) ++
        (template.days.filterMap (fun dayName =>
          match targetDate offset now template 2 dayName with
          | none => none
          | some t => if t > now then some (dayName, t) else none) ++
        template.days.filterMap (fun dayName =>
          match targetDate offset now template 3 dayName with
          | none => none
          | some t => if t > now then some (dayName, t) else none))) := by
  have h0 := fun dayName => targetDate_steady z offset now template 0 dayName hz
    (by omega) ht0 ht1
  have h1 := fun dayName => targetDate_steady z offset now template 1 dayName hz
    (by omega) ht0 ht1
  have h2 := fun dayName => targetDate_steady z offset now template 2 dayName hz
    (by omega) ht0 ht1
  have h3 := fun dayName => targetDate_steady z offset now template 3 dayName hz
    (by omega) ht0 ht1
  have hr : List.range 4 = [0, 1, 2, 3] := by decide
  simp only [scheduleDates, hr, List.flatMap_cons, List.flatMap_nil, Nat.cast_zero,
    Nat.cast_one, Nat.cast_ofNat, h0, h1, h2, h3, List.append_nil]

theorem filterMap_filter_key (f : String → Option (String × Int))
    (hf : ∀ x e, f x = some e → e.1 = x) (dayName : String) :
    ∀ days : List String, days.Nodup →
      (dayName ∈ days →
        (days.filterMap f).filter (fun e => decide (e.1 = dayName)) = (f dayName).toList) ∧
      (dayName ∉ days → (days.filterMap f).filter (fun e => decide (e.1 = dayName)) = []) := by
  intro days
  induction days with
  | nil => intro _; exact ⟨fun h => absurd h (List.not_mem_nil _), fun _ => rfl⟩
  | cons x rest ih =>
    intro hnd
    rw [List.nodup_cons] at hnd
    obtain ⟨ihin, ihout⟩ := ih hnd.2
    have hhead : ∀ e, f x = some e → (decide (e.1 = dayName) = true ↔ x = dayName) := by
      intro e he
      rw [decide_eq_true_eq, hf x e he]
    constructor
    · intro hmem
      rcases List.mem_cons.mp hmem with heq | hin
      · subst heq
        cases hfx : f dayName with
        | none => simp [List.filterMap_cons, hfx, ihout hnd.1]
        | some e =>
          have := (hhead e hfx).mpr rfl
          simp [List.filterMap_cons, hfx, List.filter_cons, this, ihout hnd.1]
      · have hne : x ≠ dayName := fun h => hnd.1 (h ▸ hin)
        cases hfx : f x with
        | none => simp [List.filterMap_cons, hfx, ihin hin]
        | some e =>
          have : ¬ decide (e.1 = dayName) = true := fun h => hne ((hhead e hfx).mp h)
          simp only [List.filterMap_cons, hfx, List.filter_cons, this, if_false]
          simpa using ihin hin
    · intro hnot
      rw [List.mem_cons, not_or] at hnot
      cases hfx : f x with
      | none => simp [List.filterMap_cons, hfx, ihout hnot.2]
      | some e =>
        have : ¬ decide (e.1 = dayName) = true :=
          fun h => hnot.1 ((hhead e hfx).mp h).symm
        simp only [List.filterMap_cons, hfx, List.filter_cons, this, if_false]
        simpa using ihout hnot.2
theorem targetDate_after_iff (offset now : Int) (template : RegularRaid)
    (dayName : String) (d : Int) (t₀ : Int) (h : dayOfWeek dayName = some d)
    (h₀ : targetDate offset now template 0 dayName = some t₀)
    (hh : 0 ≤ template.hours ∧ template.hours < 24)
    (hm : 0 ≤ template.minutes ∧ template.minutes < 60) :
    t₀ % 60000 = 0 ∧
    (now < t₀ ↔
      getDay (fun _ => offset) now ≠ d ∨
        localMinute (fun _ => offset) now % 1440 <
          template.hours * 60 + template.minutes) := by
  have hr := dayOfWeek_range dayName d h
  have hc := getDay_range (fun _ => offset) now
  have hadd := getDaysToAdd_eq (getDay (fun _ => offset) now) d hc.2 hr.1
  have e1 : localMinute (fun _ => offset) now = now / 60000 + offset := rfl
  have e3 : getDay (fun _ => offset) now = ((now / 60000 + offset) / 1440 + 4) % 7 := rfl
  rw [targetDate_eq offset now template 0 dayName d h] at h₀
  simp only [Option.some.injEq] at h₀
  rw [e1, hadd, e3] at h₀
  rw [e1, e3]
  constructor
  · omega
  · constructor
    · intro hlt
      by_contra hcon
      rw [not_or] at hcon
      omega
    · rintro (hne | hlt)
      · have hpos : 1 ≤ (d - ((now / 60000 + offset) / 1440 + 4) % 7 + 7) % 7 := by omega
        omega
      · omega

theorem scheduleDates_day (offset now : Int) (template : RegularRaid) (i : Int)
    (dayName : String) (t : Int) (hnd : template.days.Nodup) (hmem : dayName ∈ template.days)
    (ht : targetDate offset now template i dayName = some t) :
    (template.days.filterMap (fun dayName =>
        match targetDate offset now template i dayName with
        | none => none
        | some t => if t > now then some (dayName, t) else none)).filter
      (fun e => decide (e.1 = dayName)) =
      if t > now then [(dayName, t)] else [] := by
  have key := (filterMap_filter_key
    (fun dayName =>
      match targetDate offset now template i dayName with
      | none => none
      | some t => if t > now then some (dayName, t) else none)
    (by
      intro x e he
      simp only at he
      split at he
      · cases he
      · split at he
        · cases he; rfl
        · cases he)
    dayName template.days hnd).1 hmem
  rw [key]
  simp only [ht]
  split <;> rfl

theorem scheduleCreate_fold (id : String) (template : RegularRaid) (clock : Nat → Nat) :
    ∀ (l : List (String × Int)) (n : Nat) (raids : Store),
      (raids.keys ++ (List.range' n l.length).map (fun k => toString (clock k))).Nodup →
      ((l.enumFrom n).foldl
          (fun raids e => scheduleCreate raids id template e.2.1 e.2.2 (clock e.1))
          raids).keys =
        raids.keys ++ (List.range' n l.length).map (fun k => toString (clock k)) ∧
      (∀ j e, l[j]? = some e →
        ((l.enumFrom n).foldl
          (fun raids e => scheduleCreate raids id template e.2.1 e.2.2 (clock e.1))
          raids).get (toString (clock (n + j))) =
          some
            { id := toString (clock (n + j))
              name := template.name ++ " - " ++ e.1
              description := "Regular " ++ id ++ " raid on " ++ e.1 ++ "s"
              datetime := e.2
              partySize := config.maxPartySize
              roles := config.defaultRaidComp
              participants := []
              waitlist := []
              remindersSent := []
              raidType := some id
              guideLink := none
              messageId := none
              channelId := none }) ∧
      (∀ key, key ∈ raids.keys →
        ((l.enumFrom n).foldl
          (fun raids e => scheduleCreate raids id template e.2.1 e.2.2 (clock e.1))
          raids).get key = raids.get key) := by
  intro l
  induction l with
  | nil =>
    intro n raids _
    refine ⟨by simp, ?_, fun _ _ => rfl⟩
    intro j e he
    simp at he
  | cons e t ih =>
    intro n raids hnd
    simp only [List.length_cons, List.range'_succ, List.map_cons] at hnd ⊢
    have hfresh : toString (clock n) ∉ raids.keys := by
      intro hmem
      rw [List.nodup_append] at hnd
      exact hnd.2.2 hmem (List.mem_cons_self _ _)
    simp only [List.enumFrom_cons, List.foldl_cons]
    have hkeys : (scheduleCreate raids id template e.1 e.2 (clock n)).keys =
        raids.keys ++ [toString (clock n)] := by
      simp only [scheduleCreate, createRaid]
      exact JsObject.keys_set_of_not_mem _ _ _ hfresh
    obtain ⟨ih1, ih2, ih3⟩ := ih (n + 1) (scheduleCreate raids id template e.1 e.2 (clock n))
      (by rw [hkeys]; simpa using hnd)
    refine ⟨?_, ?_, ?_⟩
    · rw [ih1, hkeys]
      simp
    · intro j e' he'
      cases j with
      | zero =>
        simp only [List.getElem?_cons_zero, Option.some.injEq] at he'
        subst he'
        have hn : n + 0 = n := rfl
        rw [hn, ih3 _ (by rw [hkeys]; simp)]
        simp only [scheduleCreate, createRaid, ite_self]
        exact JsObject.get_set_self _ _ _
      | succ j =>
        simp only [List.getElem?_cons_succ] at he'
        have := ih2 j e' he'
        rw [show n + 1 + j = n + (j + 1) by omega] at this
        exact this
    · intro key hkey
      rw [ih3 key (by rw [hkeys]; exact List.mem_append_left _ hkey)]
      have hne : key ≠ toString (clock n) := fun h => hfresh (h ▸ hkey)
      simp only [scheduleCreate, createRaid]
      exact JsObject.get_set_ne _ _ hne

theorem scheduleCreate_fold_frozen (id : String) (template : RegularRaid) (c : Nat) :
    ∀ (l : List (String × Int)) (n : Nat) (raids : Store) (e : String × Int),
      l.getLast? = some e →
      (l.enumFrom n).foldl (fun raids e => scheduleCreate raids id template e.2.1 e.2.2 c)
          raids =
        raids.set (toString c)
          { id := toString c
            name := template.name ++ " - " ++ e.1
            description := "Regular " ++ id ++ " raid on " ++ e.1 ++ "s"
            datetime := e.2
            partySize := config.maxPartySize
            roles := config.defaultRaidComp
            participants := []
            waitlist := []
            remindersSent := []
            raidType := some id
            guideLink := none
            messageId := none
            channelId := none } := by
  intro l
  induction l with
  | nil => intro n raids e he; simp at he
  | cons x t ih =>
    intro n raids e he
    cases t with
    | nil =>
      simp only [List.getLast?_singleton, Option.some.injEq] at he
      subst he
      simp only [List.enumFrom_cons, List.enumFrom_nil, List.foldl_cons, List.foldl_nil,
        scheduleCreate, createRaid, ite_self]
    | cons y t' =>
      have he' : (y :: t').getLast? = some e := by
        rw [List.getLast?_cons_cons] at he
        exact he
      rw [List.enumFrom_cons, List.foldl_cons, ih (n + 1) _ e he']
      simp only [scheduleCreate, createRaid, JsObject.set_set]

theorem scheduleDates_single (z : Zone) (offset now : Int) (template : RegularRaid)
    (dayName : String) (d t₀ : Int)
    (hz : z.SteadyBetween offset (now - 86400000) (now + 28 * 86400000))
    (hh : 0 ≤ template.hours ∧ template.hours < 24)
    (hm : 0 ≤ template.minutes ∧ template.minutes < 60)
    (hdays : template.days = [dayName]) (hday : dayOfWeek dayName = some d)
    (h₀ : targetDate offset now template 0 dayName = some t₀) (hfut : now < t₀) :
    scheduleDates z now template =
      [(dayName, t₀), (dayName, t₀ + 7 * 86400000), (dayName, t₀ + 14 * 86400000),
       (dayName, t₀ + 21 * 86400000)] := by
  have h1 := targetDate_week offset now template 1 dayName d t₀ hday h₀
  have h2 := targetDate_week offset now template 2 dayName d t₀ hday h₀
  have h3 := targetDate_week offset now template 3 dayName d t₀ hday h₀
  have e1 : t₀ + 1 * (7 * 86400000) = t₀ + 7 * 86400000 := by omega
  have e2 : t₀ + 2 * (7 * 86400000) = t₀ + 14 * 86400000 := by omega
  have e3 : t₀ + 3 * (7 * 86400000) = t₀ + 21 * 86400000 := by omega
  rw [e1] at h1
  rw [e2] at h2
  rw [e3] at h3
  have g0 : t₀ > now := hfut
  have g1 : t₀ + 7 * 86400000 > now := by omega
  have g2 : t₀ + 14 * 86400000 > now := by omega
  have g3 : t₀ + 21 * 86400000 > now := by omega
  rw [scheduleDates_steady z offset now template hz (by omega) (by omega)]
  simp only [hdays, List.filterMap_cons, List.filterMap_nil, h₀, h1, h2, h3, g0, g1, g2, g3,
    if_true, List.singleton_append]

/-- C22, failing input.  For a template with the single day `dayName` and a time of day
`hours:minutes`, and every `now` whose weekday is not that day, on a host whose offset does
not change from one day before `now` to 28 days after it, the generator calls `createRaid`
four times, for the date `t₀` and the dates 7, 14 and 21 days after it; `t₀` is after
`now`, each of the four dates falls on the weekday of the template at `hours:minutes`, and
the reply reports the count 4.  When the four ids read from the clock are distinct and
new, the store holds four more raids, under those ids.  When the four calls read the same
millisecond from the clock, each call overwrites the raid of the call before: the store
holds the raid of the last date alone, one more raid and not four.  That holds on every
host and at every instant: with such a clock the handler leaves one raid in the store, that
of its last call, whatever number of calls the reply reports. -/
theorem schedule_single_day_collides (regularRaids : JsObject RegularRaid) (raids : Store)
    (z : Zone) (offset now : Int) (raidTemplateId : String) (template : RegularRaid)
    (dayName : String) (d : Int) (clock : Nat → Nat) (hid : raidTemplateId ≠ "")
    (htemplate : regularRaids.get raidTemplateId = some template)
    (hdays : template.days = [dayName]) (hday : dayOfWeek dayName = some d)
    (hne : getDay z.offsetAt now ≠ d)
    (hh : 0 ≤ template.hours ∧ template.hours < 24)
    (hm : 0 ≤ template.minutes ∧ template.minutes < 60)
    (hz : z.SteadyBetween offset (now - 86400000) (now + 28 * 86400000)) :
    (∃ t₀ store, now < t₀ ∧
      (∀ i : Int, 0 ≤ i → i ≤ 3 →
        getDay z.offsetAt (t₀ + i * (7 * 86400000)) = d ∧
        getHours z.offsetAt (t₀ + i * (7 * 86400000)) = template.hours ∧
        getMinutes z.offsetAt (t₀ + i * (7 * 86400000)) = template.minutes) ∧
      scheduleDates z now template =
        [(dayName, t₀), (dayName, t₀ + 7 * 86400000), (dayName, t₀ + 14 * 86400000),
         (dayName, t₀ + 21 * 86400000)] ∧
      raidSchedule regularRaids raids z now (some raidTemplateId) clock =
        Outcome.returned
          (store,
            "Successfully scheduled " ++ "4" ++ " instances of " ++ raidTemplateId ++
              " for the next 4 weeks.") ∧
      store =
        scheduleCreate
          (scheduleCreate
            (scheduleCreate
              (scheduleCreate raids raidTemplateId template dayName t₀ (clock 0))
              raidTemplateId template dayName (t₀ + 7 * 86400000) (clock 1))
            raidTemplateId template dayName (t₀ + 14 * 86400000) (clock 2))
          raidTemplateId template dayName (t₀ + 21 * 86400000) (clock 3) ∧
      ((raids.keys ++ [toString (clock 0), toString (clock 1), toString (clock 2),
          toString (clock 3)]).Nodup →
        store.keys =
          raids.keys ++ [toString (clock 0), toString (clock 1), toString (clock 2),
            toString (clock 3)]) ∧
      (clock 1 = clock 0 → clock 2 = clock 0 → clock 3 = clock 0 →
        store =
          raids.set (toString (clock 0))
            { id := toString (clock 0)
              name := template.name ++ " - " ++ dayName
              description := "Regular " ++ raidTemplateId ++ " raid on " ++ dayName ++ "s"
              datetime := t₀ + 21 * 86400000
              partySize := config.maxPartySize
              roles := config.defaultRaidComp
              participants := []
              waitlist := []
              remindersSent := []
              raidType := some raidTemplateId
              guideLink := none
              messageId := none
              channelId := none } ∧
        (toString (clock 0) ∉ raids.keys →
          store.keys = raids.keys ++ [toString (clock 0)]))) ∧
    ∀ (host : Zone) (instant : Int) (dateNow : Nat) (last : String × Int),
      (scheduleDates host instant template).getLast? = some last →
      raidSchedule regularRaids raids host instant (some raidTemplateId) (fun _ => dateNow) =
        Outcome.returned
          (raids.set (toString dateNow)
            { id := toString dateNow
              name := template.name ++ " - " ++ last.1
              description := "Regular " ++ raidTemplateId ++ " raid on " ++ last.1 ++ "s"
              datetime := last.2
              partySize := config.maxPartySize
              roles := config.defaultRaidComp
              participants := []
              waitlist := []
              remindersSent := []
              raidType := some raidTemplateId
              guideLink := none
              messageId := none
              channelId := none },
           "Successfully scheduled " ++ toString (scheduleDates host instant template).length ++
             " instances of " ++ raidTemplateId ++ " for the next 4 weeks.") := by
  refine ⟨?_, ?_⟩
  swap
  · intro host instant dateNow last hlast
    simp only [raidSchedule, hid, if_false,
      JsObject.read_own regularRaids raidTemplateId template htemplate, List.enum]
    rw [scheduleCreate_fold_frozen raidTemplateId template dateNow _ 0 raids last hlast]
  obtain ⟨t₀, h₀⟩ : ∃ t₀, targetDate offset now template 0 dayName = some t₀ :=
    ⟨_, targetDate_eq offset now template 0 dayName d hday⟩
  have hnowz := zone_fields_steady z offset _ _ now hz (by omega) (by omega)
  rw [hnowz.2.1] at hne
  have hfut := targetDate_future offset now template dayName d t₀ hday h₀ hh hm hne
  have hdates := scheduleDates_single z offset now template dayName d t₀ hz hh hm hdays hday
    h₀ hfut
  have hweek := targetDate_today offset now template dayName d t₀ hday h₀ hh hm
  have hhigh : t₀ ≤ now + 7 * 86400000 := by
    have hfields := targetDate_fields offset now template dayName d t₀ hday h₀ 0
    have hr := dayOfWeek_range dayName d hday
    have hc := getDay_range (fun _ => offset) now
    have hadd := getDaysToAdd_eq (getDay (fun _ => offset) now) d hc.2 hr.1
    have e1 : localMinute (fun _ => offset) now = now / 60000 + offset := rfl
    have e2 : localMinute (fun _ => offset) (t₀ + 0 * (7 * 86400000)) =
        (t₀ + 0 * (7 * 86400000)) / 60000 + offset := rfl
    rw [e2, hadd, e1] at hfields
    omega
  refine ⟨t₀, _, hfut, ?_, hdates, ?_, rfl, ?_, ?_⟩
  · intro i hi0 hi3
    have hzi := zone_fields_steady z offset _ _ (t₀ + i * (7 * 86400000)) hz (by omega)
      (by omega)
    rw [hzi.2.1, hzi.2.2.1, hzi.2.2.2]
    exact targetDate_weekday offset now template dayName d t₀ hday h₀ hh hm i
  · have h4 : toString (4 : Nat) = "4" := by decide
    simp only [raidSchedule, hid, if_false,
      JsObject.read_own regularRaids raidTemplateId template htemplate, hdates,
      List.length_cons, List.length_nil, Nat.zero_add, Nat.reduceAdd, h4, List.enum,
      List.enumFrom_cons, List.enumFrom_nil, List.foldl_cons, List.foldl_nil]
  · intro hnd
    have := (scheduleCreate_fold raidTemplateId template clock
      [(dayName, t₀), (dayName, t₀ + 7 * 86400000), (dayName, t₀ + 14 * 86400000),
        (dayName, t₀ + 21 * 86400000)] 0 raids hnd).1
    simpa [List.enumFrom_cons, List.range'] using this
  · intro h1 h2 h3
    have hset : scheduleCreate
          (scheduleCreate
            (scheduleCreate
              (scheduleCreate raids raidTemplateId template dayName t₀ (clock 0))
              raidTemplateId template dayName (t₀ + 7 * 86400000) (clock 1))
            raidTemplateId template dayName (t₀ + 14 * 86400000) (clock 2))
          raidTemplateId template dayName (t₀ + 21 * 86400000) (clock 3) =
        raids.set (toString (clock 0))
            { id := toString (clock 0)
              name := template.name ++ " - " ++ dayName
              description := "Regular " ++ raidTemplateId ++ " raid on " ++ dayName ++ "s"
              datetime := t₀ + 21 * 86400000
              partySize := config.maxPartySize
              roles := config.defaultRaidComp
              participants := []
              waitlist := []
              remindersSent := []
              raidType := some raidTemplateId
              guideLink := none
              messageId := none
              channelId := none } := by
      simp only [scheduleCreate, createRaid, h1, h2, h3, JsObject.set_set, ite_self]
    rw [hset]
    exact ⟨rfl, fun hfresh => JsObject.keys_set_of_not_mem _ _ _ hfresh⟩
/-- Witness of C22: days `[Monday]`, time 20:00, generated on Wednesday 2023-11-15 at
noon UTC.  With a clock that reads the same millisecond in the four calls, the reply
reports 4 instances, for 20 and 27 November and 4 and 11 December at 20:00, and the store
holds one raid, that of 11 December; with a clock that advances by a millisecond per call
the store holds four raids.  On a host in Berlin, on Wednesday 2023-10-18, the four dates
lie on both sides of the change of the clocks of 29 October, the first 169 hours before the
second, and a clock that stands still leaves the raid of 13 November alone.  With such a
clock the template `raid1` of the configuration gets the reply of 12 instances and one raid
in the store, that of Thursday 7 December. -/
theorem schedule_single_day_collides_witness :
    (∃ t₀ store, wednesdayNoon < t₀ ∧
      (getDay (Zone.fixed 0).offsetAt (t₀ + 3 * (7 * 86400000)) = 1 ∧
        getHours (Zone.fixed 0).offsetAt (t₀ + 3 * (7 * 86400000)) = mondayTemplate.hours ∧
        getMinutes (Zone.fixed 0).offsetAt (t₀ + 3 * (7 * 86400000)) =
          mondayTemplate.minutes) ∧
      scheduleDates (Zone.fixed 0) wednesdayNoon mondayTemplate =
        [("Monday", t₀), ("Monday", t₀ + 7 * 86400000), ("Monday", t₀ + 14 * 86400000),
         ("Monday", t₀ + 21 * 86400000)] ∧
      raidSchedule [("weekly", mondayTemplate)] [] (Zone.fixed 0) wednesdayNoon (some "weekly")
          frozenClock =
        Outcome.returned
          (store,
            "Successfully scheduled " ++ "4" ++ " instances of " ++ "weekly" ++
              " for the next 4 weeks.") ∧
      store =
        JsObject.set ([] : Store) (toString (frozenClock 0))
          { id := toString (frozenClock 0)
            name := mondayTemplate.name ++ " - " ++ "Monday"
            description := "Regular " ++ "weekly" ++ " raid on " ++ "Monday" ++ "s"
            datetime := t₀ + 21 * 86400000
            partySize := config.maxPartySize
            roles := config.defaultRaidComp
            participants := []
            waitlist := []
            remindersSent := []
            raidType := some "weekly"
            guideLink := none
            messageId := none
            channelId := none } ∧
      store.keys = JsObject.keys ([] : Store) ++ [toString (frozenClock 0)]) ∧
    (∃ t₀ store, wednesdayNoon < t₀ ∧
      raidSchedule [("weekly", mondayTemplate)] [] (Zone.fixed 0) wednesdayNoon (some "weekly")
          (fun k => 1700049600000 + k) =
        Outcome.returned
          (store,
            "Successfully scheduled " ++ "4" ++ " instances of " ++ "weekly" ++
              " for the next 4 weeks.") ∧
      store.keys =
        JsObject.keys ([] : Store) ++
          [toString (1700049600000 + 0), toString (1700049600000 + 1),
            toString (1700049600000 + 2), toString (1700049600000 + 3)]) ∧
    raidSchedule [("weekly", mondayTemplate)] [] berlin 1697630400000 (some "weekly")
        (fun _ => 1697630400000) =
      Outcome.returned
        (JsObject.set ([] : Store) (toString 1697630400000)
          { id := toString 1697630400000
            name := mondayTemplate.name ++ " - " ++ "Monday"
            description := "Regular " ++ "weekly" ++ " raid on " ++ "Monday" ++ "s"
            datetime := 1699902000000
            partySize := config.maxPartySize
            roles := config.defaultRaidComp
            participants := []
            waitlist := []
            remindersSent := []
            raidType := some "weekly"
            guideLink := none
            messageId := none
            channelId := none },
         "Successfully scheduled " ++
           toString (scheduleDates berlin 1697630400000 mondayTemplate).length ++
           " instances of " ++ "weekly" ++ " for the next 4 weeks.") ∧
    scheduleDates berlin 1697630400000 mondayTemplate =
      [("Monday", 1698084000000), ("Monday", 1698692400000), ("Monday", 1699297200000),
       ("Monday", 1699902000000)] ∧
    raidSchedule [("weekly", mondayTemplate)] [] (Zone.fixed 0) wednesdayNoon (some "weekly")
        frozenClock =
      Outcome.returned
        ([("1700049600000",
            { id := "1700049600000"
              name := "Weekly Static Run - Monday"
              description := "Regular weekly raid on Mondays"
              datetime := 1702324800000
              partySize := 8
              roles := config.defaultRaidComp
              participants := []
              waitlist := []
              remindersSent := []
              raidType := some "weekly"
              guideLink := none
              messageId := none
              channelId := none })],
          "Successfully scheduled 4 instances of weekly for the next 4 weeks.") ∧
    raidSchedule config.regularRaids [] (Zone.fixed 0) wednesdayNoon (some "raid1")
        frozenClock =
      Outcome.returned
        ([("1700049600000",
            { id := "1700049600000"
              name := "Weekly Static Run - Thursday"
              description := "Regular raid1 raid on Thursdays"
              datetime := 1701979200000
              partySize := 8
              roles := config.defaultRaidComp
              participants := []
              waitlist := []
              remindersSent := []
              raidType := some "raid1"
              guideLink := none
              messageId := none
              channelId := none })],
          "Successfully scheduled 12 instances of raid1 for the next 4 weeks.") := by
  refine ⟨?_, ?_, ?_, by decide, by decide, by decide⟩
  rotate_left 2
  · exact (schedule_single_day_collides [("weekly", mondayTemplate)] [] (Zone.fixed 0) 0
      wednesdayNoon "weekly" mondayTemplate "Monday" 1 frozenClock (by decide) (by decide)
      (by decide) (by decide) (by decide) (by decide) (by decide)
      ⟨fun _ _ _ => rfl, fun _ _ _ => rfl⟩).2 berlin 1697630400000 1697630400000
      ("Monday", 1699902000000) (by decide)
  · obtain ⟨t₀, store, h1, h2, h3, h4, -, -, h7⟩ :=
      (schedule_single_day_collides [("weekly", mondayTemplate)] [] (Zone.fixed 0) 0
        wednesdayNoon "weekly" mondayTemplate "Monday" 1 frozenClock (by decide) (by decide)
        (by decide) (by decide) (by decide) (by decide) (by decide)
        ⟨fun _ _ _ => rfl, fun _ _ _ => rfl⟩).1
    exact ⟨t₀, store, h1, h2 3 (by decide) (by decide), h3, h4, (h7 rfl rfl rfl).1,
      (h7 rfl rfl rfl).2 (by decide)⟩
  · obtain ⟨t₀, store, h1, -, -, h4, -, h6, -⟩ :=
      (schedule_single_day_collides [("weekly", mondayTemplate)] [] (Zone.fixed 0) 0
        wednesdayNoon "weekly" mondayTemplate "Monday" 1 (fun k => 1700049600000 + k)
        (by decide) (by decide) (by decide) (by decide) (by decide) (by decide) (by decide)
        ⟨fun _ _ _ => rfl, fun _ _ _ => rfl⟩).1
    exact ⟨t₀, store, h1, h4, h6 (by decide)⟩

/-- C23, counterexample.  On Monday 2023-11-13 at 21:00 UTC, on a host in UTC, with the
template `raid1` of Monday, Tuesday and Thursday at 20:00, the date computed for Monday
and week 0 is that same Monday at 20:00, one hour before `now`, not the Monday 7 days
ahead; it is left out, Monday yields 3 calls and not 4, and the reply reports 11
instances. -/
theorem schedule_same_day_counterexample :
    getDay utc mondayNight = 1 ∧ dayOfWeek "Monday" = some 1 ∧
    (Zone.fixed 0).targetDate mondayNight config.raid1 0 "Monday" =
      some (mondayNight - 3600000) ∧
    (scheduleDates (Zone.fixed 0) mondayNight config.raid1).filter
        (fun e => decide (e.1 = "Monday")) =
      [("Monday", mondayNight - 3600000 + 7 * 86400000),
       ("Monday", mondayNight - 3600000 + 14 * 86400000),
       ("Monday", mondayNight - 3600000 + 21 * 86400000)] ∧
    (scheduleDates (Zone.fixed 0) mondayNight config.raid1).length = 11 ∧
    raidSchedule config.regularRaids [] (Zone.fixed 0) mondayNight (some "raid1")
        (fun k => 1699909200000 + k) =
      Outcome.returned
        ((scheduleDates (Zone.fixed 0) mondayNight config.raid1).enum.foldl
          (fun raids e =>
            scheduleCreate raids "raid1" config.raid1 e.2.1 e.2.2 (1699909200000 + e.1))
          [],
         "Successfully scheduled 11 instances of raid1 for the next 4 weeks.") := by
  decide

/-- C23, amended.  On a host whose offset does not change from one day before `now` to 28
days after it, for every template day there is the date `t₀` of week 0, at the start of a
minute on the local day of `now` plus `getDaysToAdd` days: the date the generator computes
for week `i` is `t₀` plus `7 * i` days, on the weekday of the template at its time of day.
It is after `now` exactly when today is not the template day or the time of day is still
ahead; then it is the next occurrence of that weekday and time after `now`.  Otherwise
today is the template day and the time of day has come: the date of week 0 is today's, the
guard leaves it out, and the dates of weeks 1 to 3 are after `now`.  For a template whose
days are distinct, the calls of `createRaid` for a day are the 4 dates, or the 3 dates of
weeks 1 to 3.  On every host the handler calls `createRaid` once for each date that passes
the guard, in order, and replies with their number; when the ids read from the clock are
distinct and new, each call leaves its raid in the store, with that date. -/
theorem schedule_occurrences (z : Zone) (offset now : Int) (template : RegularRaid)
    (hh : 0 ≤ template.hours ∧ template.hours < 24)
    (hm : 0 ≤ template.minutes ∧ template.minutes < 60)
    (hz : z.SteadyBetween offset (now - 86400000) (now + 28 * 86400000)) :
    (∀ dayName d, dayOfWeek dayName = some d →
      ∃ t₀, t₀ % 60000 = 0 ∧
        localMinute z.offsetAt t₀ / 1440 =
          localMinute z.offsetAt now / 1440 + getDaysToAdd (getDay z.offsetAt now) d ∧
        (∀ i : Int, 0 ≤ i → i ≤ 3 →
          z.targetDate now template i dayName = some (t₀ + i * (7 * 86400000)) ∧
          getDay z.offsetAt (t₀ + i * (7 * 86400000)) = d ∧
          getHours z.offsetAt (t₀ + i * (7 * 86400000)) = template.hours ∧
          getMinutes z.offsetAt (t₀ + i * (7 * 86400000)) = template.minutes) ∧
        (now < t₀ ↔
          getDay z.offsetAt now ≠ d ∨
            localMinute z.offsetAt now % 1440 < template.hours * 60 + template.minutes) ∧
        (∀ t', now < t' → getDay z.offsetAt t' = d →
          getHours z.offsetAt t' = template.hours →
          getMinutes z.offsetAt t' = template.minutes → t' % 60000 = 0 → t₀ ≤ t') ∧
        now < t₀ + 7 * 86400000 ∧
        (template.days.Nodup → dayName ∈ template.days →
          (scheduleDates z now template).filter (fun e => decide (e.1 = dayName)) =
            if now < t₀ then
              [(dayName, t₀), (dayName, t₀ + 7 * 86400000), (dayName, t₀ + 14 * 86400000),
               (dayName, t₀ + 21 * 86400000)]
            else
              [(dayName, t₀ + 7 * 86400000), (dayName, t₀ + 14 * 86400000),
               (dayName, t₀ + 21 * 86400000)])) ∧
    (∀ (host : Zone) (instant : Int) (regularRaids : JsObject RegularRaid) (raids : Store)
        (raidTemplateId : String) (clock : Nat → Nat),
      raidTemplateId ≠ "" → regularRaids.get raidTemplateId = some template →
      raidSchedule regularRaids raids host instant (some raidTemplateId) clock =
        Outcome.returned
          ((scheduleDates host instant template).enum.foldl
            (fun raids e =>
              scheduleCreate raids raidTemplateId template e.2.1 e.2.2 (clock e.1))
            raids,
           "Successfully scheduled " ++
             toString (scheduleDates host instant template).length ++
             " instances of " ++ raidTemplateId ++ " for the next 4 weeks.") ∧
      ((raids.keys ++
          (List.range' 0 (scheduleDates host instant template).length).map
            (fun k => toString (clock k))).Nodup →
        ∀ k e, (scheduleDates host instant template)[k]? = some e →
          ((scheduleDates host instant template).enum.foldl
            (fun raids e =>
              scheduleCreate raids raidTemplateId template e.2.1 e.2.2 (clock e.1))
            raids).get (toString (clock k)) =
            some
              { id := toString (clock k)
                name := template.name ++ " - " ++ e.1
                description := "Regular " ++ raidTemplateId ++ " raid on " ++ e.1 ++ "s"
                datetime := e.2
                partySize := config.maxPartySize
                roles := config.defaultRaidComp
                participants := []
                waitlist := []
                remindersSent := []
                raidType := some raidTemplateId
                guideLink := none
                messageId := none
                channelId := none })) := by
  have ht0 : 0 ≤ template.hours * 60 + template.minutes := by omega
  have ht1 : template.hours * 60 + template.minutes < 1440 := by omega
  have hnowz := zone_fields_steady z offset _ _ now hz (by omega) (by omega)
  constructor
  · intro dayName d hday
    obtain ⟨t₀, h₀⟩ : ∃ t₀, targetDate offset now template 0 dayName = some t₀ :=
      ⟨_, targetDate_eq offset now template 0 dayName d hday⟩
    have hafter := targetDate_after_iff offset now template dayName d t₀ hday h₀ hh hm
    have htoday := targetDate_today offset now template dayName d t₀ hday h₀ hh hm
    have hfields := targetDate_fields offset now template dayName d t₀ hday h₀ 0
    have hr := dayOfWeek_range dayName d hday
    have hc := getDay_range (fun _ => offset) now
    have hadd := getDaysToAdd_eq (getDay (fun _ => offset) now) d hc.2 hr.1
    have hlow : now - 86400000 ≤ t₀ := by
      have e1 : localMinute (fun _ => offset) now = now / 60000 + offset := rfl
      have e2 : localMinute (fun _ => offset) (t₀ + 0 * (7 * 86400000)) =
          (t₀ + 0 * (7 * 86400000)) / 60000 + offset := rfl
      rw [e2, hadd, e1] at hfields
      omega
    have hhigh : t₀ ≤ now + 7 * 86400000 := by
      have e1 : localMinute (fun _ => offset) now = now / 60000 + offset := rfl
      have e2 : localMinute (fun _ => offset) (t₀ + 0 * (7 * 86400000)) =
          (t₀ + 0 * (7 * 86400000)) / 60000 + offset := rfl
      rw [e2, hadd, e1] at hfields
      omega
    refine ⟨t₀, hafter.1, ?_, ?_, ?_, ?_, htoday, ?_⟩
    · have hz0 := zone_fields_steady z offset _ _ t₀ hz hlow (by omega)
      rw [hz0.1, hnowz.1, hnowz.2.1]
      have := hfields
      simp only [zero_mul, add_zero, mul_zero] at this
      rw [this]
      omega
    · intro i hi0 hi3
      have hzi := zone_fields_steady z offset _ _ (t₀ + i * (7 * 86400000)) hz (by omega)
        (by omega)
      rw [targetDate_steady z offset now template i dayName hz ⟨hi0, hi3⟩ ht0 ht1, hzi.2.1,
        hzi.2.2.1, hzi.2.2.2]
      exact ⟨targetDate_week offset now template i dayName d t₀ hday h₀,
        targetDate_weekday offset now template dayName d t₀ hday h₀ hh hm i⟩
    · rw [hnowz.1, hnowz.2.1]
      exact hafter.2
    · intro t' h1 h3 h4 h5 h6
      by_cases h2 : t' ≤ now + 28 * 86400000
      · have hzt := zone_fields_steady z offset _ _ t' hz (by omega) h2
        rw [hzt.2.1] at h3
        rw [hzt.2.2.1] at h4
        rw [hzt.2.2.2] at h5
        exact targetDate_next offset now template dayName d t₀ hday h₀ hh t' h1 h3 h4 h5 h6
      · omega
    · intro hnd hmem
      have h1 := targetDate_week offset now template 1 dayName d t₀ hday h₀
      have h2 := targetDate_week offset now template 2 dayName d t₀ hday h₀
      have h3 := targetDate_week offset now template 3 dayName d t₀ hday h₀
      have e1 : t₀ + 1 * (7 * 86400000) = t₀ + 7 * 86400000 := by omega
      have e2 : t₀ + 2 * (7 * 86400000) = t₀ + 14 * 86400000 := by omega
      have e3 : t₀ + 3 * (7 * 86400000) = t₀ + 21 * 86400000 := by omega
      rw [e1] at h1
      rw [e2] at h2
      rw [e3] at h3
      have g1 : t₀ + 7 * 86400000 > now := by omega
      have g2 : t₀ + 14 * 86400000 > now := by omega
      have g3 : t₀ + 21 * 86400000 > now := by omega
      rw [scheduleDates_steady z offset now template hz ht0 ht1, List.filter_append,
        List.filter_append, List.filter_append,
        scheduleDates_day offset now template 0 dayName t₀ hnd hmem h₀,
        scheduleDates_day offset now template 1 dayName _ hnd hmem h1,
        scheduleDates_day offset now template 2 dayName _ hnd hmem h2,
        scheduleDates_day offset now template 3 dayName _ hnd hmem h3, if_pos g1, if_pos g2,
        if_pos g3]
      by_cases g0 : now < t₀
      · have g0' : t₀ > now := g0
        rw [if_pos g0, if_pos g0']
        rfl
      · have g0' : ¬ t₀ > now := g0
        rw [if_neg g0, if_neg g0']
        rfl
  · intro host instant regularRaids raids raidTemplateId clock hne hget
    constructor
    · simp only [raidSchedule, hne, if_false,
        JsObject.read_own regularRaids raidTemplateId template hget]
    · intro hnd k e he
      have := (scheduleCreate_fold raidTemplateId template clock
        (scheduleDates host instant template) 0 raids hnd).2.1 k e he
      rw [Nat.zero_add] at this
      exact this

/-- Witness of C23 as amended: the template `raid1` on Monday 2023-11-13 at 21:00 UTC,
22:00 on a host in Berlin, whose offset changed two weeks before and changes again in
March.  The Monday of week 0 is today at 20:00, two hours before `now`, and Monday yields
the 3 dates of weeks 1 to 3; the Tuesday of week 0 is after `now`, the next Tuesday at
20:00, and Tuesday yields 4 dates; the handler makes 11 calls, replies with that number,
and with a clock that advances by a millisecond per call the first call leaves the raid of
Tuesday 14 November in the store. -/
theorem schedule_occurrences_witness :
    (∃ t₀, t₀ % 60000 = 0 ∧
      localMinute berlin.offsetAt t₀ / 1440 =
        localMinute berlin.offsetAt mondayNight / 1440 +
          getDaysToAdd (getDay berlin.offsetAt mondayNight) 1 ∧
      (berlin.targetDate mondayNight config.raid1 1 "Monday" =
          some (t₀ + 1 * (7 * 86400000)) ∧
        getDay berlin.offsetAt (t₀ + 1 * (7 * 86400000)) = 1 ∧
        getHours berlin.offsetAt (t₀ + 1 * (7 * 86400000)) = config.raid1.hours ∧
        getMinutes berlin.offsetAt (t₀ + 1 * (7 * 86400000)) = config.raid1.minutes) ∧
      ¬ mondayNight < t₀ ∧ mondayNight < t₀ + 7 * 86400000 ∧
      (scheduleDates berlin mondayNight config.raid1).filter
          (fun e => decide (e.1 = "Monday")) =
        if mondayNight < t₀ then
          [("Monday", t₀), ("Monday", t₀ + 7 * 86400000), ("Monday", t₀ + 14 * 86400000),
           ("Monday", t₀ + 21 * 86400000)]
        else
          [("Monday", t₀ + 7 * 86400000), ("Monday", t₀ + 14 * 86400000),
           ("Monday", t₀ + 21 * 86400000)]) ∧
    (∃ t₀, mondayNight < t₀ ∧
      berlin.targetDate mondayNight config.raid1 0 "Tuesday" =
        some (t₀ + 0 * (7 * 86400000)) ∧
      (∀ t', mondayNight < t' → getDay berlin.offsetAt t' = 2 →
        getHours berlin.offsetAt t' = config.raid1.hours →
        getMinutes berlin.offsetAt t' = config.raid1.minutes → t' % 60000 = 0 → t₀ ≤ t') ∧
      (scheduleDates berlin mondayNight config.raid1).filter
          (fun e => decide (e.1 = "Tuesday")) =
        if mondayNight < t₀ then
          [("Tuesday", t₀), ("Tuesday", t₀ + 7 * 86400000), ("Tuesday", t₀ + 14 * 86400000),
           ("Tuesday", t₀ + 21 * 86400000)]
        else
          [("Tuesday", t₀ + 7 * 86400000), ("Tuesday", t₀ + 14 * 86400000),
           ("Tuesday", t₀ + 21 * 86400000)]) ∧
    (scheduleDates berlin mondayNight config.raid1).length = 11 ∧
    raidSchedule config.regularRaids [] berlin mondayNight (some "raid1")
        (fun k => 1699909200000 + k) =
      Outcome.returned
        ((scheduleDates berlin mondayNight config.raid1).enum.foldl
          (fun raids e =>
            scheduleCreate raids "raid1" config.raid1 e.2.1 e.2.2 (1699909200000 + e.1))
          [],
         "Successfully scheduled " ++
           toString (scheduleDates berlin mondayNight config.raid1).length ++
           " instances of " ++ "raid1" ++ " for the next 4 weeks.") ∧
    ((scheduleDates berlin mondayNight config.raid1).enum.foldl
        (fun raids e =>
          scheduleCreate raids "raid1" config.raid1 e.2.1 e.2.2 (1699909200000 + e.1))
        []).get (toString (1699909200000 + 0)) =
      some
        { id := toString (1699909200000 + 0)
          name := config.raid1.name ++ " - " ++ "Tuesday"
          description := "Regular " ++ "raid1" ++ " raid on " ++ "Tuesday" ++ "s"
          datetime := 1699988400000
          partySize := config.maxPartySize
          roles := config.defaultRaidComp
          participants := []
          waitlist := []
          remindersSent := []
          raidType := some "raid1"
          guideLink := none
          messageId := none
          channelId := none } := by
  have hz : berlin.SteadyBetween 60 (mondayNight - 86400000) (mondayNight + 28 * 86400000) :=
    ⟨fun t h1 h2 => by
        simp only [mondayNight] at h1 h2
        simp only [berlin]
        rw [if_pos ⟨by omega, by omega⟩],
      fun wall h1 h2 => by
        simp only [mondayNight] at h1 h2
        simp only [berlin]
        rw [if_pos ⟨by omega, by omega⟩]⟩
  refine ⟨?_, ?_, by decide, ?_, ?_⟩
  · obtain ⟨t₀, h1, h2, h3, h4, -, h6, h7⟩ :=
      (schedule_occurrences berlin 60 mondayNight config.raid1 (by decide) (by decide) hz).1
        "Monday" 1 (by decide)
    exact ⟨t₀, h1, h2, h3 1 (by decide) (by decide),
      fun h => absurd (h4.mp h) (by decide), h6, h7 (by decide) (by decide)⟩
  · obtain ⟨t₀, -, -, h3, h4, h5, -, h7⟩ :=
      (schedule_occurrences berlin 60 mondayNight config.raid1 (by decide) (by decide) hz).1
        "Tuesday" 2 (by decide)
    exact ⟨t₀, h4.mpr (Or.inl (by decide)), (h3 0 (by decide) (by decide)).1, h5,
      h7 (by decide) (by decide)⟩
  · exact ((schedule_occurrences berlin 60 mondayNight config.raid1 (by decide) (by decide)
      hz).2 berlin mondayNight config.regularRaids [] "raid1" (fun k => 1699909200000 + k)
      (by decide) (by decide)).1
  · exact ((schedule_occurrences berlin 60 mondayNight config.raid1 (by decide) (by decide)
      hz).2 berlin mondayNight config.regularRaids [] "raid1" (fun k => 1699909200000 + k)
      (by decide) (by decide)).2 (by decide) 0 ("Tuesday", 1699988400000) (by decide)

/-! ## A failed write -/

theorem signUpForRaidSaving_store (raids : Store) (raidId userId username role : String)
    (now : Int) (written : Bool) :
    (signUpForRaidSaving raids raidId userId username role now written).1 =
      (signUpForRaid raids raidId userId username role now).1 := by
  unfold signUpForRaidSaving signUpForRaid
  cases raids.get raidId with
  | none => rfl
  | some raid =>
    simp only
    split
    · rfl
    · cases raid.participants.get userId with
      | some p => rfl
      | none =>
        simp only
        split <;> rfl

theorem cancelSignupSaving_store (raids : Store) (raidId userId : String) (now : Int)
    (written : Bool) :
    (cancelSignupSaving raids raidId userId now written).1 =
      (cancelSignup raids raidId userId now).1 := by
  unfold cancelSignupSaving cancelSignup
  cases raids.get raidId with
  | none => rfl
  | some raid =>
    simp only
    cases raid.participants.get userId with
    | none => rfl
    | some p =>
      simp only
      cases findIndex (fun w : WaitlistEntry => w.role == p.role) raid.waitlist with
      | none => rfl
      | some i =>
        simp only
        cases raid.waitlist[i]? with
        | none => rfl
        | some w => rfl

theorem store_set_ne (raids : Store) (k : String) (raid raid' : Raid)
    (h : raids.get k = some raid) (hne : raid' ≠ raid) : raids.set k raid' ≠ raids := by
  intro heq
  have := congrArg (fun s => JsObject.get s k) heq
  simp only [JsObject.get_set_self, h, Option.some.injEq] at this
  exact hne this

/-- C24, counterexample. The write fails while `A` signs up as Tank: the call throws, and
`A` is a participant in the store in memory all the same.  The write fails while `A`
cancels with `B` waiting: `A` is removed and `B` promoted in memory all the same. -/
theorem failed_write_counterexample :
    signUpForRaidSaving tankStore "1700000000042" "A" "alice" "Tank" 1 false =
      (tankStoreA, none) ∧
    tankStoreA ≠ tankStore ∧
    cancelSignupSaving tankStoreAB "1700000000042" "A" 5 false =
      ([("1700000000042", { tankRaid with participants := [("B", ⟨"bob", "Tank", 5⟩)] })],
        none) ∧
    ([("1700000000042", { tankRaid with participants := [("B", ⟨"bob", "Tank", 5⟩)] })] :
      Store) ≠ tankStoreAB := by
  decide

/-- C24, amended. Whether the write in `saveRaids()` goes through or throws, the store in
memory after `signUpForRaid` and after `cancelSignup` is the same, the one with the
participant added or removed and the waitlist entry appended or promoted; a failed write
only makes the call throw instead of returning its result. -/
theorem failed_write_keeps_mutation (raids : Store) (raidId userId username role : String)
    (now : Int) :
    (signUpForRaidSaving raids raidId userId username role now false).1 =
      (signUpForRaid raids raidId userId username role now).1 ∧
    (signUpForRaidSaving raids raidId userId username role now true) =
      ((signUpForRaid raids raidId userId username role now).1,
        some (signUpForRaid raids raidId userId username role now).2) ∧
    (cancelSignupSaving raids raidId userId now false).1 =
      (cancelSignup raids raidId userId now).1 ∧
    (cancelSignupSaving raids raidId userId now true) =
      ((cancelSignup raids raidId userId now).1,
        some (cancelSignup raids raidId userId now).2) ∧
    ((signUpForRaidSaving raids raidId userId username role now false).2 = none →
      (signUpForRaid raids raidId userId username role now).1 ≠ raids) ∧
    ((cancelSignupSaving raids raidId userId now false).2 = none →
      (cancelSignup raids raidId userId now).1 ≠ raids) := by
  refine ⟨signUpForRaidSaving_store _ _ _ _ _ _ _, ?_, cancelSignupSaving_store _ _ _ _ _,
    ?_, ?_, ?_⟩
  · unfold signUpForRaidSaving signUpForRaid
    cases raids.get raidId with
    | none => rfl
    | some raid =>
      simp only
      split
      · rfl
      · cases raid.participants.get userId with
        | some p => rfl
        | none =>
          simp only
          split <;> rfl
  · unfold cancelSignupSaving cancelSignup
    cases raids.get raidId with
    | none => rfl
    | some raid =>
      simp only
      cases raid.participants.get userId with
      | none => rfl
      | some p =>
        simp only
        cases findIndex (fun w : WaitlistEntry => w.role == p.role) raid.waitlist with
        | none => rfl
        | some i =>
          simp only
          cases raid.waitlist[i]? with
          | none => rfl
          | some w => rfl
  · intro hnone
    unfold signUpForRaidSaving at hnone
    unfold signUpForRaid
    cases hr : raids.get raidId with
    | none => simp [hr] at hnone
    | some raid =>
      simp only [hr] at hnone ⊢
      split at hnone
      · cases hnone
      · rename_i hrole
        simp only [hrole, if_false]
        cases hp : raid.participants.get userId with
        | some p => simp [hp] at hnone
        | none =>
          simp only
          split
          · apply store_set_ne raids raidId raid _ hr
            intro heq
            exact waitlist_append_ne _ _ (congrArg Raid.waitlist heq)
          · apply store_set_ne raids raidId raid _ hr
            intro heq
            have := congrArg (fun r : Raid => r.participants.get userId) heq
            simp [JsObject.get_set_self, hp] at this
  · intro hnone
    rcases cancel_cases raids raidId userId now with
      h | ⟨raid, p, hr, hp, _, h⟩ | ⟨raid, p, pre, w, post, hr, hp, hsplit, _, _, h⟩
    · exfalso
      have hs : cancelSignupSaving raids raidId userId now false = (raids, some false) := by
        unfold cancelSignupSaving
        unfold cancelSignup at h
        cases hr : raids.get raidId with
        | none => rfl
        | some raid =>
          simp only [hr] at h ⊢
          cases hp : raid.participants.get userId with
          | none => rfl
          | some p =>
            simp only [hp] at h
            cases hf : findIndex (fun w : WaitlistEntry => w.role == p.role) raid.waitlist with
            | none => simp [hf] at h
            | some i =>
              simp only [hf] at h
              cases hg : raid.waitlist[i]? with
              | none => simp [hg] at h
              | some w => simp [hg] at h
      rw [hs] at hnone
      cases hnone
    · rw [h]
      apply store_set_ne raids raidId raid _ hr
      intro heq
      have := congrArg (fun r : Raid => r.participants.get userId) heq
      simp [JsObject.get_delete_self, hp] at this
    · rw [h]
      apply store_set_ne raids raidId raid _ hr
      intro heq
      have := congrArg (fun r : Raid => r.waitlist.length) heq
      simp [hsplit] at this

/-- Witness of C24 as amended: the failed write while `A` signs up as Tank makes the call
throw, and the store in memory is no longer the one before the call. -/
theorem failed_write_keeps_mutation_witness :
    (signUpForRaid tankStore "1700000000042" "A" "alice" "Tank" 1).1 ≠ tankStore ∧
    (cancelSignup tankStoreAB "1700000000042" "A" 5).1 ≠ tankStoreAB :=
  ⟨(failed_write_keeps_mutation tankStore "1700000000042" "A" "alice" "Tank" 1).2.2.2.2.1
      (by decide),
    (failed_write_keeps_mutation tankStoreAB "1700000000042" "A" "alice" "Tank" 5).2.2.2.2.2
      (by decide)⟩

/-! ## Saving and loading -/

theorem allSome_map {α β : Type} (f : α → Option β) (g : β → α) (l : List β)
    (h : ∀ b, f (g b) = some b) : allSome ((l.map g).map f) = some l := by
  induction l with
  | nil => rfl
  | cons b t ih =>
    simp only [List.map_cons, h b, allSome, ih, Option.map_some']

theorem participant_ofJson_toJson (p : Participant) :
    Participant.ofJson p.toJson = some p := by
  simp [Participant.ofJson, Participant.toJson, Json.field, JsObject.get, Json.asString,
    Json.asInstant]

theorem waitlistEntry_ofJson_toJson (w : WaitlistEntry) :
    WaitlistEntry.ofJson w.toJson = some w := by
  simp [WaitlistEntry.ofJson, WaitlistEntry.toJson, Json.field, JsObject.get, Json.asString,
    Json.asInstant]

theorem Json.asNullable_ofNullable (s : Option String) :
    Json.asNullable (Json.ofNullable s) = some s := by
  cases s <;> rfl

theorem JsObject.get_append {α : Type} (a b : JsObject α) (k : String) :
    JsObject.get (a ++ b) k =
      match JsObject.get a k with
      | some v => some v
      | none => JsObject.get b k := by
  induction a with
  | nil => rfl
  | cons e t ih =>
    obtain ⟨k', v⟩ := e
    by_cases h : k' = k
    · simp [JsObject.get, h]
    · simpa [JsObject.get, h] using ih

theorem Raid.toJson_id (raid : Raid) :
    raid.toJson.field "id" = some (Json.str raid.id) := by
  simp [Raid.toJson, Json.field, JsObject.get_append, JsObject.get]

theorem Raid.toJson_name (raid : Raid) :
    raid.toJson.field "name" = some (Json.str raid.name) := by
  simp [Raid.toJson, Json.field, JsObject.get_append, JsObject.get]

theorem Raid.toJson_description (raid : Raid) :
    raid.toJson.field "description" = some (Json.str raid.description) := by
  simp [Raid.toJson, Json.field, JsObject.get_append, JsObject.get]

theorem Raid.toJson_datetime (raid : Raid) :
    raid.toJson.field "datetime" = some (Json.instant raid.datetime) := by
  simp [Raid.toJson, Json.field, JsObject.get_append, JsObject.get]

theorem Raid.toJson_partySize (raid : Raid) :
    raid.toJson.field "partySize" = some (Json.num raid.partySize) := by
  simp [Raid.toJson, Json.field, JsObject.get_append, JsObject.get]

theorem Raid.toJson_roles (raid : Raid) :
    raid.toJson.field "roles" =
      some (Json.obj (raid.roles.map (fun e => (e.1, Json.num e.2)))) := by
  simp [Raid.toJson, Json.field, JsObject.get_append, JsObject.get]

theorem Raid.toJson_participants (raid : Raid) :
    raid.toJson.field "participants" =
      some (Json.obj (raid.participants.map (fun e => (e.1, e.2.toJson)))) := by
  simp [Raid.toJson, Json.field, JsObject.get_append, JsObject.get]

theorem Raid.toJson_waitlist (raid : Raid) :
    raid.toJson.field "waitlist" =
      some (Json.arr (raid.waitlist.map WaitlistEntry.toJson)) := by
  simp [Raid.toJson, Json.field, JsObject.get_append, JsObject.get]

theorem Raid.toJson_remindersSent (raid : Raid) :
    raid.toJson.field "remindersSent" =
      some (Json.arr (raid.remindersSent.map Json.str)) := by
  simp [Raid.toJson, Json.field, JsObject.get_append, JsObject.get]

theorem Raid.toJson_raidType (raid : Raid) :
    raid.toJson.field "raidType" = some (Json.ofNullable raid.raidType) := by
  simp [Raid.toJson, Json.field, JsObject.get_append, JsObject.get]

theorem Raid.toJson_guideLink (raid : Raid) :
    raid.toJson.field "guideLink" = some (Json.ofNullable raid.guideLink) := by
  simp [Raid.toJson, Json.field, JsObject.get_append, JsObject.get]

theorem Raid.toJson_messageId (raid : Raid) :
    Json.asOptional (raid.toJson.field "messageId") = some raid.messageId := by
  cases hm : raid.messageId <;> cases hc : raid.channelId <;>
    simp [Raid.toJson, Json.field, JsObject.get_append, JsObject.get, hm, hc,
      Json.asOptional]

theorem Raid.toJson_channelId (raid : Raid) :
    Json.asOptional (raid.toJson.field "channelId") = some raid.channelId := by
  cases hm : raid.messageId <;> cases hc : raid.channelId <;>
    simp [Raid.toJson, Json.field, JsObject.get_append, JsObject.get, hm, hc,
      Json.asOptional]

theorem raid_ofJson_toJson (raid : Raid) : Raid.ofJson raid.toJson = some raid := by
  have hroles : allSome ((raid.roles.map (fun e => (e.1, Json.num e.2))).map
      (fun e => e.2.asNumber.map (fun n => (e.1, n)))) = some raid.roles :=
    allSome_map _ _ _ (fun e => by simp [Json.asNumber])
  have hparts : allSome ((raid.participants.map (fun e => (e.1, e.2.toJson))).map
      (fun e => (Participant.ofJson e.2).map (fun p => (e.1, p)))) = some raid.participants :=
    allSome_map _ _ _ (fun e => by simp [participant_ofJson_toJson])
  have hwait : allSome ((raid.waitlist.map WaitlistEntry.toJson).map WaitlistEntry.ofJson) =
      some raid.waitlist :=
    allSome_map _ _ _ waitlistEntry_ofJson_toJson
  have hsent : allSome ((raid.remindersSent.map Json.str).map Json.asString) =
      some raid.remindersSent :=
    allSome_map _ _ _ (fun s => rfl)
  unfold Raid.ofJson
  rw [Raid.toJson_id, Raid.toJson_name, Raid.toJson_description, Raid.toJson_datetime,
    Raid.toJson_partySize, Raid.toJson_roles, Raid.toJson_participants, Raid.toJson_waitlist,
    Raid.toJson_remindersSent, Raid.toJson_raidType, Raid.toJson_guideLink,
    Raid.toJson_messageId, Raid.toJson_channelId]
  have e1 : ∀ s, Json.asString (Json.str s) = some s := fun _ => rfl
  have e2 : ∀ t, Json.asInstant (Json.instant t) = some t := fun _ => rfl
  have e3 : ∀ n, Json.asNumber (Json.num n) = some n := fun _ => rfl
  simp only [Option.bind, e1, e2, e3, Json.asNullable_ofNullable, hroles, hparts, hwait,
    hsent, Int.toNat_ofNat]

theorem parseRaids_saveRaids (raids : Store) : parseRaids (saveRaids raids) = some raids := by
  simp only [parseRaids, saveRaids]
  exact allSome_map _ _ _ (fun e => by simp [raid_ofJson_toJson])

theorem World.scheduleReminders_fold_frame (tz : TimeZone) (now : Int) (keys : List String) :
    ∀ w : World,
      (keys.foldl (fun w raidId => w.scheduleReminders tz now raidId) w).heap = w.heap ∧
      (keys.foldl (fun w raidId => w.scheduleReminders tz now raidId) w).raids = w.raids := by
  induction keys with
  | nil => intro w; exact ⟨rfl, rfl⟩
  | cons k t ih =>
    intro w
    rw [List.foldl_cons]
    obtain ⟨h1, h2⟩ := ih (w.scheduleReminders tz now k)
    obtain ⟨f1, f2⟩ := World.scheduleReminders_frame w tz now k
    exact ⟨h1.trans f1, h2.trans f2⟩

theorem store_of_fresh_objects (base : Nat) (H : List Raid) (t : Store) :
    ∀ m : Nat, (∀ i, i < t.length → H[base + m + i]? = (JsObject.values t)[i]?) →
      (((JsObject.keys t).enumFrom m).map (fun e => (e.2, base + e.1))).filterMap
        (fun e => (H[e.2]?).map (fun raid => (e.1, raid))) = t := by
  induction t with
  | nil => intro m _; rfl
  | cons x t ih =>
    intro m h
    have h0 : H[base + m]? = some x.2 := by
      have := h 0 (by simp)
      simpa [JsObject.values] using this
    have ht : ∀ i, i < t.length → H[base + (m + 1) + i]? = (JsObject.values t)[i]? := by
      intro i hi
      have := h (i + 1) (by simp; omega)
      have e : base + m + (i + 1) = base + (m + 1) + i := by omega
      rw [e] at this
      simpa [JsObject.values] using this
    simp only [JsObject.keys, List.map_cons, List.enumFrom_cons, List.filterMap_cons, h0,
      Option.map_some']
    have := ih (m + 1) ht
    simp only [JsObject.keys] at this
    rw [this]

theorem World.loadRaids_store (w : World) (tz : TimeZone) (now : Int) (table : Store) :
    (w.loadRaids tz now (some (some table))).store = table := by
  simp only [World.loadRaids, World.store]
  rw [(World.scheduleReminders_fold_frame tz now _ _).1,
    (World.scheduleReminders_fold_frame tz now _ _).2]
  simp only [List.enum]
  apply store_of_fresh_objects w.heap.length (w.heap ++ JsObject.values table) table 0
  intro i _
  rw [Nat.add_zero, List.getElem?_append_right (by omega)]
  congr 1
  omega

/-- C25. The document `saveRaids` writes for a store parses back to that store, and
`loadRaids` on that document leaves the bot with the same table: the same raid ids in the
same order and, for every raid, the same participants, waitlist and `remindersSent` (and
every other property). -/
theorem save_load_round_trip (raids : Store) (w : World) (tz : TimeZone) (now : Int) :
    parseRaids (saveRaids raids) = some raids ∧
    (w.loadRaids tz now (some (parseRaids (saveRaids raids)))).store = raids := by
  refine ⟨parseRaids_saveRaids raids, ?_⟩
  rw [parseRaids_saveRaids]
  exact World.loadRaids_store w tz now raids

/-! ## Performance of a static -/

theorem addReport_totals (zoneAnalysis : JsObject ZoneStats) (report : Report)
    (zone : String) :
    totalPullsOf (World.addReport zoneAnalysis report) zone =
      totalPullsOf zoneAnalysis zone + (if report.zone = zone then report.totalFights else 0) ∧
    totalKillsOf (World.addReport zoneAnalysis report) zone =
      totalKillsOf zoneAnalysis zone + (if report.zone = zone then report.kills else 0) := by
  unfold totalPullsOf totalKillsOf World.addReport
  by_cases h : report.zone = zone
  · subst h
    simp only [JsObject.get_set_self, if_true]
    cases zoneAnalysis.get report.zone <;> simp
  · have h' : zone ≠ report.zone := fun e => h e.symm
    simp only [JsObject.get_set_ne _ _ h', h, if_false, Nat.add_zero, and_self]

theorem addReport_fold_totals (reports : List Report) (zone : String) :
    ∀ zoneAnalysis : JsObject ZoneStats,
      totalPullsOf (reports.foldl World.addReport zoneAnalysis) zone =
        totalPullsOf zoneAnalysis zone +
          ((reports.filter (fun r => r.zone == zone)).map (fun r => r.totalFights)).sum ∧
      totalKillsOf (reports.foldl World.addReport zoneAnalysis) zone =
        totalKillsOf zoneAnalysis zone +
          ((reports.filter (fun r => r.zone == zone)).map (fun r => r.kills)).sum := by
  induction reports with
  | nil => intro za; simp
  | cons r t ih =>
    intro za
    obtain ⟨h1, h2⟩ := ih (World.addReport za r)
    obtain ⟨a1, a2⟩ := addReport_totals za r zone
    rw [List.foldl_cons, h1, h2, a1, a2]
    by_cases h : r.zone = zone
    · simp [List.filter_cons, h, Nat.add_assoc]
    · simp [List.filter_cons, h]

theorem performance_fold (w : World) (raid : Raid) (logs : String → Option (List Report))
    (keys : List String) :
    ∀ acc : Stats × List Nat,
      (keys.foldl
        (fun (acc : Stats × List Nat) userId =>
          match w.characterLogs.get userId with
          | none => acc
          | some [] => acc
          | some (character :: _) =>
            match logs userId with
            | none => (acc.1, acc.2 ++ [character.id])
            | some reports =>
              ({ acc.1 with
                 participants := acc.1.participants ++
                   [{ discordId := userId
                      character := character.name
                      server := character.server
                      role := ((raid.participants.get userId).map (fun p => p.role)).getD ""
                      recentLogs := reports.length }]
                 zoneAnalysis := reports.foldl World.addReport acc.1.zoneAnalysis },
               acc.2 ++ [character.id]))
        acc).1.raid = acc.1.raid ∧
      (keys.foldl
        (fun (acc : Stats × List Nat) userId =>
          match w.characterLogs.get userId with
          | none => acc
          | some [] => acc
          | some (character :: _) =>
            match logs userId with
            | none => (acc.1, acc.2 ++ [character.id])
            | some reports =>
              ({ acc.1 with
                 participants := acc.1.participants ++
                   [{ discordId := userId
                      character := character.name
                      server := character.server
                      role := ((raid.participants.get userId).map (fun p => p.role)).getD ""
                      recentLogs := reports.length }]
                 zoneAnalysis := reports.foldl World.addReport acc.1.zoneAnalysis },
               acc.2 ++ [character.id]))
        acc).1.participants =
        acc.1.participants ++
          keys.filterMap (fun userId =>
            (w.included logs userId).map (fun e =>
              { discordId := userId
                character := e.1.name
                server := e.1.server
                role := ((raid.participants.get userId).map (fun p => p.role)).getD ""
                recentLogs := e.2.length })) ∧
      ∀ zone,
        totalPullsOf (keys.foldl
          (fun (acc : Stats × List Nat) userId =>
            match w.characterLogs.get userId with
            | none => acc
            | some [] => acc
            | some (character :: _) =>
              match logs userId with
              | none => (acc.1, acc.2 ++ [character.id])
              | some reports =>
                ({ acc.1 with
                   participants := acc.1.participants ++
                     [{ discordId := userId
                        character := character.name
                        server := character.server
                        role := ((raid.participants.get userId).map (fun p => p.role)).getD ""
                        recentLogs := reports.length }]
                   zoneAnalysis := reports.foldl World.addReport acc.1.zoneAnalysis },
                 acc.2 ++ [character.id]))
          acc).1.zoneAnalysis zone =
          totalPullsOf acc.1.zoneAnalysis zone +
            ((((keys.filterMap (fun userId =>
              (w.included logs userId).map (fun e => e.2))).flatten).filter
                (fun r => r.zone == zone)).map (fun r => r.totalFights)).sum ∧
        totalKillsOf (keys.foldl
          (fun (acc : Stats × List Nat) userId =>
            match w.characterLogs.get userId with
            | none => acc
            | some [] => acc
            | some (character :: _) =>
              match logs userId with
              | none => (acc.1, acc.2 ++ [character.id])
              | some reports =>
                ({ acc.1 with
                   participants := acc.1.participants ++
                     [{ discordId := userId
                        character := character.name
                        server := character.server
                        role := ((raid.participants.get userId).map (fun p => p.role)).getD ""
                        recentLogs := reports.length }]
                   zoneAnalysis := reports.foldl World.addReport acc.1.zoneAnalysis },
                 acc.2 ++ [character.id]))
          acc).1.zoneAnalysis zone =
          totalKillsOf acc.1.zoneAnalysis zone +
            ((((keys.filterMap (fun userId =>
              (w.included logs userId).map (fun e => e.2))).flatten).filter
                (fun r => r.zone == zone)).map (fun r => r.kills)).sum := by
  induction keys with
  | nil => intro acc; simp
  | cons userId t ih =>
    intro acc
    rw [List.foldl_cons]
    cases hc : w.characterLogs.get userId with
    | none =>
      have hinc : w.included logs userId = none := by simp [World.included, hc]
      simpa [hinc] using ih acc
    | some chars =>
      cases chars with
      | nil =>
        have hinc : w.included logs userId = none := by simp [World.included, hc]
        simpa [hinc] using ih acc
      | cons character rest =>
        cases hl : logs userId with
        | none =>
          have hinc : w.included logs userId = none := by simp [World.included, hc, hl]
          simpa [hinc] using ih (acc.1, acc.2 ++ [character.id])
        | some reports =>
          have hinc : w.included logs userId = some (character, reports) := by
            simp [World.included, hc, hl]
          obtain ⟨h1, h2, h3⟩ := ih
            ({ acc.1 with
               participants := acc.1.participants ++
                 [{ discordId := userId
                    character := character.name
                    server := character.server
                    role := ((raid.participants.get userId).map (fun p => p.role)).getD ""
                    recentLogs := reports.length }]
               zoneAnalysis := reports.foldl World.addReport acc.1.zoneAnalysis },
             acc.2 ++ [character.id])
          refine ⟨h1, ?_, ?_⟩
          · rw [h2]
            simp [hinc]
          · intro zone
            obtain ⟨p1, p2⟩ := h3 zone
            obtain ⟨q1, q2⟩ := addReport_fold_totals reports zone acc.1.zoneAnalysis
            simp only at p1 p2
            rw [p1, p2, q1, q2]
            simp [hinc, Nat.add_assoc]

/-- C27. For a raid in the store and every outcome of the lookups, `getStaticPerformance`
returns `stats` whose `participants` are, in the order of `raid.participants`, those
participants who have a registered character and whose lookup succeeded, the others being
skipped; for every zone, `totalPulls` and `totalKills` are the sums of `totalFights` and
of `kills` over the reports of that zone of the participants kept. -/
theorem getStaticPerformance_spec (w : World) (raidId : String)
    (logs : String → Option (List Report)) (ref : Nat) (raid : Raid)
    (hraid : w.raid? raidId = some (ref, raid)) :
    ∃ stats, (w.getStaticPerformance raidId logs).1 = some stats ∧
      stats.raid = raid.name ∧
      stats.participants =
        raid.participants.keys.filterMap (fun userId =>
          (w.included logs userId).map (fun e =>
            { discordId := userId
              character := e.1.name
              server := e.1.server
              role := ((raid.participants.get userId).map (fun p => p.role)).getD ""
              recentLogs := e.2.length })) ∧
      ∀ zone,
        totalPullsOf stats.zoneAnalysis zone =
          ((((raid.participants.keys.filterMap (fun userId =>
            (w.included logs userId).map (fun e => e.2))).flatten).filter
              (fun r => r.zone == zone)).map (fun r => r.totalFights)).sum ∧
        totalKillsOf stats.zoneAnalysis zone =
          ((((raid.participants.keys.filterMap (fun userId =>
            (w.included logs userId).map (fun e => e.2))).flatten).filter
              (fun r => r.zone == zone)).map (fun r => r.kills)).sum := by
  obtain ⟨h1, h2, h3⟩ := performance_fold w raid logs raid.participants.keys
    ({ raid := raid.name, participants := [], zoneAnalysis := [] }, [])
  simp only [World.getStaticPerformance, hraid]
  refine ⟨_, rfl, h1, ?_, ?_⟩
  · rw [h2]
    rfl
  · intro zone
    obtain ⟨p1, p2⟩ := h3 zone
    rw [p1, p2]
    simp [totalPullsOf, totalKillsOf, JsObject.get]

/-- Witness of C27: of the participants `A`, `B`, `C`, `D`, `B` has no character and the
lookup for `C` fails; `A` and `D` are kept, and `Eden` totals 17 pulls and 3 kills. -/
theorem getStaticPerformance_spec_witness :
    (staticWorld.getStaticPerformance "1700000000000" staticLogs).1 =
      some
        { raid := "Eden"
          participants :=
            [⟨"A", "Aria", "Gilgamesh", "Tank", 2⟩, ⟨"D", "Dax", "Gilgamesh", "Melee DPS", 1⟩]
          zoneAnalysis := [("Eden", ⟨17, 3, 2⟩), ("Omega", ⟨4, 0, 1⟩)] } ∧
    ∃ stats, (staticWorld.getStaticPerformance "1700000000000" staticLogs).1 = some stats ∧
      stats.raid = staticRaid.name ∧
      stats.participants =
        staticRaid.participants.keys.filterMap (fun userId =>
          (staticWorld.included staticLogs userId).map (fun e =>
            { discordId := userId
              character := e.1.name
              server := e.1.server
              role := ((staticRaid.participants.get userId).map (fun p => p.role)).getD ""
              recentLogs := e.2.length })) ∧
      ∀ zone,
        totalPullsOf stats.zoneAnalysis zone =
          ((((staticRaid.participants.keys.filterMap (fun userId =>
            (staticWorld.included staticLogs userId).map (fun e => e.2))).flatten).filter
              (fun r => r.zone == zone)).map (fun r => r.totalFights)).sum ∧
        totalKillsOf stats.zoneAnalysis zone =
          ((((staticRaid.participants.keys.filterMap (fun userId =>
            (staticWorld.included staticLogs userId).map (fun e => e.2))).flatten).filter
              (fun r => r.zone == zone)).map (fun r => r.kills)).sum :=
  ⟨by decide,
    getStaticPerformance_spec staticWorld "1700000000000" staticLogs 0 staticRaid
      (by decide)⟩

/-! ## Deleting a raid -/

theorem JsObject.delete_of_get_none {α : Type} (o : JsObject α) (k : String)
    (h : o.get k = none) : o.delete k = o := by
  induction o with
  | nil => rfl
  | cons e t ih =>
    obtain ⟨k', v⟩ := e
    by_cases hk : k' = k
    · simp [JsObject.get, hk] at h
    · simp only [JsObject.get, hk, if_false] at h
      rw [delete_cons_ne v t hk, ih h]

/-- C26, failing input. For a raid id that is a key of `raids`, the delete handler removes
that key and leaves every other raid as it is; with no id, or an id that is neither a key
of `raids` nor a name of `Object.prototype`, it leaves the store as it is and replies
`Raid not found`, with the hint to list the raids.  For an id that is not a key of `raids`
but names a member of `Object.prototype`, such as `constructor`, it leaves the store as it
is and replies that the raid named after that member has been deleted. -/
theorem raidDelete_prototype_id (raids : Store) :
    (∀ raidId raid, raidId ≠ "" → raids.get raidId = some raid →
      raidDelete raids (some raidId) =
        (raids.delete raidId, "Raid \x22" ++ raid.name ++ "\x22 has been deleted.") ∧
      (raids.delete raidId).get raidId = none ∧
      ∀ k, k ≠ raidId → (raids.delete raidId).get k = raids.get k) ∧
    raidDelete raids none =
      (raids, "Raid not found. Use \x60!raid list\x60 to see available raids.") ∧
    (∀ raidId, raids.get raidId = none → objectPrototype.get raidId = none →
      raidDelete raids (some raidId) =
        (raids, "Raid not found. Use \x60!raid list\x60 to see available raids.")) ∧
    (∀ raidId name, raids.get raidId = none → objectPrototype.get raidId = some name →
      raidDelete raids (some raidId) =
        (raids, "Raid \x22" ++ name.getD "undefined" ++ "\x22 has been deleted.")) := by
  refine ⟨?_, rfl, ?_, ?_⟩
  · intro raidId raid hne hget
    refine ⟨?_, JsObject.get_delete_self _ _, fun k hk => JsObject.get_delete_ne _ hk⟩
    simp [raidDelete, hne, JsObject.read_own raids raidId raid hget]
  · intro raidId hget hp
    by_cases hne : raidId = ""
    · simp [raidDelete, hne]
    · simp [raidDelete, hne, JsObject.read_undefined raids raidId hget hp]
  · intro raidId name hget hp
    have hne : raidId ≠ "" := by
      intro h
      have hempty : objectPrototype.get "" = none := by decide
      rw [h, hempty] at hp
      cases hp
    simp [raidDelete, hne, JsObject.read_inherited raids raidId name hget hp,
      JsObject.delete_of_get_none raids raidId hget]

/-- Witness of C26: deleting the raid of `tankStoreABB` empties the store, deleting the
unknown id `17` changes nothing and is answered with `Raid not found`, and
`!raid delete constructor` changes nothing and is answered with the deletion of a raid
`Object`. -/
theorem raidDelete_prototype_id_witness :
    raidDelete tankStoreABB (some "1700000000042") =
      (JsObject.delete tankStoreABB "1700000000042",
        "Raid \x22" ++ tankRaidABB.name ++ "\x22 has been deleted.") ∧
    raidDelete tankStoreABB (some "17") =
      (tankStoreABB, "Raid not found. Use \x60!raid list\x60 to see available raids.") ∧
    raidDelete tankStoreABB (some "constructor") =
      (tankStoreABB, "Raid \x22" ++ (some "Object").getD "undefined" ++ "\x22 has been deleted.") :=
  ⟨((raidDelete_prototype_id tankStoreABB).1 "1700000000042" tankRaidABB (by decide)
      (by decide)).1,
    (raidDelete_prototype_id tankStoreABB).2.2.1 "17" (by decide) (by decide),
    (raidDelete_prototype_id tankStoreABB).2.2.2 "constructor" (some "Object") (by decide)
      (by decide)⟩

/-! ## The documented `!raid create` example -/

set_option maxRecDepth 100000 in
/-- C28, failing run. The example of the comment parses to the documented name,
description, date, type and guide link, and to the role limits `Tank: 2` alone: each
quoted role ends a segment at its closing quote, so `:1` and `:2` come as segments of
their own with no role name and contribute nothing. -/
theorem parseRaidCreate_example :
    segmentsLoop exampleCommand.data none false [] "" =
      ["create", "Eden Savage", "Weekly prog", "2023-12-15 20:00", "raid1",
       "https://guide.com", "Tank:2", "Regen Healer", ":1", "Shield Healer", ":1",
       "Melee DPS", ":2", "Ranged DPS", ":1", "Caster DPS", ":1"] ∧
    parseRaidCreate exampleCommand =
      some
        { name := "Eden Savage"
          description := "Weekly prog"
          datetime := "2023-12-15 20:00"
          raidType := some "raid1"
          guideLink := some "https://guide.com"
          roles := [("Tank", 2)] } := by
  decide

/-! ## Party size -/

/-- C29. For a raid of the default composition with `partySize` 8, nine users sign up as
Flex, whose limit is 0: every call is accepted and the raid has 9 participants.  The same
happens for Flex on a raid whose limits are `Tank: 1` alone. -/
theorem partySize_not_enforced :
    ((defaultStore.get "1700000000042").map (fun raid => (raid.roles, raid.partySize))) =
      some (config.defaultRaidComp, 8) ∧
    (signUpEach defaultStore "1700000000042" "Flex" 1 nineUsers).2.map (fun r => r.success) =
      [true, true, true, true, true, true, true, true, true] ∧
    ((signUpEach defaultStore "1700000000042" "Flex" 1 nineUsers).1.get "1700000000042").map
      (fun raid => (raid.participants.length, raid.partySize)) = some (9, 8) ∧
    (signUpEach tankStore "1700000000042" "Flex" 1 nineUsers).2.map (fun r => r.success) =
      [true, true, true, true, true, true, true, true, true] ∧
    ((signUpEach tankStore "1700000000042" "Flex" 1 nineUsers).1.get "1700000000042").map
      (fun raid => (raid.participants.length, raid.partySize)) = some (9, 8) := by
  decide

end Stargazer
